import Mathlib

/-!
# RP2040 HID host/device relay: report translation and forwarding

A shallow embedding of `host_hid/src/main.c`: the capture-side callback
`tuh_hid_report_received_cb`, the registry callbacks, the custom-channel
dispatcher `process_hid_report`, and one pass of the forwarding loop of
`main`; and of the report builders of the client library
`rp2040_host_dll/rp2040.cpp`.

Conventions.
* `uint8_t`, `uint16_t`, `uint32_t` values are `Nat`; `int8_t` values and the
  C `int` are `Int`.  A narrowing conversion is written explicitly
  (`toInt8`, `% 2 ^ 32`).
* A raw report `uint8_t const *report, uint16_t len` is a `List Nat` whose
  length is `len`; `report[i]` is `rd report i`.
* The globals of `main.c` are the fields of `State`.
* Calls into the USB stack are recorded, in program order, as a `List Call`.
  What the stack answers (endpoint readiness, transmit success, the clock) is
  an explicit input of the function that asks.
-/

namespace HidRemapper

/-! ## Constants -/

/-- Modelled from the spec: the interface-protocol tag `HID_ITF_PROTOCOL_NONE`
of the USB stack's `hid.h` (absent from the sources); §4.1 gives command id
`0` to the gamepad layout. -/
def HID_ITF_PROTOCOL_NONE : Nat := 0

/-- Modelled from the spec: the interface-protocol tag
`HID_ITF_PROTOCOL_KEYBOARD` of the USB stack's `hid.h` (absent from the
sources); §4.1 gives command id `1` to keyboard passthrough. -/
def HID_ITF_PROTOCOL_KEYBOARD : Nat := 1

/-- Modelled from the spec: the interface-protocol tag
`HID_ITF_PROTOCOL_MOUSE` of the USB stack's `hid.h` (absent from the
sources); §4.1 gives command id `2` to mouse inject. -/
def HID_ITF_PROTOCOL_MOUSE : Nat := 2

/-- Modelled from the spec: the Boot sub-protocol value `HID_PROTOCOL_BOOT`
of the USB stack's `hid.h` (absent from the sources). -/
def HID_PROTOCOL_BOOT : Nat := 0

/-- Modelled from the spec: the Report sub-protocol value
`HID_PROTOCOL_REPORT` of the USB stack's `hid.h` (absent from the sources). -/
def HID_PROTOCOL_REPORT : Nat := 1

/-- `#define IDLE_TIMEOUT_MS 10`. -/
def IDLE_TIMEOUT_MS : Nat := 10

/-- `#define KEYBOARD_QUEUE_SIZE 8`. -/
def KEYBOARD_QUEUE_SIZE : Nat := 8

/-- `#define MOUSE_QUEUE_SIZE 8`. -/
def MOUSE_QUEUE_SIZE : Nat := 8

/-- `#define GAMEPAD_QUEUE_SIZE 8`. -/
def GAMEPAD_QUEUE_SIZE : Nat := 8

/-- `BLINK_NOT_MOUNTED = 250`. -/
def BLINK_NOT_MOUNTED : Nat := 250

/-- `BLINK_MOUNTED = 1000`. -/
def BLINK_MOUNTED : Nat := 1000

/-- `#define MOUSE_BUTTON_LEFT (1 << 0)` of `hid_reports.h`. -/
def MOUSE_BUTTON_LEFT : Nat := 1

/-! ## Machine integers -/

/-- Conversion of a C integer to `int8_t`: the value modulo `2 ^ 8` taken in
`-128 .. 127`. -/
def toInt8 (n : Int) : Int := (n + 128) % 256 - 128

/-- Conversion of an `int8_t` to the byte that stores it. -/
def toUInt8 (n : Int) : Nat := (n % 256).toNat

/-- A byte read as a signed 8-bit value, by cases. -/
def asSigned8 (b : Nat) : Int := if b < 128 then (b : Int) else (b : Int) - 256

/-- The element `report[i]` of a raw buffer. -/
def rd (report : List Nat) (i : Nat) : Nat := report.getD i 0

/-! ## Data model -/

/-- The `hid_device_t` slot of `main.c`. -/
structure hid_device_t where
  dev_addr : Nat
  idx : Nat
  protocol : Nat
  deriving DecidableEq, Repr

/-- The `keyboard_report_t` of `main.c`; `keycode` holds six entries. -/
structure keyboard_report_t where
  modifier : Nat
  keycode : List Nat
  deriving DecidableEq, Repr

/-- The `mouse_report_t` of `main.c`. -/
structure mouse_report_t where
  buttons : Nat
  x : Int
  y : Int
  wheel : Int
  deriving DecidableEq, Repr

/-- The `gamepad_report_t` of `main.c`. -/
structure gamepad_report_t where
  x : Int
  y : Int
  z : Int
  rz : Int
  rx : Int
  ry : Int
  hat : Nat
  buttons : Nat
  deriving DecidableEq, Repr

/-- A call into the USB stack.  The fixed leading arguments of the transmit
primitives (the logical channel and report id `0`) are left out: each
primitive is always called with the same ones. -/
inductive Call where
  /-- Records `tud_hid_n_keyboard_report(REPORT_ID_KEYBOARD, 0, modifier, keycode)`. -/
  | keyboard_report (modifier : Nat) (keycode : List Nat)
  /-- Records `tud_hid_n_mouse_report(REPORT_ID_MOUSE, 0, buttons, x, y, vertical, horizontal)`. -/
  | mouse_report (buttons : Nat) (x y vertical horizontal : Int)
  /-- Records `tud_hid_n_gamepad_report(REPORT_ID_GAMEPAD, 0, x, y, z, rz, rx, ry, hat, buttons)`. -/
  | gamepad_report (x y z rz rx ry : Int) (hat buttons : Nat)
  /-- Records `tud_hid_n_report(REPORT_ID_CUSTOM, 0, custom_report, 64)`. -/
  | custom_report (bytes : List Nat)
  /-- Records `tuh_hid_receive_report(dev_addr, instance)`. -/
  | receive_report (dev_addr inst : Nat)
  /-- Records `tuh_hid_set_protocol(dev_addr, instance, protocol)`. -/
  | set_protocol (dev_addr inst protocol : Nat)
  /-- Records `board_delay(ms)`. -/
  | board_delay (ms : Nat)
  deriving DecidableEq, Repr

/-- The globals of `main.c`. -/
structure State where
  blink_interval_ms : Nat
  hid_devices : List hid_device_t
  mouse_to_gamepade : Int
  should_center : Bool
  last_mouse_move_time : Nat
  last_rpt : mouse_report_t
  keyboard_report_queue : List keyboard_report_t
  mouse_report_queue : List mouse_report_t
  gamepad_report_queue : List gamepad_report_t
  deriving DecidableEq, Repr

/-- The globals at start-up, with `n` interface slots (`CFG_TUH_HID`, a
build-time constant absent from the sources) and the three queues as
`queue_init` leaves them. -/
def State.init (n : Nat) : State :=
  { blink_interval_ms := BLINK_NOT_MOUNTED
    hid_devices := List.replicate n ⟨0, 0, 0⟩
    mouse_to_gamepade := 0
    should_center := false
    last_mouse_move_time := 0
    last_rpt := ⟨0, 0, 0, 0⟩
    keyboard_report_queue := []
    mouse_report_queue := []
    gamepad_report_queue := [] }

/-! ## The bounded queue

The queue of the board SDK (`pico/util/queue.h`) is not part of the sources. -/

/-- Modelled from the spec: `queue_try_add` of the board SDK's queue (absent
from the sources), §4.3 `try_enqueue`: fails, leaving the queue as it is,
when the queue holds `cap` items; otherwise appends at the tail. -/
def queue_try_add {α : Type} (cap : Nat) (q : List α) (x : α) : Bool × List α :=
  if q.length < cap then (true, q ++ [x]) else (false, q)

/-- Modelled from the spec: `queue_try_remove` of the board SDK's queue
(absent from the sources), §4.3 `try_dequeue`: returns nothing when the queue
is empty; otherwise removes and returns the oldest item. -/
def queue_try_remove {α : Type} (q : List α) : Option (α × List α) :=
  match q with
  | [] => none
  | x :: rest => some (x, rest)

/-! ## Capture side: `tuh_hid_report_received_cb` -/

/-- The gamepad report built at lines 724-733. -/
def parse_gamepad (report : List Nat) : gamepad_report_t :=
  { x := toInt8 (rd report 0)
    y := toInt8 (rd report 1)
    z := toInt8 (rd report 2)
    rz := toInt8 (rd report 3)
    rx := toInt8 (rd report 4)
    ry := toInt8 (rd report 5)
    hat := rd report 6
    buttons := (rd report 7 ||| (rd report 8 <<< 8) |||
                (rd report 9 <<< 16) ||| (rd report 10 <<< 24)) % 2 ^ 32 }

/-- The keyboard report built at lines 763-770. -/
def parse_keyboard (report : List Nat) : keyboard_report_t :=
  { modifier := rd report 0
    keycode := (List.range 6).map (fun i => rd report (2 + i)) }

/-- The 7-byte mouse shape, lines 810-813 and 823-826. -/
def parse_mouse7 (report : List Nat) : mouse_report_t :=
  { buttons := rd report 0
    x := toInt8 ((rd report 1 ||| (rd report 2 <<< 8) : Nat) : Int)
    y := toInt8 ((rd report 3 ||| (rd report 4 <<< 8) : Nat) : Int)
    wheel := toInt8 (rd report 5) }

/-- The boot mouse shape, lines 800-803. -/
def parse_mouse_boot (report : List Nat) : mouse_report_t :=
  { buttons := rd report 0
    x := toInt8 (rd report 1)
    y := toInt8 (rd report 2)
    wheel := toInt8 (rd report 3) }

/-- The locals `buttons, x, y, wheel` after lines 787-828, for the stored
sub-protocol `protocol`. -/
def parse_mouse (protocol : Nat) (report : List Nat) : mouse_report_t :=
  let r0 : mouse_report_t := ⟨0, 0, 0, 0⟩
  if protocol = HID_PROTOCOL_BOOT then
    let r1 := if report.length ≥ 4 then parse_mouse_boot report else r0
    if report.length = 7 then parse_mouse7 report else r1
  else
    if report.length = 7 then parse_mouse7 report else r0

/-- The callback `tuh_hid_report_received_cb(dev_addr, instance, report, len)`.
`proto` is what `tuh_hid_interface_protocol(dev_addr, instance)` answers and
`any_device_mounted` is the outcome of the `tuh_mounted` scan of the
zero-length path. -/
def tuh_hid_report_received_cb (proto : Nat) (any_device_mounted : Bool)
    (dev_addr inst : Nat) (report : List Nat) (s : State) : State × List Call :=
  if report.length = 0 then
    if any_device_mounted then
      (s, [Call.board_delay 1000, Call.receive_report dev_addr inst])
    else (s, [])
  else
    let protocol := (s.hid_devices.getD inst ⟨0, 0, 0⟩).protocol
    if proto = HID_ITF_PROTOCOL_NONE then
      if report.length ≥ 11 then
        let gmp_report := parse_gamepad report
        let r := queue_try_add GAMEPAD_QUEUE_SIZE s.gamepad_report_queue gmp_report
        ({ s with gamepad_report_queue := r.2 }, [Call.receive_report dev_addr inst])
      else
        (s, [Call.receive_report dev_addr inst])
    else if proto = HID_ITF_PROTOCOL_KEYBOARD then
      if report.length < 8 then
        (s, [Call.receive_report dev_addr inst])
      else
        let kbd_report := parse_keyboard report
        let r := queue_try_add KEYBOARD_QUEUE_SIZE s.keyboard_report_queue kbd_report
        ({ s with keyboard_report_queue := r.2 }, [Call.receive_report dev_addr inst])
    else if proto = HID_ITF_PROTOCOL_MOUSE then
      let rpt := parse_mouse protocol report
      let r := queue_try_add MOUSE_QUEUE_SIZE s.mouse_report_queue rpt
      if r.1 then
        ({ s with mouse_report_queue := r.2, last_rpt := rpt },
          [Call.receive_report dev_addr inst])
      else
        (s, [Call.receive_report dev_addr inst])
    else
      (s, [Call.receive_report dev_addr inst])

/-! ## Registry callbacks -/

/-- The callback `tuh_hid_mount_cb(dev_addr, instance, desc_report, desc_len)`.
`proto` is what `tuh_hid_interface_protocol` answers and `set_ok` what
`tuh_hid_set_protocol` returns. -/
def tuh_hid_mount_cb (proto : Nat) (set_ok : Bool) (dev_addr inst : Nat)
    (s : State) : State × List Call :=
  let s1 : State :=
    { s with
      blink_interval_ms := BLINK_MOUNTED
      hid_devices := s.hid_devices.set inst ⟨dev_addr, inst, HID_PROTOCOL_REPORT⟩ }
  let c1 : List Call :=
    if proto = HID_ITF_PROTOCOL_NONE then []
    else if proto = HID_ITF_PROTOCOL_KEYBOARD then []
    else if proto = HID_ITF_PROTOCOL_MOUSE then
      [Call.set_protocol dev_addr inst HID_PROTOCOL_BOOT]
    else []
  let s2 : State :=
    if proto = HID_ITF_PROTOCOL_MOUSE ∧ set_ok = false then
      { s1 with
        hid_devices := s1.hid_devices.set inst
          { (s1.hid_devices.getD inst ⟨0, 0, 0⟩) with protocol := HID_PROTOCOL_REPORT } }
    else s1
  let c2 : List Call :=
    if proto = HID_ITF_PROTOCOL_KEYBOARD ∨ proto = HID_ITF_PROTOCOL_MOUSE then
      [Call.receive_report dev_addr inst]
    else []
  (s2, c1 ++ c2)

/-- The callback `tuh_hid_set_protocol_complete_cb(dev_addr, instance, protocol)`. -/
def tuh_hid_set_protocol_complete_cb (_dev_addr inst protocol : Nat) (s : State) : State :=
  { s with
    hid_devices := s.hid_devices.set inst
      { (s.hid_devices.getD inst ⟨0, 0, 0⟩) with protocol := protocol } }

/-- The callback `tuh_hid_umount_cb(dev_addr, instance)`: it only logs. -/
def tuh_hid_umount_cb (_dev_addr _inst : Nat) (s : State) : State := s

/-- The callback `tuh_umount_cb(dev_addr)`; `any_device_mounted` is the outcome
of its `tuh_mounted` scan. -/
def tuh_umount_cb (any_device_mounted : Bool) (_dev_addr : Nat) (s : State) : State :=
  if any_device_mounted then s else { s with blink_interval_ms := BLINK_NOT_MOUNTED }

/-! ## Custom channel: `process_hid_report` -/

/-- The dispatcher `process_hid_report(report, len)`; `len` is not read. -/
def process_hid_report (report : List Nat) (s : State) : State × List Call :=
  let cmd_id := rd report 0
  let payload : Nat → Nat := fun i => rd report (1 + i)
  if cmd_id = HID_ITF_PROTOCOL_MOUSE then
    let buttons := payload 0
    let x := toInt8 (payload 1)
    let y := toInt8 (payload 2)
    let wheel := toInt8 (payload 3)
    match queue_try_remove s.mouse_report_queue with
    | some (rpt, q) =>
      let rpt_ : mouse_report_t :=
        { buttons := rpt.buttons ||| buttons
          x := toInt8 (rpt.x + x)
          y := toInt8 (rpt.y + y)
          wheel := toInt8 (rpt.wheel + wheel) }
      ({ s with mouse_report_queue := (queue_try_add MOUSE_QUEUE_SIZE q rpt_).2 }, [])
    | none =>
      let rpt_ : mouse_report_t :=
        { buttons := s.last_rpt.buttons ||| buttons
          x := x
          y := y
          wheel := wheel }
      ({ s with
         mouse_report_queue :=
           (queue_try_add MOUSE_QUEUE_SIZE s.mouse_report_queue rpt_).2 }, [])
  else if cmd_id = HID_ITF_PROTOCOL_KEYBOARD then
    (s, [Call.keyboard_report (payload 0) ((List.range 6).map (fun i => payload (1 + i)))])
  else if cmd_id = HID_ITF_PROTOCOL_NONE then
    (s, [Call.gamepad_report
          (toInt8 (payload 0)) (toInt8 (payload 1)) (toInt8 (payload 2))
          (toInt8 (payload 3)) (toInt8 (payload 4)) (toInt8 (payload 5))
          (payload 6)
          ((payload 7 ||| (payload 8 <<< 8) ||| (payload 9 <<< 16) |||
            (payload 10 <<< 24)) % 2 ^ 32)])
  else if cmd_id = 3 then
    ({ s with mouse_to_gamepade := (payload 0 : Int) }, [])
  else
    (s, [])

/-- The callback `tud_hid_set_report_cb(itf, report_id, report_type, buffer,
bufsize)`; `REPORT_ID_CUSTOM` is a constant of `usb_descriptors.h`, absent
from the sources. -/
def tud_hid_set_report_cb (REPORT_ID_CUSTOM : Nat) (itf : Nat) (buffer : List Nat)
    (s : State) : State × List Call :=
  if itf = REPORT_ID_CUSTOM ∧ buffer.length = 64 then process_hid_report buffer s
  else (s, [])

/-! ## Forwarding side: one pass of the `while (1)` loop of `main` -/

/-- What the USB stack and the clock answer during one pass of the loop. -/
structure LoopEnv where
  /-- Answer of `usbd_edpt_ready(0, 0x83)`, line 220. -/
  kbd_ready : Bool
  /-- Result of `tud_hid_n_keyboard_report`, line 223. -/
  kbd_sent : Bool
  /-- Answer of `usbd_edpt_ready(0, 0x84)`, line 243. -/
  mouse_ready : Bool
  /-- Result of `tud_hid_n_mouse_report`, line 268 or 278. -/
  mouse_sent : Bool
  /-- Value of `board_millis()`, line 269 or 308. -/
  now : Nat
  /-- Answer of `usbd_edpt_ready(0, 0x85)`, line 315. -/
  center_ready : Bool
  /-- Answer of `usbd_edpt_ready(0, 0x85)`, line 324. -/
  gamepad_ready : Bool
  /-- Result of `tud_hid_n_gamepad_report`, line 327. -/
  gamepad_sent : Bool
  deriving DecidableEq, Repr

/-- The answers of a pass at time `now` in which every endpoint is ready and
every transmit succeeds. -/
def LoopEnv.all_ready (now : Nat) : LoopEnv :=
  { kbd_ready := true, kbd_sent := true, mouse_ready := true, mouse_sent := true,
    now := now, center_ready := true, gamepad_ready := true, gamepad_sent := true }

/-- The `uint32_t` difference `a - b`. -/
def u32_sub (a b : Nat) : Nat := (a % 2 ^ 32 + 2 ^ 32 - b % 2 ^ 32) % 2 ^ 32

/-- The stick deflection `(v > 0) ? 127 : ((v == 0) ? 0 : -127)` of line 265. -/
def stick (v : Int) : Int := if v > 0 then 127 else if v = 0 then 0 else -127

/-- The 64-byte buffer `custom_report` of lines 253-256. -/
def custom_report (REPORT_ID_CUSTOM : Nat) (rpt : mouse_report_t) : List Nat :=
  [REPORT_ID_CUSTOM, rpt.buttons, toUInt8 rpt.x, toUInt8 rpt.y, toUInt8 rpt.wheel]
    ++ List.replicate 59 0

/-- Lines 218-235: the keyboard channel. -/
def keyboard_stage (env : LoopEnv) (s : State) : State × List Call :=
  match (if env.kbd_ready then queue_try_remove s.keyboard_report_queue else none) with
  | some (kbd_report, q) =>
    let success := env.kbd_sent
    let q1 := if !success then (queue_try_add KEYBOARD_QUEUE_SIZE q kbd_report).2 else q
    ({ s with keyboard_report_queue := q1 },
      [Call.keyboard_report kbd_report.modifier kbd_report.keycode])
  | none => (s, [])

/-- Lines 237-320: the mouse channel and the idle re-centering. -/
def mouse_stage (REPORT_ID_CUSTOM : Nat) (env : LoopEnv) (s : State) : State × List Call :=
  let convert_to_gamepad := s.mouse_to_gamepade
  match (if env.mouse_ready then queue_try_remove s.mouse_report_queue else none) with
  | some (rpt, q) =>
    let c0 := Call.custom_report (custom_report REPORT_ID_CUSTOM rpt)
    if convert_to_gamepad = 1 then
      let c1 := Call.gamepad_report 0 0 (stick rpt.x) (stick rpt.y) 0 0 0 0
      let rpt1 : mouse_report_t := { rpt with x := 0, y := 0 }
      let c2 := Call.mouse_report rpt1.buttons rpt1.x rpt1.y rpt1.wheel 0
      let success := env.mouse_sent
      let q1 := if !success then (queue_try_add MOUSE_QUEUE_SIZE q rpt1).2 else q
      ({ s with mouse_report_queue := q1, last_mouse_move_time := env.now }, [c0, c1, c2])
    else if convert_to_gamepad = 2 then
      ({ s with mouse_report_queue := q }, [c0])
    else
      let c2 := Call.mouse_report rpt.buttons rpt.x rpt.y rpt.wheel 0
      let success := env.mouse_sent
      let q1 := if !success then (queue_try_add MOUSE_QUEUE_SIZE q rpt).2 else q
      ({ s with mouse_report_queue := q1 }, [c0, c2])
  | none =>
    let now := env.now
    let expired : Bool := decide (u32_sub now s.last_mouse_move_time > IDLE_TIMEOUT_MS)
    let should_center1 := if expired then true else s.should_center
    let last1 := if expired then now else s.last_mouse_move_time
    if convert_to_gamepad = 1 ∧ should_center1 = true ∧ env.center_ready = true then
      ({ s with should_center := false, last_mouse_move_time := last1 },
        [Call.gamepad_report 0 0 0 0 0 0 0 0])
    else
      ({ s with should_center := should_center1, last_mouse_move_time := last1 }, [])

/-- Lines 322-348: the gamepad channel. -/
def gamepad_stage (env : LoopEnv) (s : State) : State × List Call :=
  match (if env.gamepad_ready then queue_try_remove s.gamepad_report_queue else none) with
  | some (gmp_report, q) =>
    let success := env.gamepad_sent
    let q1 := if !success then (queue_try_add GAMEPAD_QUEUE_SIZE q gmp_report).2 else q
    ({ s with gamepad_report_queue := q1 },
      [Call.gamepad_report gmp_report.x gmp_report.y gmp_report.z gmp_report.rz
        gmp_report.rx gmp_report.ry gmp_report.hat gmp_report.buttons])
  | none => (s, [])

/-- One pass of the `while (1)` loop of `main`, lines 214-350, after
`tud_task()` has returned. -/
def main_loop_iteration (REPORT_ID_CUSTOM : Nat) (env : LoopEnv) (s : State) :
    State × List Call :=
  let r1 := keyboard_stage env s
  let r2 := mouse_stage REPORT_ID_CUSTOM env r1.1
  let r3 := gamepad_stage env r2.1
  (r3.1, r1.2 ++ r2.2 ++ r3.2)

/-! ## Runs -/

/-- Something that happens to the firmware. -/
inductive Event where
  /-- A report arrives from an attached device. -/
  | report_received (proto : Nat) (any_device_mounted : Bool) (dev_addr inst : Nat)
      (report : List Nat)
  /-- A 64-byte report arrives on the custom channel. -/
  | command (report : List Nat)
  /-- One pass of the forwarding loop. -/
  | forward (env : LoopEnv)
  deriving DecidableEq, Repr

/-- The effect of one event. -/
def step (REPORT_ID_CUSTOM : Nat) (e : Event) (s : State) : State × List Call :=
  match e with
  | Event.report_received proto m a i r => tuh_hid_report_received_cb proto m a i r s
  | Event.command r => process_hid_report r s
  | Event.forward env => main_loop_iteration REPORT_ID_CUSTOM env s

/-- The effect of a sequence of events, with the calls made in order. -/
def run (REPORT_ID_CUSTOM : Nat) : List Event → State → State × List Call
  | [], s => (s, [])
  | e :: es, s =>
    let r1 := step REPORT_ID_CUSTOM e s
    let r2 := run REPORT_ID_CUSTOM es r1.1
    (r2.1, r1.2 ++ r2.2)

/-- Delivery of a sequence of reports on one interface, nothing in between. -/
def deliver (proto : Nat) (any_device_mounted : Bool) (dev_addr inst : Nat) :
    List (List Nat) → State → State
  | [], s => s
  | r :: rs, s =>
    deliver proto any_device_mounted dev_addr inst rs
      (tuh_hid_report_received_cb proto any_device_mounted dev_addr inst r s).1

/-! ## Observations on calls and events -/

/-- Whether a call is a gamepad transmit. -/
def Call.is_gamepad : Call → Bool
  | Call.gamepad_report _ _ _ _ _ _ _ _ => true
  | _ => false

/-- Whether a call is an ordinary mouse transmit. -/
def Call.is_mouse : Call → Bool
  | Call.mouse_report _ _ _ _ _ => true
  | _ => false

/-- Whether a button mask has the bit `MOUSE_BUTTON_LEFT`. -/
def left_held (buttons : Nat) : Bool := buttons &&& MOUSE_BUTTON_LEFT = MOUSE_BUTTON_LEFT

/-- Whether a call is an ordinary mouse transmit without the left button. -/
def Call.mouse_without_left : Call → Bool
  | Call.mouse_report buttons _ _ _ _ => !left_held buttons
  | _ => false

/-- Whether an event is a report arriving on a Mouse interface. -/
def Event.is_physical_mouse : Event → Bool
  | Event.report_received proto _ _ _ _ => proto = HID_ITF_PROTOCOL_MOUSE
  | _ => false

/-- Whether a call is a custom mirror transmit. -/
def Call.is_custom : Call → Bool
  | Call.custom_report _ => true
  | _ => false

/-- The answers of a pass at time `now` in which every endpoint is ready and
every transmit fails. -/
def LoopEnv.all_failing (now : Nat) : LoopEnv :=
  { kbd_ready := true, kbd_sent := false, mouse_ready := true, mouse_sent := false,
    now := now, center_ready := true, gamepad_ready := true, gamepad_sent := false }

/-- Whether a call is a keyboard transmit. -/
def Call.is_keyboard : Call → Bool
  | Call.keyboard_report _ _ => true
  | _ => false

/-! ## The client library: `rp2040_host_dll/rp2040.cpp`

The hardware handle `g_dev` is represented by whether it is open; the pacing
delay of `_send_report` and the result of `hid_write` are left out.  What is
modelled is the 64-byte buffer handed to `hid_write`, whose byte 0 is the
report id. -/

/-- The client's `_send_report(data, data_length, cmd_id)`: nothing is
written when no device is open or `data_length > 62`; otherwise the buffer
`{0x00, cmd_id, data..., 0...}` of 64 bytes is handed to `hid_write`. -/
def _send_report (g_dev_open : Bool) (data : List Nat) (cmd_id : Nat) : Option (List Nat) :=
  if g_dev_open = false ∨ data.length > 62 then none
  else some ([0x00, cmd_id] ++ data ++ List.replicate (62 - data.length) 0)

/-- The `switch (key)` of `_update_keyboard_report`, lines 343-352: the
modifier bit of a modifier key. -/
def modifier_bit (key : Nat) : Nat :=
  if key = 0xE0 then 0x01
  else if key = 0xE1 then 0x02
  else if key = 0xE2 then 0x04
  else if key = 0xE3 then 0x08
  else if key = 0xE4 then 0x10
  else if key = 0xE5 then 0x20
  else if key = 0xE6 then 0x40
  else if key = 0xE7 then 0x80
  else 0

/-- The loop of `_update_keyboard_report`, lines 336-357, over the pressed
keys in the order the set enumerates them: the locals `modifier`, `keys[6]`
and `key_index` after the loop. -/
def keyboard_scan (g_keyboard_keys : List Nat) : Nat × List Nat × Nat :=
  g_keyboard_keys.foldl
    (fun (st : Nat × List Nat × Nat) key =>
      if key ≥ 0xE0 ∧ key ≤ 0xE7 then (st.1 ||| modifier_bit key, st.2.1, st.2.2)
      else if st.2.2 < 6 then (st.1, st.2.1.set st.2.2 key, st.2.2 + 1)
      else st)
    (0, List.replicate 6 0, 0)

/-- The array `report[8]` of `_update_keyboard_report`, lines 359-360:
`{modifier, 0x00}` followed by the six bytes of `keys`. -/
def keyboard_report_bytes (modifier : Nat) (keys : List Nat) : List Nat :=
  [modifier, 0x00] ++ keys

/-- The client's `_update_keyboard_report()`: the buffer it hands to
`hid_write`, for the pressed keys in enumeration order. -/
def _update_keyboard_report (g_dev_open : Bool) (g_keyboard_keys : List Nat) :
    Option (List Nat) :=
  let st := keyboard_scan g_keyboard_keys
  _send_report g_dev_open (keyboard_report_bytes st.1 st.2.1) 0x01

/-- The array `report[11]` of `_send_gamepad_report`, lines 435-447. -/
def gamepad_report_bytes (g_gamepad_x g_gamepad_y g_gamepad_z g_gamepad_rz g_gamepad_rx
    g_gamepad_ry : Int) (g_gamepad_hat g_gamepad_buttons : Nat) : List Nat :=
  [toUInt8 g_gamepad_x, toUInt8 g_gamepad_y, toUInt8 g_gamepad_z, toUInt8 g_gamepad_rz,
   toUInt8 g_gamepad_rx, toUInt8 g_gamepad_ry, g_gamepad_hat,
   (g_gamepad_buttons >>> 0) % 256, (g_gamepad_buttons >>> 8) % 256,
   (g_gamepad_buttons >>> 16) % 256, (g_gamepad_buttons >>> 24) % 256]

/-- The client's `_send_gamepad_report()`: the buffer it hands to
`hid_write`, for the client's gamepad globals. -/
def _send_gamepad_report (g_dev_open : Bool) (g_gamepad_x g_gamepad_y g_gamepad_z
    g_gamepad_rz g_gamepad_rx g_gamepad_ry : Int) (g_gamepad_hat g_gamepad_buttons : Nat) :
    Option (List Nat) :=
  _send_report g_dev_open
    (gamepad_report_bytes g_gamepad_x g_gamepad_y g_gamepad_z g_gamepad_rz g_gamepad_rx
      g_gamepad_ry g_gamepad_hat g_gamepad_buttons) 0x00

/-- The bytes the firmware is given for a buffer written by the client: those
after the report-id byte. -/
def after_report_id (buffer : List Nat) : List Nat := buffer.drop 1

/-- The array `report[]` of `Mouse_Move`, lines 154-159 and 169-174:
`{g_mouse_buttons, step_x & 0xFF, step_y & 0xFF, 0, 0}`. -/
def mouse_move_bytes (g_mouse_buttons : Nat) (step_x step_y : Int) : List Nat :=
  [g_mouse_buttons, toUInt8 step_x, toUInt8 step_y, 0, 0]

/-- The `while` loop of the client's `Mouse_Move` and the code after it, lines
147-178: the buffers handed to `hid_write`, in order, and the value returned.
Every write the guard of `_send_report` lets through is taken to succeed.  The
`int` arguments are integers whose absolute value `abs` can represent; every
later value of `x` and `y` lies between the argument and zero.  The first
argument bounds the number of loop passes; `none` means the bound was reached
before the loop ended. -/
def Mouse_Move_loop (g_dev_open : Bool) (g_mouse_buttons : Nat) :
    Nat → Int → Int → Option (List (List Nat) × Bool)
  | 0, _, _ => none
  | fuel + 1, x, y =>
    if x.natAbs > 127 ∨ y.natAbs > 127 then
      let step_x0 : Int := if x > 0 then 127 else if x < 0 then -127 else 0
      let step_y0 : Int := if y > 0 then 127 else if y < 0 then -127 else 0
      let step_x : Int := if x.natAbs ≤ 127 then x else step_x0
      let step_y : Int := if y.natAbs ≤ 127 then y else step_y0
      match _send_report g_dev_open (mouse_move_bytes g_mouse_buttons step_x step_y) 0x02 with
      | none => some ([], false)
      | some buffer =>
        (Mouse_Move_loop g_dev_open g_mouse_buttons fuel (x - step_x) (y - step_y)).map
          (fun r => (buffer :: r.1, r.2))
    else if x ≠ 0 ∨ y ≠ 0 then
      match _send_report g_dev_open (mouse_move_bytes g_mouse_buttons x y) 0x02 with
      | none => some ([], false)
      | some buffer => some ([buffer], true)
    else some ([], true)

/-- The client's `Mouse_Move(x, y)`, with a bound on the number of loop
passes. -/
def Mouse_Move (g_dev_open : Bool) (g_mouse_buttons : Nat) (fuel : Nat) (x y : Int) :
    Option (List (List Nat) × Bool) :=
  if x = 0 ∧ y = 0 then some ([], true)
  else Mouse_Move_loop g_dev_open g_mouse_buttons fuel x y

/-- The buffer `Mouse_Move` writes for one step. -/
def mouse_move_buffer (g_mouse_buttons : Nat) (step : Int × Int) : List Nat :=
  [0x00, 0x02, g_mouse_buttons, toUInt8 step.1, toUInt8 step.2, 0, 0] ++ List.replicate 57 0

/-- The outputs of the client's `HID_ParseMouseReport`. -/
structure ParsedMouse where
  report_id : Int
  buttons : Int
  x : Int
  y : Int
  wheel : Int
  deriving DecidableEq, Repr

/-- The expression `(b > 127) ? (int)b - 256 : b` of `HID_ParseMouseReport`. -/
def signed_of_byte (b : Nat) : Int := if b > 127 then (b : Int) - 256 else (b : Int)

/-- The client's `HID_ParseMouseReport(data, data_size, ...)`: `none` when it
returns `false`, otherwise the values stored through its five pointers. -/
def HID_ParseMouseReport (data : List Nat) (data_size : Int) : Option ParsedMouse :=
  if data_size < 4 then none
  else
    let has_report_id : Bool := decide (rd data 0 ≠ 0x00)
    if has_report_id = true ∧ data_size ≥ 5 then
      some
        { report_id := rd data 0
          buttons := rd data 1
          x := signed_of_byte (rd data 2)
          y := signed_of_byte (rd data 3)
          wheel := if data_size > 4 then signed_of_byte (rd data 4) else 0 }
    else
      some
        { report_id := 0
          buttons := rd data 0
          x := signed_of_byte (rd data 1)
          y := signed_of_byte (rd data 2)
          wheel := if data_size > 3 then signed_of_byte (rd data 3) else 0 }

/-! ## String descriptors: `usb_descriptors.c` -/

/-- Modelled from the spec: the descriptor type `TUSB_DESC_STRING` of the USB
stack (absent from the sources), the string descriptor type `0x03` of USB. -/
def TUSB_DESC_STRING : Nat := 0x03

/-- `STRID_LANGID = 0`. -/
def STRID_LANGID : Nat := 0

/-- `STRID_SERIAL = 3`. -/
def STRID_SERIAL : Nat := 3

/-- The test `ch < 0x20 || ch > 0x7F || ch == 0x2C` of line 310. -/
def serial_char_invalid (ch : Nat) : Bool := decide (ch < 0x20 ∨ ch > 0x7F ∨ ch = 0x2C)

/-- The conversion `(uint16_t) str[i]` of line 330, for the character stored
in the byte `ch`: on a target whose plain `char` is signed, a byte of `0x80`
or more is sign-extended. -/
def char_to_u16 (char_signed : Bool) (ch : Nat) : Nat :=
  if char_signed = true ∧ ch ≥ 0x80 then (ch + 0xFF00) % 2 ^ 16 else ch

/-- The callback `tud_descriptor_string_cb(index, langid)`: `none` for `NULL`,
otherwise the 33 words of `_desc_str`.  The three strings of `string_desc_arr`
(macros of the absent `usb_descriptors.h`) are parameters, each the list of
the bytes of its characters before the terminating zero; `char_signed` tells
whether plain `char` is signed on the target. -/
def tud_descriptor_string_cb (char_signed : Bool)
    (USB_MANUFACTURER USB_PRODUCT USB_SERIAL_NUMBER : List Nat)
    (index : Nat) : Option (List Nat) :=
  let string_desc_arr : List (List Nat) :=
    [[0x09, 0x04], USB_MANUFACTURER, USB_PRODUCT, USB_SERIAL_NUMBER]
  let cleared : List Nat := List.replicate 33 0
  -- the `switch (index)`: `_desc_str` so far, `str`, `chr_count`
  let sw : List Nat × Option (List Nat) × Nat :=
    if index = STRID_LANGID then
      (cleared.set 1 (0x09 + 0x04 * 256), none, 1)
    else if index = STRID_SERIAL then
      let str := string_desc_arr.getD STRID_SERIAL []
      if str.length > 0 then
        (cleared, some str, if str.any serial_char_invalid then 0 else str.length)
      else (cleared, some str, 0)
    else if index < string_desc_arr.length then
      (cleared, some (string_desc_arr.getD index []), (string_desc_arr.getD index []).length)
    else (cleared, none, 0)
  -- the conversion to UTF-16
  let conv : List Nat × Nat :=
    match sw.2.1 with
    | some str =>
      if index ≠ STRID_LANGID ∧ sw.2.2 > 0 then
        let max_chars := 33 - 1
        let chr_count := if sw.2.2 > max_chars then max_chars else sw.2.2
        ((List.range chr_count).foldl
          (fun d i => d.set (1 + i) (char_to_u16 char_signed (rd str i))) sw.1, chr_count)
      else (sw.1, sw.2.2)
    | none => (sw.1, sw.2.2)
  -- the header
  if conv.2 > 0 then
    some (conv.1.set 0 (((TUSB_DESC_STRING <<< 8) ||| (2 * conv.2 + 2)) % 2 ^ 16))
  else none

/-- The descriptor the specification gives for a table string `str`: word 0 is
`0x0300 | (2n + 2)` with `n = min(L, 32)`, words 1..n are the first `n`
characters, and the remaining words of the 33 are zero. -/
def string_descriptor_words (str : List Nat) : List Nat :=
  [0x0300 ||| (2 * min str.length 32 + 2)] ++ str.take (min str.length 32)
    ++ List.replicate (32 - min str.length 32) 0

/-! ## Arithmetic lemmas -/

theorem toInt8_eq_asSigned8 (b : Nat) (h : b < 256) : toInt8 (b : Int) = asSigned8 b := by
  unfold toInt8 asSigned8
  split <;> omega

theorem lor_shift8_mod (a b : Nat) : (a ||| (b <<< 8)) % 256 = a % 256 := by
  have h : (256 : Nat) = 2 ^ 8 := by norm_num
  rw [h]
  apply Nat.eq_of_testBit_eq
  intro i
  simp only [Nat.testBit_mod_two_pow, Nat.testBit_or, Nat.testBit_shiftLeft]
  by_cases hi : i < 8
  · have : ¬ (i ≥ 8) := by omega
    simp [hi, this]
  · simp [hi]

theorem toInt8_lor_shift8 (a b : Nat) (h : a < 256) :
    toInt8 ((a ||| (b <<< 8) : Nat) : Int) = asSigned8 a := by
  have h1 := lor_shift8_mod a b
  rw [← toInt8_eq_asSigned8 a h]
  unfold toInt8
  omega

theorem lor_shift_eq_add (a b k : Nat) (h : a < 2 ^ k) : a ||| (b <<< k) = a + 2 ^ k * b := by
  rw [Nat.shiftLeft_eq, Nat.mul_comm b, Nat.lor_comm, ← Nat.mul_add_lt_is_or h, Nat.add_comm]

theorem buttons_le32 (b7 b8 b9 b10 : Nat) (h7 : b7 < 256) (h8 : b8 < 256) (h9 : b9 < 256)
    (h10 : b10 < 256) :
    (b7 ||| (b8 <<< 8) ||| (b9 <<< 16) ||| (b10 <<< 24)) % 2 ^ 32
      = b7 + 2 ^ 8 * b8 + 2 ^ 16 * b9 + 2 ^ 24 * b10 := by
  rw [lor_shift_eq_add b7 b8 8 (by omega)]
  rw [lor_shift_eq_add _ b9 16 (by omega)]
  rw [lor_shift_eq_add _ b10 24 (by omega)]
  omega

theorem parse_gamepad_bytes (b0 b1 b2 b3 b4 b5 b6 b7 b8 b9 b10 : Nat) (rest : List Nat)
    (h0 : b0 < 256) (h1 : b1 < 256) (h2 : b2 < 256) (h3 : b3 < 256) (h4 : b4 < 256)
    (h5 : b5 < 256) (h7 : b7 < 256) (h8 : b8 < 256) (h9 : b9 < 256) (h10 : b10 < 256) :
    parse_gamepad (b0 :: b1 :: b2 :: b3 :: b4 :: b5 :: b6 :: b7 :: b8 :: b9 :: b10 :: rest)
      = ⟨asSigned8 b0, asSigned8 b1, asSigned8 b2, asSigned8 b3, asSigned8 b4,
          asSigned8 b5, b6, b7 + 2 ^ 8 * b8 + 2 ^ 16 * b9 + 2 ^ 24 * b10⟩ := by
  have hb := buttons_le32 b7 b8 b9 b10 h7 h8 h9 h10
  simp only [parse_gamepad, rd, List.getD_cons_zero, List.getD_cons_succ, hb,
    toInt8_eq_asSigned8 _ h0, toInt8_eq_asSigned8 _ h1, toInt8_eq_asSigned8 _ h2,
    toInt8_eq_asSigned8 _ h3, toInt8_eq_asSigned8 _ h4, toInt8_eq_asSigned8 _ h5]

theorem received_gamepad_state (m : Bool) (a i : Nat) (report : List Nat) (s : State)
    (hlen : 11 ≤ report.length) :
    (tuh_hid_report_received_cb HID_ITF_PROTOCOL_NONE m a i report s).1
      = { s with
          gamepad_report_queue :=
            (queue_try_add GAMEPAD_QUEUE_SIZE s.gamepad_report_queue
              (parse_gamepad report)).2 } := by
  unfold tuh_hid_report_received_cb
  rw [if_neg (show ¬ report.length = 0 by omega), if_pos rfl,
    if_pos (show report.length ≥ 11 by omega)]

/-! ## Capture-side parsing (C1 - C4) -/

/-- C1: a report of at least eight bytes `b0 b1 k0 .. k5 ...` received on a
Keyboard interface while the keyboard queue is not full appends exactly one
report, `{modifier = b0, keycode = k0 .. k5}`, to the keyboard queue and
changes nothing else, whatever `b1` and the bytes after `k5` are. -/
theorem keyboard_report_received (s : State) (m : Bool) (a i : Nat)
    (b0 b1 k0 k1 k2 k3 k4 k5 : Nat) (rest : List Nat)
    (hq : s.keyboard_report_queue.length < KEYBOARD_QUEUE_SIZE) :
    (tuh_hid_report_received_cb HID_ITF_PROTOCOL_KEYBOARD m a i
        (b0 :: b1 :: k0 :: k1 :: k2 :: k3 :: k4 :: k5 :: rest) s).1
      = { s with
          keyboard_report_queue :=
            s.keyboard_report_queue ++ [⟨b0, [k0, k1, k2, k3, k4, k5]⟩] } := by
  simp [tuh_hid_report_received_cb, HID_ITF_PROTOCOL_KEYBOARD, HID_ITF_PROTOCOL_NONE,
    queue_try_add, hq, parse_keyboard, rd, List.range, List.range.loop]
  rw [if_neg (by omega)]

theorem keyboard_report_received_witness :
    (State.init 4).keyboard_report_queue.length < KEYBOARD_QUEUE_SIZE ∧
    (tuh_hid_report_received_cb HID_ITF_PROTOCOL_KEYBOARD false 1 0
        [2, 255, 4, 5, 6, 7, 8, 9, 77] (State.init 4)).1
      = { State.init 4 with keyboard_report_queue := [] ++ [⟨2, [4, 5, 6, 7, 8, 9]⟩] } :=
  ⟨by decide,
    keyboard_report_received (State.init 4) false 1 0 2 255 4 5 6 7 8 9 [77] (by decide)⟩

/-- C2: a 7-byte report `b0 .. b6` received on a Mouse interface is parsed,
for every stored sub-protocol, to `{buttons = b0, x = b1 as signed,
y = b3 as signed, wheel = b5 as signed}`; `x` is the low 8 bits of
`b1 | b2 << 8` read as signed, which does not depend on `b2` (and `y`
likewise with `b3`, `b4`); that report is the one appended to the mouse
queue. -/
theorem mouse_report7_received (s : State) (m : Bool) (a i : Nat)
    (b0 b1 b2 b3 b4 b5 b6 : Nat) (h1 : b1 < 256) (h3 : b3 < 256) (h5 : b5 < 256)
    (hq : s.mouse_report_queue.length < MOUSE_QUEUE_SIZE) :
    asSigned8 ((b1 ||| (b2 <<< 8)) % 256) = asSigned8 b1 ∧
    asSigned8 ((b3 ||| (b4 <<< 8)) % 256) = asSigned8 b3 ∧
    (∀ protocol : Nat, parse_mouse protocol [b0, b1, b2, b3, b4, b5, b6]
        = ⟨b0, asSigned8 ((b1 ||| (b2 <<< 8)) % 256),
            asSigned8 ((b3 ||| (b4 <<< 8)) % 256), asSigned8 b5⟩) ∧
    (tuh_hid_report_received_cb HID_ITF_PROTOCOL_MOUSE m a i
        [b0, b1, b2, b3, b4, b5, b6] s).1
      = { s with
          mouse_report_queue :=
            s.mouse_report_queue ++ [⟨b0, asSigned8 b1, asSigned8 b3, asSigned8 b5⟩]
          last_rpt := ⟨b0, asSigned8 b1, asSigned8 b3, asSigned8 b5⟩ } := by
  have e1 : (b1 ||| (b2 <<< 8)) % 256 = b1 := by rw [lor_shift8_mod]; omega
  have e3 : (b3 ||| (b4 <<< 8)) % 256 = b3 := by rw [lor_shift8_mod]; omega
  have hp : ∀ protocol : Nat, parse_mouse protocol [b0, b1, b2, b3, b4, b5, b6]
      = ⟨b0, asSigned8 b1, asSigned8 b3, asSigned8 b5⟩ := by
    intro protocol
    simp [parse_mouse, parse_mouse7, rd, toInt8_lor_shift8 _ _ h1, toInt8_lor_shift8 _ _ h3,
      toInt8_eq_asSigned8 _ h5]
  refine ⟨by rw [e1], by rw [e3], ?_, ?_⟩
  · intro protocol
    rw [e1, e3]
    exact hp protocol
  · simp [tuh_hid_report_received_cb, HID_ITF_PROTOCOL_MOUSE, HID_ITF_PROTOCOL_NONE,
      HID_ITF_PROTOCOL_KEYBOARD, queue_try_add, hq, hp]

theorem mouse_report7_received_witness :
    200 < 256 ∧ 4 < 256 ∧ 6 < 256 ∧
    (State.init 4).mouse_report_queue.length < MOUSE_QUEUE_SIZE ∧
    (asSigned8 ((200 ||| (3 <<< 8)) % 256) = asSigned8 200 ∧
     asSigned8 ((4 ||| (5 <<< 8)) % 256) = asSigned8 4 ∧
     (∀ protocol : Nat, parse_mouse protocol [1, 200, 3, 4, 5, 6, 7]
        = ⟨1, asSigned8 ((200 ||| (3 <<< 8)) % 256),
            asSigned8 ((4 ||| (5 <<< 8)) % 256), asSigned8 6⟩) ∧
     (tuh_hid_report_received_cb HID_ITF_PROTOCOL_MOUSE false 1 0
        [1, 200, 3, 4, 5, 6, 7] (State.init 4)).1
      = { State.init 4 with
          mouse_report_queue :=
            (State.init 4).mouse_report_queue ++ [⟨1, asSigned8 200, asSigned8 4, asSigned8 6⟩]
          last_rpt := ⟨1, asSigned8 200, asSigned8 4, asSigned8 6⟩ }) :=
  ⟨by decide, by decide, by decide, by decide,
    mouse_report7_received (State.init 4) false 1 0 1 200 3 4 5 6 7
      (by decide) (by decide) (by decide) (by decide)⟩

/-- C3: a report of at least eleven bytes `b0 .. b10 ...` received on an
interface of protocol None while the gamepad queue is not full appends
exactly one gamepad report: the six axes are `b0 .. b5` read as signed, the
hat is `b6`, and the buttons are `b7 + 2^8 b8 + 2^16 b9 + 2^24 b10`. -/
theorem gamepad_report_received (s : State) (m : Bool) (a i : Nat)
    (b0 b1 b2 b3 b4 b5 b6 b7 b8 b9 b10 : Nat) (rest : List Nat)
    (h0 : b0 < 256) (h1 : b1 < 256) (h2 : b2 < 256) (h3 : b3 < 256) (h4 : b4 < 256)
    (h5 : b5 < 256) (h7 : b7 < 256) (h8 : b8 < 256) (h9 : b9 < 256) (h10 : b10 < 256)
    (hq : s.gamepad_report_queue.length < GAMEPAD_QUEUE_SIZE) :
    (tuh_hid_report_received_cb HID_ITF_PROTOCOL_NONE m a i
        (b0 :: b1 :: b2 :: b3 :: b4 :: b5 :: b6 :: b7 :: b8 :: b9 :: b10 :: rest) s).1
      = { s with
          gamepad_report_queue :=
            s.gamepad_report_queue ++
              [⟨asSigned8 b0, asSigned8 b1, asSigned8 b2, asSigned8 b3, asSigned8 b4,
                asSigned8 b5, b6, b7 + 2 ^ 8 * b8 + 2 ^ 16 * b9 + 2 ^ 24 * b10⟩] } := by
  rw [received_gamepad_state m a i _ s (by simp),
    parse_gamepad_bytes b0 b1 b2 b3 b4 b5 b6 b7 b8 b9 b10 rest h0 h1 h2 h3 h4 h5 h7 h8 h9 h10]
  unfold queue_try_add
  rw [if_pos hq]

theorem gamepad_report_received_witness :
    (10 < 256 ∧ 246 < 256 ∧ 0 < 256 ∧ 3 < 256 ∧ 1 < 256) ∧
    (State.init 4).gamepad_report_queue.length < GAMEPAD_QUEUE_SIZE ∧
    (tuh_hid_report_received_cb HID_ITF_PROTOCOL_NONE false 1 0
        (10 :: 246 :: 0 :: 0 :: 0 :: 0 :: 3 :: 1 :: 0 :: 0 :: 0 :: []) (State.init 4)).1
      = { State.init 4 with
          gamepad_report_queue :=
            (State.init 4).gamepad_report_queue ++
              [⟨asSigned8 10, asSigned8 246, asSigned8 0, asSigned8 0, asSigned8 0,
                asSigned8 0, 3, 1 + 2 ^ 8 * 0 + 2 ^ 16 * 0 + 2 ^ 24 * 0⟩] } :=
  ⟨by decide, by decide,
    gamepad_report_received (State.init 4) false 1 0 10 246 0 0 0 0 3 1 0 0 0 []
      (by decide) (by decide) (by decide) (by decide) (by decide) (by decide)
      (by decide) (by decide) (by decide) (by decide) (by decide)⟩

/-- C4, as stated, fails: on a Mouse interface whose stored sub-protocol is
Boot, the 7-byte report `1 2 3 4 5 6 7` (length at least 4) is enqueued with
`y = 4` (byte 3) and `wheel = 6` (byte 5), not `y = 3` (byte 2) and
`wheel = 4` (byte 3). -/
theorem mouse_boot_len7_counterexample :
    4 ≤ [1, 2, 3, 4, 5, 6, 7].length ∧
    ((⟨BLINK_MOUNTED, [⟨1, 0, HID_PROTOCOL_BOOT⟩], 0, false, 0, ⟨0, 0, 0, 0⟩, [], [], []⟩
        : State).hid_devices.getD 0 ⟨0, 0, 0⟩).protocol = HID_PROTOCOL_BOOT ∧
    (tuh_hid_report_received_cb HID_ITF_PROTOCOL_MOUSE false 1 0 [1, 2, 3, 4, 5, 6, 7]
        ⟨BLINK_MOUNTED, [⟨1, 0, HID_PROTOCOL_BOOT⟩], 0, false, 0, ⟨0, 0, 0, 0⟩,
          [], [], []⟩).1.mouse_report_queue
      = [⟨1, 2, 4, 6⟩] ∧
    (⟨1, 2, 4, 6⟩ : mouse_report_t) ≠ ⟨1, asSigned8 2, asSigned8 3, asSigned8 4⟩ := by
  decide

/-- C4, amended: a report `b0 b1 b2 b3 ...` of at least four bytes and of a
length other than seven, received on a Mouse interface whose stored
sub-protocol is Boot while the mouse queue is not full, is enqueued as
`{buttons = b0, x = b1, y = b2, wheel = b3}` (the last three read as
signed). -/
theorem mouse_boot_report_received (s : State) (m : Bool) (a i : Nat)
    (b0 b1 b2 b3 : Nat) (rest : List Nat)
    (h1 : b1 < 256) (h2 : b2 < 256) (h3 : b3 < 256)
    (hboot : (s.hid_devices.getD i ⟨0, 0, 0⟩).protocol = HID_PROTOCOL_BOOT)
    (hlen : (b0 :: b1 :: b2 :: b3 :: rest).length ≠ 7)
    (hq : s.mouse_report_queue.length < MOUSE_QUEUE_SIZE) :
    (tuh_hid_report_received_cb HID_ITF_PROTOCOL_MOUSE m a i
        (b0 :: b1 :: b2 :: b3 :: rest) s).1
      = { s with
          mouse_report_queue :=
            s.mouse_report_queue ++ [⟨b0, asSigned8 b1, asSigned8 b2, asSigned8 b3⟩]
          last_rpt := ⟨b0, asSigned8 b1, asSigned8 b2, asSigned8 b3⟩ } := by
  have hp : parse_mouse HID_PROTOCOL_BOOT (b0 :: b1 :: b2 :: b3 :: rest)
      = ⟨b0, asSigned8 b1, asSigned8 b2, asSigned8 b3⟩ := by
    unfold parse_mouse
    simp only [if_true]
    rw [if_neg hlen, if_pos (by simp)]
    simp [parse_mouse_boot, rd, toInt8_eq_asSigned8 _ h1, toInt8_eq_asSigned8 _ h2,
      toInt8_eq_asSigned8 _ h3]
  unfold tuh_hid_report_received_cb
  rw [if_neg (by simp)]
  simp only [hboot, hp]
  simp [HID_ITF_PROTOCOL_MOUSE, HID_ITF_PROTOCOL_NONE, HID_ITF_PROTOCOL_KEYBOARD,
    queue_try_add, hq]

theorem mouse_boot_report_received_witness :
    (2 < 256 ∧ 253 < 256 ∧ 4 < 256) ∧
    ((⟨BLINK_MOUNTED, [⟨1, 0, HID_PROTOCOL_BOOT⟩], 0, false, 0, ⟨0, 0, 0, 0⟩, [], [], []⟩
        : State).hid_devices.getD 0 ⟨0, 0, 0⟩).protocol = HID_PROTOCOL_BOOT ∧
    (1 :: 2 :: 253 :: 4 :: [5, 6]).length ≠ 7 ∧
    (tuh_hid_report_received_cb HID_ITF_PROTOCOL_MOUSE false 1 0
        (1 :: 2 :: 253 :: 4 :: [5, 6])
        ⟨BLINK_MOUNTED, [⟨1, 0, HID_PROTOCOL_BOOT⟩], 0, false, 0, ⟨0, 0, 0, 0⟩,
          [], [], []⟩).1
      = { (⟨BLINK_MOUNTED, [⟨1, 0, HID_PROTOCOL_BOOT⟩], 0, false, 0, ⟨0, 0, 0, 0⟩,
            [], [], []⟩ : State) with
          mouse_report_queue :=
            (⟨BLINK_MOUNTED, [⟨1, 0, HID_PROTOCOL_BOOT⟩], 0, false, 0, ⟨0, 0, 0, 0⟩,
              [], [], []⟩ : State).mouse_report_queue ++
              [⟨1, asSigned8 2, asSigned8 253, asSigned8 4⟩]
          last_rpt := ⟨1, asSigned8 2, asSigned8 253, asSigned8 4⟩ } :=
  ⟨by decide, by decide, by decide,
    mouse_boot_report_received _ false 1 0 1 2 253 4 [5, 6]
      (by decide) (by decide) (by decide) (by decide) (by decide) (by decide)⟩

/-! ## Queue capacity (C5) -/

theorem foldl_queue_try_add {α : Type} (cap : Nat) (xs : List α) (q : List α) :
    xs.foldl (fun q x => (queue_try_add cap q x).2) q = q ++ xs.take (cap - q.length) := by
  induction xs generalizing q with
  | nil => simp
  | cons x xs ih =>
    rw [List.foldl_cons, ih]
    unfold queue_try_add
    by_cases h : q.length < cap
    · rw [if_pos h]
      have e : cap - q.length = (cap - (q ++ [x]).length) + 1 := by
        simp only [List.length_append, List.length_singleton]; omega
      rw [e, List.take_succ_cons]
      simp
    · rw [if_neg h]
      have e : cap - q.length = 0 := by omega
      simp [e]

theorem deliver_keyboard (m : Bool) (a i : Nat) (rs : List (List Nat)) (s : State)
    (h : ∀ r ∈ rs, 8 ≤ r.length) :
    (deliver HID_ITF_PROTOCOL_KEYBOARD m a i rs s).keyboard_report_queue
      = (rs.map parse_keyboard).foldl
          (fun q x => (queue_try_add KEYBOARD_QUEUE_SIZE q x).2) s.keyboard_report_queue := by
  induction rs generalizing s with
  | nil => rfl
  | cons r rs ih =>
    have hr : 8 ≤ r.length := h r (List.mem_cons_self _ _)
    rw [deliver, ih _ (fun r hr => h r (List.mem_cons_of_mem _ hr))]
    have e : (tuh_hid_report_received_cb HID_ITF_PROTOCOL_KEYBOARD m a i r s).1.keyboard_report_queue
        = (queue_try_add KEYBOARD_QUEUE_SIZE s.keyboard_report_queue (parse_keyboard r)).2 := by
      unfold tuh_hid_report_received_cb
      rw [if_neg (show ¬ r.length = 0 by omega)]
      simp [HID_ITF_PROTOCOL_KEYBOARD, HID_ITF_PROTOCOL_NONE, Nat.not_lt.mpr hr]
    rw [e, List.map_cons, List.foldl_cons]

theorem deliver_gamepad (m : Bool) (a i : Nat) (rs : List (List Nat)) (s : State)
    (h : ∀ r ∈ rs, 11 ≤ r.length) :
    (deliver HID_ITF_PROTOCOL_NONE m a i rs s).gamepad_report_queue
      = (rs.map parse_gamepad).foldl
          (fun q x => (queue_try_add GAMEPAD_QUEUE_SIZE q x).2) s.gamepad_report_queue := by
  induction rs generalizing s with
  | nil => rfl
  | cons r rs ih =>
    have hr : 11 ≤ r.length := h r (List.mem_cons_self _ _)
    rw [deliver, ih _ (fun r hr => h r (List.mem_cons_of_mem _ hr))]
    have e : (tuh_hid_report_received_cb HID_ITF_PROTOCOL_NONE m a i r s).1.gamepad_report_queue
        = (queue_try_add GAMEPAD_QUEUE_SIZE s.gamepad_report_queue (parse_gamepad r)).2 := by
      unfold tuh_hid_report_received_cb
      rw [if_neg (show ¬ r.length = 0 by omega), if_pos rfl,
        if_pos (show r.length ≥ 11 by omega)]
    rw [e, List.map_cons, List.foldl_cons]

theorem received_mouse_queue (m : Bool) (a i : Nat) (r : List Nat) (s : State)
    (hr : r.length ≠ 0) :
    (tuh_hid_report_received_cb HID_ITF_PROTOCOL_MOUSE m a i r s).1.mouse_report_queue
        = (queue_try_add MOUSE_QUEUE_SIZE s.mouse_report_queue
            (parse_mouse (s.hid_devices.getD i ⟨0, 0, 0⟩).protocol r)).2 ∧
    (tuh_hid_report_received_cb HID_ITF_PROTOCOL_MOUSE m a i r s).1.hid_devices
        = s.hid_devices := by
  unfold tuh_hid_report_received_cb
  rw [if_neg hr]
  simp only [HID_ITF_PROTOCOL_KEYBOARD, HID_ITF_PROTOCOL_NONE, HID_ITF_PROTOCOL_MOUSE, if_true]
  unfold queue_try_add
  by_cases hq : s.mouse_report_queue.length < MOUSE_QUEUE_SIZE
  · simp [hq]
  · simp [hq]

theorem deliver_mouse (m : Bool) (a i : Nat) (rs : List (List Nat)) (s : State)
    (h : ∀ r ∈ rs, r.length ≠ 0) :
    (deliver HID_ITF_PROTOCOL_MOUSE m a i rs s).mouse_report_queue
      = (rs.map (parse_mouse (s.hid_devices.getD i ⟨0, 0, 0⟩).protocol)).foldl
          (fun q x => (queue_try_add MOUSE_QUEUE_SIZE q x).2) s.mouse_report_queue := by
  induction rs generalizing s with
  | nil => rfl
  | cons r rs ih =>
    have hr : r.length ≠ 0 := h r (List.mem_cons_self _ _)
    have e := received_mouse_queue m a i r s hr
    rw [deliver, ih _ (fun r hr => h r (List.mem_cons_of_mem _ hr)), e.1, e.2,
      List.map_cons, List.foldl_cons]

/-- C5: into empty 8-slot queues and with no forwarding in between, nine
valid reports of a channel's kind (keyboard: at least 8 bytes; mouse: not
empty; gamepad: at least 11 bytes) leave exactly the first eight queued, in
arrival order; the ninth `queue_try_add` returns `false` and the ninth report
is dropped. -/
theorem nine_reports_fill_queue (s : State) (m : Bool) (a i : Nat)
    (ks ms gs : List (List Nat)) (k9 m9 g9 : List Nat)
    (hk0 : s.keyboard_report_queue = []) (hm0 : s.mouse_report_queue = [])
    (hg0 : s.gamepad_report_queue = [])
    (hkl : ks.length = 8) (hml : ms.length = 8) (hgl : gs.length = 8)
    (hk : ∀ r ∈ ks ++ [k9], 8 ≤ r.length) (hm : ∀ r ∈ ms ++ [m9], r.length ≠ 0)
    (hg : ∀ r ∈ gs ++ [g9], 11 ≤ r.length) :
    ((deliver HID_ITF_PROTOCOL_KEYBOARD m a i ks s).keyboard_report_queue
        = ks.map parse_keyboard ∧
      queue_try_add KEYBOARD_QUEUE_SIZE
          (deliver HID_ITF_PROTOCOL_KEYBOARD m a i ks s).keyboard_report_queue
          (parse_keyboard k9) = (false, ks.map parse_keyboard) ∧
      (deliver HID_ITF_PROTOCOL_KEYBOARD m a i (ks ++ [k9]) s).keyboard_report_queue
        = ks.map parse_keyboard ∧
      (deliver HID_ITF_PROTOCOL_KEYBOARD m a i (ks ++ [k9]) s).keyboard_report_queue.length
        = 8) ∧
    ((deliver HID_ITF_PROTOCOL_MOUSE m a i ms s).mouse_report_queue
        = ms.map (parse_mouse (s.hid_devices.getD i ⟨0, 0, 0⟩).protocol) ∧
      queue_try_add MOUSE_QUEUE_SIZE
          (deliver HID_ITF_PROTOCOL_MOUSE m a i ms s).mouse_report_queue
          (parse_mouse (s.hid_devices.getD i ⟨0, 0, 0⟩).protocol m9)
        = (false, ms.map (parse_mouse (s.hid_devices.getD i ⟨0, 0, 0⟩).protocol)) ∧
      (deliver HID_ITF_PROTOCOL_MOUSE m a i (ms ++ [m9]) s).mouse_report_queue
        = ms.map (parse_mouse (s.hid_devices.getD i ⟨0, 0, 0⟩).protocol) ∧
      (deliver HID_ITF_PROTOCOL_MOUSE m a i (ms ++ [m9]) s).mouse_report_queue.length
        = 8) ∧
    ((deliver HID_ITF_PROTOCOL_NONE m a i gs s).gamepad_report_queue
        = gs.map parse_gamepad ∧
      queue_try_add GAMEPAD_QUEUE_SIZE
          (deliver HID_ITF_PROTOCOL_NONE m a i gs s).gamepad_report_queue
          (parse_gamepad g9) = (false, gs.map parse_gamepad) ∧
      (deliver HID_ITF_PROTOCOL_NONE m a i (gs ++ [g9]) s).gamepad_report_queue
        = gs.map parse_gamepad ∧
      (deliver HID_ITF_PROTOCOL_NONE m a i (gs ++ [g9]) s).gamepad_report_queue.length
        = 8) := by
  have hk8 : ∀ r ∈ ks, 8 ≤ r.length := fun r hr => hk r (List.mem_append_left _ hr)
  have hm8 : ∀ r ∈ ms, r.length ≠ 0 := fun r hr => hm r (List.mem_append_left _ hr)
  have hg8 : ∀ r ∈ gs, 11 ≤ r.length := fun r hr => hg r (List.mem_append_left _ hr)
  rw [deliver_keyboard m a i ks s hk8, deliver_keyboard m a i (ks ++ [k9]) s hk,
    deliver_mouse m a i ms s hm8, deliver_mouse m a i (ms ++ [m9]) s hm,
    deliver_gamepad m a i gs s hg8, deliver_gamepad m a i (gs ++ [g9]) s hg]
  simp only [foldl_queue_try_add, hk0, hm0, hg0, List.nil_append, List.length_nil,
    Nat.sub_zero, KEYBOARD_QUEUE_SIZE, MOUSE_QUEUE_SIZE, GAMEPAD_QUEUE_SIZE, List.map_append]
  have tk : ∀ {β : Type} (f : List Nat → β) (l : List (List Nat)) (x : List Nat),
      l.length = 8 → List.take 8 (l.map f) = l.map f ∧
        List.take 8 (l.map f ++ [x].map f) = l.map f := by
    intro β f l x hl
    constructor
    · exact List.take_of_length_le (by simp [hl])
    · rw [List.take_append_of_le_length (by simp [hl])]
      exact List.take_of_length_le (by simp [hl])
  simp [tk _ ks k9 hkl, tk _ ms m9 hml, tk _ gs g9 hgl, queue_try_add, hkl, hml, hgl]

theorem nine_reports_fill_queue_witness :
    ((State.init 4).keyboard_report_queue = [] ∧ (State.init 4).mouse_report_queue = [] ∧
      (State.init 4).gamepad_report_queue = []) ∧
    ((List.replicate 8 [1, 0, 4, 0, 0, 0, 0, 0]).length = 8 ∧ (List.replicate 8 [1, 2, 3, 4]).length = 8 ∧
      (List.replicate 8 [1, 2, 3, 4, 5, 6, 7, 8, 9, 10, 11]).length = 8) ∧
    ((∀ r ∈ (List.replicate 8 [1, 0, 4, 0, 0, 0, 0, 0]) ++ [[2, 0, 5, 0, 0, 0, 0, 0]], 8 ≤ r.length) ∧
      (∀ r ∈ (List.replicate 8 [1, 2, 3, 4]) ++ [[0, 1, 1, 0]], r.length ≠ 0) ∧
      (∀ r ∈ (List.replicate 8 [1, 2, 3, 4, 5, 6, 7, 8, 9, 10, 11]) ++ [[0, 0, 0, 0, 0, 0, 0, 0, 0, 0, 0]],
        11 ≤ r.length)) ∧
    ((deliver HID_ITF_PROTOCOL_KEYBOARD false 1 0 (List.replicate 8 [1, 0, 4, 0, 0, 0, 0, 0]) (State.init 4)).keyboard_report_queue
        = (List.replicate 8 [1, 0, 4, 0, 0, 0, 0, 0]).map parse_keyboard ∧
      queue_try_add KEYBOARD_QUEUE_SIZE
          (deliver HID_ITF_PROTOCOL_KEYBOARD false 1 0 (List.replicate 8 [1, 0, 4, 0, 0, 0, 0, 0]) (State.init 4)).keyboard_report_queue
          (parse_keyboard [2, 0, 5, 0, 0, 0, 0, 0]) = (false, (List.replicate 8 [1, 0, 4, 0, 0, 0, 0, 0]).map parse_keyboard) ∧
      (deliver HID_ITF_PROTOCOL_KEYBOARD false 1 0 ((List.replicate 8 [1, 0, 4, 0, 0, 0, 0, 0]) ++ [[2, 0, 5, 0, 0, 0, 0, 0]]) (State.init 4)).keyboard_report_queue
        = (List.replicate 8 [1, 0, 4, 0, 0, 0, 0, 0]).map parse_keyboard ∧
      (deliver HID_ITF_PROTOCOL_KEYBOARD false 1 0 ((List.replicate 8 [1, 0, 4, 0, 0, 0, 0, 0]) ++ [[2, 0, 5, 0, 0, 0, 0, 0]]) (State.init 4)).keyboard_report_queue.length
        = 8) ∧
    ((deliver HID_ITF_PROTOCOL_MOUSE false 1 0 (List.replicate 8 [1, 2, 3, 4]) (State.init 4)).mouse_report_queue
        = (List.replicate 8 [1, 2, 3, 4]).map (parse_mouse ((State.init 4).hid_devices.getD 0 ⟨0, 0, 0⟩).protocol) ∧
      queue_try_add MOUSE_QUEUE_SIZE
          (deliver HID_ITF_PROTOCOL_MOUSE false 1 0 (List.replicate 8 [1, 2, 3, 4]) (State.init 4)).mouse_report_queue
          ((parse_mouse ((State.init 4).hid_devices.getD 0 ⟨0, 0, 0⟩).protocol) [0, 1, 1, 0]) = (false, (List.replicate 8 [1, 2, 3, 4]).map (parse_mouse ((State.init 4).hid_devices.getD 0 ⟨0, 0, 0⟩).protocol)) ∧
      (deliver HID_ITF_PROTOCOL_MOUSE false 1 0 ((List.replicate 8 [1, 2, 3, 4]) ++ [[0, 1, 1, 0]]) (State.init 4)).mouse_report_queue
        = (List.replicate 8 [1, 2, 3, 4]).map (parse_mouse ((State.init 4).hid_devices.getD 0 ⟨0, 0, 0⟩).protocol) ∧
      (deliver HID_ITF_PROTOCOL_MOUSE false 1 0 ((List.replicate 8 [1, 2, 3, 4]) ++ [[0, 1, 1, 0]]) (State.init 4)).mouse_report_queue.length
        = 8) ∧
    ((deliver HID_ITF_PROTOCOL_NONE false 1 0 (List.replicate 8 [1, 2, 3, 4, 5, 6, 7, 8, 9, 10, 11]) (State.init 4)).gamepad_report_queue
        = (List.replicate 8 [1, 2, 3, 4, 5, 6, 7, 8, 9, 10, 11]).map parse_gamepad ∧
      queue_try_add GAMEPAD_QUEUE_SIZE
          (deliver HID_ITF_PROTOCOL_NONE false 1 0 (List.replicate 8 [1, 2, 3, 4, 5, 6, 7, 8, 9, 10, 11]) (State.init 4)).gamepad_report_queue
          (parse_gamepad [0, 0, 0, 0, 0, 0, 0, 0, 0, 0, 0]) = (false, (List.replicate 8 [1, 2, 3, 4, 5, 6, 7, 8, 9, 10, 11]).map parse_gamepad) ∧
      (deliver HID_ITF_PROTOCOL_NONE false 1 0 ((List.replicate 8 [1, 2, 3, 4, 5, 6, 7, 8, 9, 10, 11]) ++ [[0, 0, 0, 0, 0, 0, 0, 0, 0, 0, 0]]) (State.init 4)).gamepad_report_queue
        = (List.replicate 8 [1, 2, 3, 4, 5, 6, 7, 8, 9, 10, 11]).map parse_gamepad ∧
      (deliver HID_ITF_PROTOCOL_NONE false 1 0 ((List.replicate 8 [1, 2, 3, 4, 5, 6, 7, 8, 9, 10, 11]) ++ [[0, 0, 0, 0, 0, 0, 0, 0, 0, 0, 0]]) (State.init 4)).gamepad_report_queue.length
        = 8) :=
  ⟨by decide, by decide, by decide,
    nine_reports_fill_queue (State.init 4) false 1 0
      (List.replicate 8 [1, 0, 4, 0, 0, 0, 0, 0]) (List.replicate 8 [1, 2, 3, 4])
      (List.replicate 8 [1, 2, 3, 4, 5, 6, 7, 8, 9, 10, 11])
      [2, 0, 5, 0, 0, 0, 0, 0] [0, 1, 1, 0] [0, 0, 0, 0, 0, 0, 0, 0, 0, 0, 0]
      (by decide) (by decide) (by decide) (by decide) (by decide) (by decide)
      (by decide) (by decide) (by decide)⟩

/-! ## Stage lemmas -/

theorem keyboard_stage_frame (env : LoopEnv) (s : State) :
    (keyboard_stage env s).1
      = { s with keyboard_report_queue := (keyboard_stage env s).1.keyboard_report_queue } := by
  unfold keyboard_stage
  split <;> rfl

theorem keyboard_stage_calls (env : LoopEnv) (s : State) :
    ∀ c ∈ (keyboard_stage env s).2, ∃ m k, c = Call.keyboard_report m k := by
  unfold keyboard_stage
  split
  · intro c hc
    simp only [List.mem_singleton] at hc
    exact ⟨_, _, hc⟩
  · intro c hc
    simp at hc

theorem gamepad_stage_frame (env : LoopEnv) (s : State) :
    (gamepad_stage env s).1
      = { s with gamepad_report_queue := (gamepad_stage env s).1.gamepad_report_queue } := by
  unfold gamepad_stage
  split <;> rfl

theorem gamepad_stage_empty (env : LoopEnv) (s : State) (h : s.gamepad_report_queue = []) :
    gamepad_stage env s = (s, []) := by
  unfold gamepad_stage
  rw [h]
  cases env.gamepad_ready <;> rfl

theorem mouse_stage_dequeue (rid : Nat) (env : LoopEnv) (s : State) (r : mouse_report_t)
    (q : List mouse_report_t) (hr : env.mouse_ready = true)
    (hq : s.mouse_report_queue = r :: q) :
    mouse_stage rid env s =
      if s.mouse_to_gamepade = 1 then
        ({ s with
           mouse_report_queue :=
             if env.mouse_sent then q
             else (queue_try_add MOUSE_QUEUE_SIZE q { r with x := 0, y := 0 }).2
           last_mouse_move_time := env.now },
         [Call.custom_report (custom_report rid r),
          Call.gamepad_report 0 0 (stick r.x) (stick r.y) 0 0 0 0,
          Call.mouse_report r.buttons 0 0 r.wheel 0])
      else if s.mouse_to_gamepade = 2 then
        ({ s with mouse_report_queue := q }, [Call.custom_report (custom_report rid r)])
      else
        ({ s with
           mouse_report_queue :=
             if env.mouse_sent then q else (queue_try_add MOUSE_QUEUE_SIZE q r).2 },
         [Call.custom_report (custom_report rid r),
          Call.mouse_report r.buttons r.x r.y r.wheel 0]) := by
  unfold mouse_stage
  simp only [hr, hq, queue_try_remove, if_true]
  cases env.mouse_sent <;> simp

theorem mouse_stage_idle (rid : Nat) (env : LoopEnv) (s : State)
    (h : env.mouse_ready = false ∨ s.mouse_report_queue = []) :
    mouse_stage rid env s =
      if s.mouse_to_gamepade = 1 ∧
          (if u32_sub env.now s.last_mouse_move_time > IDLE_TIMEOUT_MS then true
            else s.should_center) = true ∧ env.center_ready = true then
        ({ s with
           should_center := false
           last_mouse_move_time :=
             if u32_sub env.now s.last_mouse_move_time > IDLE_TIMEOUT_MS then env.now
             else s.last_mouse_move_time },
         [Call.gamepad_report 0 0 0 0 0 0 0 0])
      else
        ({ s with
           should_center :=
             if u32_sub env.now s.last_mouse_move_time > IDLE_TIMEOUT_MS then true
             else s.should_center
           last_mouse_move_time :=
             if u32_sub env.now s.last_mouse_move_time > IDLE_TIMEOUT_MS then env.now
             else s.last_mouse_move_time }, []) := by
  have hn : (if env.mouse_ready then queue_try_remove s.mouse_report_queue else none)
      = none := by
    rcases h with h | h
    · simp [h]
    · simp [h, queue_try_remove]
  unfold mouse_stage
  rw [hn]
  simp

theorem mouse_stage_frame (rid : Nat) (env : LoopEnv) (s : State) :
    (mouse_stage rid env s).1.gamepad_report_queue = s.gamepad_report_queue ∧
    (mouse_stage rid env s).1.keyboard_report_queue = s.keyboard_report_queue ∧
    (mouse_stage rid env s).1.mouse_to_gamepade = s.mouse_to_gamepade ∧
    (mouse_stage rid env s).1.last_rpt = s.last_rpt := by
  by_cases h : env.mouse_ready = false ∨ s.mouse_report_queue = []
  · rw [mouse_stage_idle rid env s h]
    split_ifs <;> exact ⟨rfl, rfl, rfl, rfl⟩
  · have hr : env.mouse_ready = true := by
      cases hm : env.mouse_ready
      · exact absurd (Or.inl hm) h
      · rfl
    obtain ⟨r, q, hq⟩ : ∃ r q, s.mouse_report_queue = r :: q := by
      cases hq : s.mouse_report_queue with
      | nil => exact absurd (Or.inr hq) h
      | cons r q => exact ⟨r, q, rfl⟩
    rw [mouse_stage_dequeue rid env s r q hr hq]
    split_ifs <;> exact ⟨rfl, rfl, rfl, rfl⟩

theorem gamepad_stage_calls (env : LoopEnv) (s : State) :
    ∀ c ∈ (gamepad_stage env s).2, c.is_gamepad = true := by
  unfold gamepad_stage
  split
  · intro c hc
    simp only [List.mem_singleton] at hc
    rw [hc]
    rfl
  · intro c hc
    simp at hc

theorem keyboard_stage_keeps (env : LoopEnv) (s : State) :
    (keyboard_stage env s).1.mouse_report_queue = s.mouse_report_queue ∧
    (keyboard_stage env s).1.gamepad_report_queue = s.gamepad_report_queue ∧
    (keyboard_stage env s).1.mouse_to_gamepade = s.mouse_to_gamepade ∧
    (keyboard_stage env s).1.last_rpt = s.last_rpt ∧
    (keyboard_stage env s).1.should_center = s.should_center ∧
    (keyboard_stage env s).1.last_mouse_move_time = s.last_mouse_move_time := by
  rw [keyboard_stage_frame]
  exact ⟨rfl, rfl, rfl, rfl, rfl, rfl⟩

theorem gamepad_stage_keeps (env : LoopEnv) (s : State) :
    (gamepad_stage env s).1.mouse_report_queue = s.mouse_report_queue ∧
    (gamepad_stage env s).1.keyboard_report_queue = s.keyboard_report_queue ∧
    (gamepad_stage env s).1.mouse_to_gamepade = s.mouse_to_gamepade ∧
    (gamepad_stage env s).1.last_rpt = s.last_rpt ∧
    (gamepad_stage env s).1.should_center = s.should_center ∧
    (gamepad_stage env s).1.last_mouse_move_time = s.last_mouse_move_time := by
  rw [gamepad_stage_frame]
  exact ⟨rfl, rfl, rfl, rfl, rfl, rfl⟩

theorem stick_eq_sign (v : Int) : stick v = 127 * Int.sign v := by
  unfold stick
  split_ifs with h1 h2
  · rw [Int.sign_eq_one_of_pos h1]; rfl
  · rw [h2]; rfl
  · rw [Int.sign_eq_neg_one_of_neg (by omega)]; rfl

/-! ## AutoGamepad remapping (C7, C8) -/

/-- C7, as stated, fails: after command id 3 with payload byte 1, the
iteration that dequeues the mouse report `x = 50, y = -50` transmits the
gamepad report `x = 0, y = 0, z = 127, rz = -127`; no gamepad report with
`x = 127, y = -127` is transmitted. -/
theorem auto_gamepad_stick_counterexample :
    (main_loop_iteration 3
        { kbd_ready := true, kbd_sent := true, mouse_ready := true, mouse_sent := true,
          now := 100, center_ready := true, gamepad_ready := true, gamepad_sent := true }
        (process_hid_report (3 :: 1 :: List.replicate 62 0)
          { State.init 4 with mouse_report_queue := [⟨0, 50, -50, 0⟩] }).1).2
      = [Call.custom_report (custom_report 3 ⟨0, 50, -50, 0⟩),
         Call.gamepad_report 0 0 127 (-127) 0 0 0 0,
         Call.mouse_report 0 0 0 0 0] ∧
    Call.gamepad_report 127 (-127) 0 0 0 0 0 0 ∉
      (main_loop_iteration 3
        { kbd_ready := true, kbd_sent := true, mouse_ready := true, mouse_sent := true,
          now := 100, center_ready := true, gamepad_ready := true, gamepad_sent := true }
        (process_hid_report (3 :: 1 :: List.replicate 62 0)
          { State.init 4 with mouse_report_queue := [⟨0, 50, -50, 0⟩] }).1).2 := by
  decide

/-- C7, amended: command id 3 with payload byte 1 sets the mode to
AutoGamepad and transmits nothing; the next forwarding iteration that
dequeues a mouse report `r` transmits, after the custom mirror report, a
gamepad report whose `z` field is `127 * sign r.x` and whose `rz` field is
`127 * sign r.y`, with `x`, `y`, `rx`, `ry`, the hat and the buttons zero. -/
theorem auto_gamepad_stick (rid : Nat) (s : State) (report : List Nat) (env : LoopEnv)
    (r : mouse_report_t) (q : List mouse_report_t)
    (h0 : rd report 0 = 3) (h1 : rd report 1 = 1)
    (hq : s.mouse_report_queue = r :: q) (hr : env.mouse_ready = true) :
    process_hid_report report s = ({ s with mouse_to_gamepade := 1 }, []) ∧
    (mouse_stage rid env
        (keyboard_stage env (process_hid_report report s).1).1).2
      = [Call.custom_report (custom_report rid r),
         Call.gamepad_report 0 0 (127 * Int.sign r.x) (127 * Int.sign r.y) 0 0 0 0,
         Call.mouse_report r.buttons 0 0 r.wheel 0] ∧
    (main_loop_iteration rid env (process_hid_report report s).1).2
      = (keyboard_stage env (process_hid_report report s).1).2 ++
        [Call.custom_report (custom_report rid r),
         Call.gamepad_report 0 0 (127 * Int.sign r.x) (127 * Int.sign r.y) 0 0 0 0,
         Call.mouse_report r.buttons 0 0 r.wheel 0] ++
        (gamepad_stage env
          (mouse_stage rid env
            (keyboard_stage env (process_hid_report report s).1).1).1).2 := by
  have hp : process_hid_report report s = ({ s with mouse_to_gamepade := 1 }, []) := by
    unfold process_hid_report
    simp [h0, h1, HID_ITF_PROTOCOL_MOUSE, HID_ITF_PROTOCOL_KEYBOARD, HID_ITF_PROTOCOL_NONE]
  have hk := keyboard_stage_keeps env (process_hid_report report s).1
  have hm : (mouse_stage rid env
        (keyboard_stage env (process_hid_report report s).1).1).2
      = [Call.custom_report (custom_report rid r),
         Call.gamepad_report 0 0 (127 * Int.sign r.x) (127 * Int.sign r.y) 0 0 0 0,
         Call.mouse_report r.buttons 0 0 r.wheel 0] := by
    rw [mouse_stage_dequeue rid env _ r q hr (by rw [hk.1, hp]; exact hq)]
    rw [if_pos (by rw [hk.2.2.1, hp])]
    simp only [stick_eq_sign]
  refine ⟨hp, hm, ?_⟩
  unfold main_loop_iteration
  simp only [hm]

theorem auto_gamepad_stick_witness :
    rd (3 :: 1 :: List.replicate 62 0) 0 = 3 ∧ rd (3 :: 1 :: List.replicate 62 0) 1 = 1 ∧
    ({ State.init 4 with mouse_report_queue := [⟨0, 50, -50, 0⟩] } : State).mouse_report_queue
      = ⟨0, 50, -50, 0⟩ :: [] ∧
    ({ kbd_ready := true, kbd_sent := true, mouse_ready := true, mouse_sent := true,
       now := 100, center_ready := true, gamepad_ready := true, gamepad_sent := true }
      : LoopEnv).mouse_ready = true ∧
    (mouse_stage 3
        { kbd_ready := true, kbd_sent := true, mouse_ready := true, mouse_sent := true,
          now := 100, center_ready := true, gamepad_ready := true, gamepad_sent := true }
        (keyboard_stage
          { kbd_ready := true, kbd_sent := true, mouse_ready := true, mouse_sent := true,
            now := 100, center_ready := true, gamepad_ready := true, gamepad_sent := true }
          (process_hid_report (3 :: 1 :: List.replicate 62 0)
            { State.init 4 with mouse_report_queue := [⟨0, 50, -50, 0⟩] }).1).1).2
      = [Call.custom_report (custom_report 3 ⟨0, 50, -50, 0⟩),
         Call.gamepad_report 0 0 (127 * Int.sign 50) (127 * Int.sign (-50)) 0 0 0 0,
         Call.mouse_report 0 0 0 0 0] :=
  ⟨by decide, by decide, by decide, by decide,
    (auto_gamepad_stick 3 { State.init 4 with mouse_report_queue := [⟨0, 50, -50, 0⟩] }
      (3 :: 1 :: List.replicate 62 0)
      { kbd_ready := true, kbd_sent := true, mouse_ready := true, mouse_sent := true,
        now := 100, center_ready := true, gamepad_ready := true, gamepad_sent := true }
      ⟨0, 50, -50, 0⟩ [] (by decide) (by decide) (by decide) (by decide)).2.1⟩

/-- C8: in AutoGamepad mode, the iteration that dequeues a mouse report `r`
transmits exactly one ordinary mouse report, with `x = 0`, `y = 0`,
`buttons = r.buttons`, `wheel = r.wheel` and `pan = 0`. -/
theorem auto_gamepad_mouse_zeroed (rid : Nat) (s : State) (env : LoopEnv)
    (r : mouse_report_t) (q : List mouse_report_t)
    (hmode : s.mouse_to_gamepade = 1)
    (hq : s.mouse_report_queue = r :: q) (hr : env.mouse_ready = true) :
    (main_loop_iteration rid env s).2.filter Call.is_mouse
      = [Call.mouse_report r.buttons 0 0 r.wheel 0] := by
  have hk := keyboard_stage_keeps env s
  have hm : (mouse_stage rid env (keyboard_stage env s).1).2
      = [Call.custom_report (custom_report rid r),
         Call.gamepad_report 0 0 (stick r.x) (stick r.y) 0 0 0 0,
         Call.mouse_report r.buttons 0 0 r.wheel 0] := by
    rw [mouse_stage_dequeue rid env _ r q hr (by rw [hk.1]; exact hq)]
    rw [if_pos (by rw [hk.2.2.1]; exact hmode)]
  have h1 : (keyboard_stage env s).2.filter Call.is_mouse = [] := by
    rw [List.filter_eq_nil_iff]
    intro c hc
    obtain ⟨m, k, e⟩ := keyboard_stage_calls env s c hc
    rw [e]
    simp [Call.is_mouse]
  have h3 : ∀ s3, (gamepad_stage env s3).2.filter Call.is_mouse = [] := by
    intro s3
    rw [List.filter_eq_nil_iff]
    intro c hc
    have := gamepad_stage_calls env s3 c hc
    cases c <;> simp_all [Call.is_mouse, Call.is_gamepad]
  unfold main_loop_iteration
  simp only [List.filter_append, h1, h3, hm]
  simp [Call.is_mouse]

theorem auto_gamepad_mouse_zeroed_witness :
    ({ State.init 4 with mouse_to_gamepade := 1, mouse_report_queue := [⟨5, 50, -50, 7⟩] }
      : State).mouse_to_gamepade = 1 ∧
    ({ State.init 4 with mouse_to_gamepade := 1, mouse_report_queue := [⟨5, 50, -50, 7⟩] }
      : State).mouse_report_queue = ⟨5, 50, -50, 7⟩ :: [] ∧
    ({ kbd_ready := true, kbd_sent := true, mouse_ready := true, mouse_sent := false,
       now := 100, center_ready := true, gamepad_ready := true, gamepad_sent := true }
      : LoopEnv).mouse_ready = true ∧
    (main_loop_iteration 3
        { kbd_ready := true, kbd_sent := true, mouse_ready := true, mouse_sent := false,
          now := 100, center_ready := true, gamepad_ready := true, gamepad_sent := true }
        { State.init 4 with
          mouse_to_gamepade := 1, mouse_report_queue := [⟨5, 50, -50, 7⟩] }).2.filter
        Call.is_mouse
      = [Call.mouse_report 5 0 0 7 0] :=
  ⟨by decide, by decide, by decide,
    auto_gamepad_mouse_zeroed 3
      { State.init 4 with mouse_to_gamepade := 1, mouse_report_queue := [⟨5, 50, -50, 7⟩] }
      { kbd_ready := true, kbd_sent := true, mouse_ready := true, mouse_sent := false,
        now := 100, center_ready := true, gamepad_ready := true, gamepad_sent := true }
      ⟨5, 50, -50, 7⟩ [] (by decide) (by decide) (by decide)⟩

/-! ## Gamepad passthrough (C10) -/

/-- C10: a report of at least eleven bytes received under protocol None into
an empty gamepad queue is, in the next forwarding iteration with the
gamepad endpoint ready, transmitted as the last call of the iteration with
its eight fields as parsed (axes `b0 .. b5` as signed, hat `b6`, buttons the
little-endian `b7 .. b10`), whatever the mode; for the bytes
`10, -10, 0, 0, 0, 0, 3, 1, 0, 0, 0` the fields are `x = 10`, `y = -10`,
`hat = 3`, `buttons = 1` and the other axes zero. -/
theorem gamepad_passthrough (rid : Nat) (s : State) (m : Bool) (a i : Nat)
    (b0 b1 b2 b3 b4 b5 b6 b7 b8 b9 b10 : Nat) (rest : List Nat) (env : LoopEnv)
    (h0 : b0 < 256) (h1 : b1 < 256) (h2 : b2 < 256) (h3 : b3 < 256) (h4 : b4 < 256)
    (h5 : b5 < 256) (h7 : b7 < 256) (h8 : b8 < 256) (h9 : b9 < 256) (h10 : b10 < 256)
    (hq : s.gamepad_report_queue = []) (hr : env.gamepad_ready = true) :
    (main_loop_iteration rid env
        (tuh_hid_report_received_cb HID_ITF_PROTOCOL_NONE m a i
          (b0 :: b1 :: b2 :: b3 :: b4 :: b5 :: b6 :: b7 :: b8 :: b9 :: b10 :: rest) s).1).2
      = (keyboard_stage env
          (tuh_hid_report_received_cb HID_ITF_PROTOCOL_NONE m a i
            (b0 :: b1 :: b2 :: b3 :: b4 :: b5 :: b6 :: b7 :: b8 :: b9 :: b10 :: rest) s).1).2 ++
        (mouse_stage rid env
          (keyboard_stage env
            (tuh_hid_report_received_cb HID_ITF_PROTOCOL_NONE m a i
              (b0 :: b1 :: b2 :: b3 :: b4 :: b5 :: b6 :: b7 :: b8 :: b9 :: b10 :: rest)
              s).1).1).2 ++
        [Call.gamepad_report (asSigned8 b0) (asSigned8 b1) (asSigned8 b2) (asSigned8 b3)
          (asSigned8 b4) (asSigned8 b5) b6
          (b7 + 2 ^ 8 * b8 + 2 ^ 16 * b9 + 2 ^ 24 * b10)] ∧
    (asSigned8 10 = 10 ∧ asSigned8 246 = -10 ∧ asSigned8 0 = 0 ∧
      1 + 2 ^ 8 * 0 + 2 ^ 16 * 0 + 2 ^ 24 * 0 = 1) := by
  refine ⟨?_, by decide⟩
  have hcb : (tuh_hid_report_received_cb HID_ITF_PROTOCOL_NONE m a i
      (b0 :: b1 :: b2 :: b3 :: b4 :: b5 :: b6 :: b7 :: b8 :: b9 :: b10 :: rest) s).1
      = { s with gamepad_report_queue :=
          [⟨asSigned8 b0, asSigned8 b1, asSigned8 b2, asSigned8 b3, asSigned8 b4,
            asSigned8 b5, b6, b7 + 2 ^ 8 * b8 + 2 ^ 16 * b9 + 2 ^ 24 * b10⟩] } := by
    rw [received_gamepad_state m a i _ s (by simp),
      parse_gamepad_bytes b0 b1 b2 b3 b4 b5 b6 b7 b8 b9 b10 rest h0 h1 h2 h3 h4 h5 h7 h8 h9
        h10, hq]
    rfl
  rw [hcb]
  unfold main_loop_iteration
  simp only [List.nil_append]
  have hg : (mouse_stage rid env (keyboard_stage env
      { s with gamepad_report_queue :=
          [⟨asSigned8 b0, asSigned8 b1, asSigned8 b2, asSigned8 b3, asSigned8 b4,
            asSigned8 b5, b6, b7 + 2 ^ 8 * b8 + 2 ^ 16 * b9 + 2 ^ 24 * b10⟩] }).1).1.gamepad_report_queue
      = [⟨asSigned8 b0, asSigned8 b1, asSigned8 b2, asSigned8 b3, asSigned8 b4,
            asSigned8 b5, b6, b7 + 2 ^ 8 * b8 + 2 ^ 16 * b9 + 2 ^ 24 * b10⟩] := by
    rw [(mouse_stage_frame rid env _).1, (keyboard_stage_keeps env _).2.1]
  congr 1
  unfold gamepad_stage
  rw [hg, hr]
  rfl

theorem gamepad_passthrough_witness :
    (10 < 256 ∧ 246 < 256 ∧ 0 < 256 ∧ 3 < 256 ∧ 1 < 256) ∧
    (State.init 4).gamepad_report_queue = [] ∧
    ((LoopEnv.all_ready 100)
      : LoopEnv).gamepad_ready = true ∧
    ((main_loop_iteration 3
        (LoopEnv.all_ready 100)
        (tuh_hid_report_received_cb HID_ITF_PROTOCOL_NONE false 1 0
          (10 :: 246 :: 0 :: 0 :: 0 :: 0 :: 3 :: 1 :: 0 :: 0 :: 0 :: []) (State.init 4)).1).2
      = (keyboard_stage
          (LoopEnv.all_ready 100)
          (tuh_hid_report_received_cb HID_ITF_PROTOCOL_NONE false 1 0
            (10 :: 246 :: 0 :: 0 :: 0 :: 0 :: 3 :: 1 :: 0 :: 0 :: 0 :: []) (State.init 4)).1).2 ++
        (mouse_stage 3
          (LoopEnv.all_ready 100)
          (keyboard_stage
            (LoopEnv.all_ready 100)
            (tuh_hid_report_received_cb HID_ITF_PROTOCOL_NONE false 1 0
              (10 :: 246 :: 0 :: 0 :: 0 :: 0 :: 3 :: 1 :: 0 :: 0 :: 0 :: [])
              (State.init 4)).1).1).2 ++
        [Call.gamepad_report (asSigned8 10) (asSigned8 246) (asSigned8 0) (asSigned8 0)
          (asSigned8 0) (asSigned8 0) 3
          (1 + 2 ^ 8 * 0 + 2 ^ 16 * 0 + 2 ^ 24 * 0)] ∧
    (asSigned8 10 = 10 ∧ asSigned8 246 = -10 ∧ asSigned8 0 = 0 ∧
      1 + 2 ^ 8 * 0 + 2 ^ 16 * 0 + 2 ^ 24 * 0 = 1)) :=
  ⟨by decide, by decide, by decide,
    gamepad_passthrough 3 (State.init 4) false 1 0 10 246 0 0 0 0 3 1 0 0 0 []
      (LoopEnv.all_ready 100)
      (by decide) (by decide) (by decide) (by decide) (by decide) (by decide)
      (by decide) (by decide) (by decide) (by decide) (by decide) (by decide)⟩

/-! ## Button persistence (C6) -/

theorem left_held_lor (a b : Nat) (h : left_held a = true) : left_held (a ||| b) = true := by
  unfold left_held MOUSE_BUTTON_LEFT at *
  simp only [decide_eq_true_eq, Nat.and_one_is_mod] at *
  exact Nat.or_mod_two_eq_one.mpr (Or.inl h)

theorem mem_queue_try_add {α : Type} (cap : Nat) (q : List α) (x r : α)
    (h : r ∈ (queue_try_add cap q x).2) : r ∈ q ∨ r = x := by
  unfold queue_try_add at h
  split_ifs at h
  · simpa using h
  · exact Or.inl h

theorem received_keeps_left (proto : Nat) (m : Bool) (a i : Nat) (report : List Nat)
    (s : State) (hp : proto ≠ HID_ITF_PROTOCOL_MOUSE) :
    (tuh_hid_report_received_cb proto m a i report s).1.last_rpt = s.last_rpt ∧
    (tuh_hid_report_received_cb proto m a i report s).1.mouse_report_queue
      = s.mouse_report_queue ∧
    ∀ c ∈ (tuh_hid_report_received_cb proto m a i report s).2,
      c.mouse_without_left = false := by
  unfold tuh_hid_report_received_cb
  simp only [hp, if_false]
  split_ifs <;> simp [Call.mouse_without_left]

theorem process_keeps_left (report : List Nat) (s : State)
    (h1 : left_held s.last_rpt.buttons = true)
    (h2 : ∀ r ∈ s.mouse_report_queue, left_held r.buttons = true) :
    left_held (process_hid_report report s).1.last_rpt.buttons = true ∧
    (∀ r ∈ (process_hid_report report s).1.mouse_report_queue,
      left_held r.buttons = true) ∧
    ∀ c ∈ (process_hid_report report s).2, c.mouse_without_left = false := by
  unfold process_hid_report
  by_cases hc : rd report 0 = HID_ITF_PROTOCOL_MOUSE
  · simp only [hc, if_true]
    cases hq : s.mouse_report_queue with
    | nil =>
      simp only [queue_try_remove]
      refine ⟨h1, ?_, by simp⟩
      intro r hr
      rcases mem_queue_try_add _ _ _ _ hr with h | h
      · simp at h
      · rw [h]
        exact left_held_lor _ _ h1
    | cons r0 q =>
      simp only [queue_try_remove]
      refine ⟨h1, ?_, by simp⟩
      intro r hr
      rcases mem_queue_try_add _ _ _ _ hr with h | h
      · exact h2 r (by rw [hq]; exact List.mem_cons_of_mem _ h)
      · rw [h]
        exact left_held_lor _ _ (h2 r0 (by rw [hq]; exact List.mem_cons_self _ _))
  · simp only [hc, if_false]
    split_ifs <;> exact ⟨h1, h2, by simp [Call.mouse_without_left]⟩

theorem mouse_stage_keeps_left (rid : Nat) (env : LoopEnv) (s : State)
    (h1 : left_held s.last_rpt.buttons = true)
    (h2 : ∀ r ∈ s.mouse_report_queue, left_held r.buttons = true) :
    left_held (mouse_stage rid env s).1.last_rpt.buttons = true ∧
    (∀ r ∈ (mouse_stage rid env s).1.mouse_report_queue, left_held r.buttons = true) ∧
    ∀ c ∈ (mouse_stage rid env s).2, c.mouse_without_left = false := by
  by_cases h : env.mouse_ready = false ∨ s.mouse_report_queue = []
  · rw [mouse_stage_idle rid env s h]
    split_ifs <;> exact ⟨h1, h2, by simp [Call.mouse_without_left]⟩
  · have hr : env.mouse_ready = true := by
      cases hm : env.mouse_ready
      · exact absurd (Or.inl hm) h
      · rfl
    obtain ⟨r0, q, hq⟩ : ∃ r q, s.mouse_report_queue = r :: q := by
      cases hq : s.mouse_report_queue with
      | nil => exact absurd (Or.inr hq) h
      | cons r q => exact ⟨r, q, rfl⟩
    have h0 : left_held r0.buttons = true := h2 r0 (by rw [hq]; exact List.mem_cons_self _ _)
    have hqq : ∀ r ∈ q, left_held r.buttons = true :=
      fun r hr => h2 r (by rw [hq]; exact List.mem_cons_of_mem _ hr)
    have hadd : ∀ x : mouse_report_t, left_held x.buttons = true →
        ∀ r ∈ (queue_try_add MOUSE_QUEUE_SIZE q x).2, left_held r.buttons = true := by
      intro x hx r hr
      rcases mem_queue_try_add _ _ _ _ hr with h | h
      · exact hqq r h
      · rw [h]; exact hx
    rw [mouse_stage_dequeue rid env s r0 q hr hq]
    split_ifs
    · exact ⟨h1, hqq, by simp [Call.mouse_without_left, h0]⟩
    · exact ⟨h1, hadd _ h0, by simp [Call.mouse_without_left, h0]⟩
    · exact ⟨h1, hqq, by simp [Call.mouse_without_left]⟩
    · exact ⟨h1, hqq, by simp [Call.mouse_without_left, h0]⟩
    · exact ⟨h1, hadd _ h0, by simp [Call.mouse_without_left, h0]⟩

theorem forward_keeps_left (rid : Nat) (env : LoopEnv) (s : State)
    (h1 : left_held s.last_rpt.buttons = true)
    (h2 : ∀ r ∈ s.mouse_report_queue, left_held r.buttons = true) :
    left_held (main_loop_iteration rid env s).1.last_rpt.buttons = true ∧
    (∀ r ∈ (main_loop_iteration rid env s).1.mouse_report_queue,
      left_held r.buttons = true) ∧
    ∀ c ∈ (main_loop_iteration rid env s).2, c.mouse_without_left = false := by
  have hk := keyboard_stage_keeps env s
  have hm := mouse_stage_keeps_left rid env (keyboard_stage env s).1
    (by rw [hk.2.2.2.1]; exact h1) (by rw [hk.1]; exact h2)
  have hg := gamepad_stage_keeps env (mouse_stage rid env (keyboard_stage env s).1).1
  unfold main_loop_iteration
  refine ⟨by rw [hg.2.2.2.1]; exact hm.1, by rw [hg.1]; exact hm.2.1, ?_⟩
  intro c hc
  simp only [List.mem_append] at hc
  rcases hc with (hc | hc) | hc
  · obtain ⟨m, k, e⟩ := keyboard_stage_calls env s c hc
    rw [e]; rfl
  · exact hm.2.2 c hc
  · have := gamepad_stage_calls env _ c hc
    cases c <;> simp_all [Call.mouse_without_left, Call.is_gamepad]

theorem run_keeps_left (rid : Nat) (es : List Event) (s : State)
    (h1 : left_held s.last_rpt.buttons = true)
    (h2 : ∀ r ∈ s.mouse_report_queue, left_held r.buttons = true)
    (hes : ∀ e ∈ es, e.is_physical_mouse = false) :
    ∀ c ∈ (run rid es s).2, c.mouse_without_left = false := by
  induction es generalizing s with
  | nil => intro c hc; simp [run] at hc
  | cons e es ih =>
    have he : e.is_physical_mouse = false := hes e (List.mem_cons_self _ _)
    have hst : left_held (step rid e s).1.last_rpt.buttons = true ∧
        (∀ r ∈ (step rid e s).1.mouse_report_queue, left_held r.buttons = true) ∧
        ∀ c ∈ (step rid e s).2, c.mouse_without_left = false := by
      cases e with
      | report_received proto m a i r =>
        have hp : proto ≠ HID_ITF_PROTOCOL_MOUSE := by
          simpa [Event.is_physical_mouse] using he
        have hk := received_keeps_left proto m a i r s hp
        simp only [step]
        exact ⟨by rw [hk.1]; exact h1, by rw [hk.2.1]; exact h2, hk.2.2⟩
      | command r => exact process_keeps_left r s h1 h2
      | forward env => exact forward_keeps_left rid env s h1 h2
    intro c hc
    simp only [run, List.mem_append] at hc
    rcases hc with hc | hc
    · exact hst.2.2 c hc
    · exact ih _ hst.1 hst.2.1 (fun e he => hes e (List.mem_cons_of_mem _ he)) c hc

/-- C6, as stated, fails: a mouse-inject command is queued, a physical report
with `buttons = LEFT` arrives, a second inject command merges with the first,
and the physical report is forwarded with LEFT; an inject command with
`buttons = 0` issued afterwards, with no further physical report, merges with
the report still queued and is transmitted with `buttons = 0`. -/
theorem left_button_counterexample :
    ((run 3
        [Event.command (2 :: 0 :: 1 :: List.replicate 61 0),
         Event.report_received HID_ITF_PROTOCOL_MOUSE false 1 0 [1, 0, 0, 0, 0, 0, 0],
         Event.command (2 :: 0 :: 1 :: List.replicate 61 0),
         Event.forward (LoopEnv.all_ready 5)]
        (State.init 4)).2.filter Call.is_mouse
      = [Call.mouse_report MOUSE_BUTTON_LEFT 0 0 0 0]) ∧
    ((run 3
        [Event.command (2 :: 0 :: 1 :: List.replicate 61 0),
         Event.forward (LoopEnv.all_ready 6)]
        (run 3
          [Event.command (2 :: 0 :: 1 :: List.replicate 61 0),
           Event.report_received HID_ITF_PROTOCOL_MOUSE false 1 0 [1, 0, 0, 0, 0, 0, 0],
           Event.command (2 :: 0 :: 1 :: List.replicate 61 0),
           Event.forward (LoopEnv.all_ready 5)]
          (State.init 4)).1).2.filter Call.is_mouse
      = [Call.mouse_report 0 3 0 0 0]) ∧
    left_held 0 = false := by
  decide

/-- C6, amended: when a physical mouse report with the LEFT bit is received
and enqueued while no report lacking the LEFT bit is in the mouse queue
(for instance into an empty queue), then over every following sequence of
forwarding iterations, custom-channel commands and reports from other
interfaces, with no further physical mouse report, every ordinary mouse
report that is transmitted has the LEFT bit set; this covers every report
that results from a mouse-inject command carrying `buttons = 0`. -/
theorem left_button_persists (rid : Nat) (s : State) (m : Bool) (a i : Nat)
    (report : List Nat) (es : List Event)
    (hlen : report.length ≠ 0)
    (hleft : left_held
      (parse_mouse (s.hid_devices.getD i ⟨0, 0, 0⟩).protocol report).buttons = true)
    (hroom : s.mouse_report_queue.length < MOUSE_QUEUE_SIZE)
    (hq : ∀ r ∈ s.mouse_report_queue, left_held r.buttons = true)
    (hes : ∀ e ∈ es, e.is_physical_mouse = false) :
    ∀ c ∈ (run rid es
        (tuh_hid_report_received_cb HID_ITF_PROTOCOL_MOUSE m a i report s).1).2,
      c.mouse_without_left = false := by
  have hcb : (tuh_hid_report_received_cb HID_ITF_PROTOCOL_MOUSE m a i report s).1
      = { s with
          mouse_report_queue := s.mouse_report_queue ++
            [parse_mouse (s.hid_devices.getD i ⟨0, 0, 0⟩).protocol report]
          last_rpt := parse_mouse (s.hid_devices.getD i ⟨0, 0, 0⟩).protocol report } := by
    unfold tuh_hid_report_received_cb
    rw [if_neg hlen]
    simp only [HID_ITF_PROTOCOL_KEYBOARD, HID_ITF_PROTOCOL_NONE, HID_ITF_PROTOCOL_MOUSE,
      queue_try_add, hroom, if_true]
    simp
  apply run_keeps_left rid es _ _ _ hes
  · rw [hcb]; exact hleft
  · rw [hcb]
    intro r hr
    simp only [List.mem_append, List.mem_singleton] at hr
    rcases hr with hr | hr
    · exact hq r hr
    · rw [hr]; exact hleft

theorem left_button_persists_witness :
    [1, 0, 0, 0, 0, 0, 0].length ≠ 0 ∧
    left_held
      (parse_mouse ((State.init 4).hid_devices.getD 0 ⟨0, 0, 0⟩).protocol
        [1, 0, 0, 0, 0, 0, 0]).buttons = true ∧
    (State.init 4).mouse_report_queue.length < MOUSE_QUEUE_SIZE ∧
    (∀ r ∈ (State.init 4).mouse_report_queue, left_held r.buttons = true) ∧
    (∀ e ∈ [Event.forward (LoopEnv.all_ready 5),
            Event.command (2 :: 0 :: 5 :: List.replicate 61 0),
            Event.forward (LoopEnv.all_ready 6)], e.is_physical_mouse = false) ∧
    (∀ c ∈ (run 3
        [Event.forward (LoopEnv.all_ready 5),
         Event.command (2 :: 0 :: 5 :: List.replicate 61 0),
         Event.forward (LoopEnv.all_ready 6)]
        (tuh_hid_report_received_cb HID_ITF_PROTOCOL_MOUSE false 1 0
          [1, 0, 0, 0, 0, 0, 0] (State.init 4)).1).2,
      c.mouse_without_left = false) ∧
    (run 3
        [Event.forward (LoopEnv.all_ready 5),
         Event.command (2 :: 0 :: 5 :: List.replicate 61 0),
         Event.forward (LoopEnv.all_ready 6)]
        (tuh_hid_report_received_cb HID_ITF_PROTOCOL_MOUSE false 1 0
          [1, 0, 0, 0, 0, 0, 0] (State.init 4)).1).2.filter Call.is_mouse
      = [Call.mouse_report MOUSE_BUTTON_LEFT 0 0 0 0,
         Call.mouse_report MOUSE_BUTTON_LEFT 5 0 0 0] :=
  ⟨by decide, by decide, by decide, by decide, by decide,
    left_button_persists 3 (State.init 4) false 1 0 [1, 0, 0, 0, 0, 0, 0]
      [Event.forward (LoopEnv.all_ready 5),
       Event.command (2 :: 0 :: 5 :: List.replicate 61 0),
       Event.forward (LoopEnv.all_ready 6)]
      (by decide) (by decide) (by decide) (by decide) (by decide),
    by decide⟩

/-! ## Idle re-centering (C9) -/

theorem mouse_stage_idle_quiet (rid : Nat) (env : LoopEnv) (s : State)
    (h : env.mouse_ready = false ∨ s.mouse_report_queue = [])
    (hsc : s.should_center = false)
    (hne : u32_sub env.now s.last_mouse_move_time ≤ IDLE_TIMEOUT_MS) :
    mouse_stage rid env s = (s, []) := by
  rw [mouse_stage_idle rid env s h]
  have hn : ¬ u32_sub env.now s.last_mouse_move_time > IDLE_TIMEOUT_MS := by omega
  simp only [hn, if_false, hsc]
  rw [if_neg (by simp)]
  cases s
  simp_all

theorem mouse_stage_idle_expired (rid : Nat) (env : LoopEnv) (s : State)
    (h : env.mouse_ready = false ∨ s.mouse_report_queue = [])
    (hmode : s.mouse_to_gamepade = 1) (hready : env.center_ready = true)
    (hex : u32_sub env.now s.last_mouse_move_time > IDLE_TIMEOUT_MS) :
    mouse_stage rid env s
      = ({ s with should_center := false, last_mouse_move_time := env.now },
          [Call.gamepad_report 0 0 0 0 0 0 0 0]) := by
  rw [mouse_stage_idle rid env s h]
  simp only [hex, if_true, hmode, hready]
  rw [if_pos (by simp)]

theorem keyboard_stage_no_gamepad (env : LoopEnv) (s : State) :
    (keyboard_stage env s).2.filter Call.is_gamepad = [] := by
  rw [List.filter_eq_nil_iff]
  intro c hc
  obtain ⟨m, k, e⟩ := keyboard_stage_calls env s c hc
  rw [e]
  simp [Call.is_gamepad]

theorem main_loop_quiet (rid : Nat) (env : LoopEnv) (s : State)
    (h : env.mouse_ready = false ∨ s.mouse_report_queue = [])
    (hsc : s.should_center = false) (hg : s.gamepad_report_queue = [])
    (hne : u32_sub env.now s.last_mouse_move_time ≤ IDLE_TIMEOUT_MS) :
    main_loop_iteration rid env s = keyboard_stage env s := by
  have hk := keyboard_stage_keeps env s
  unfold main_loop_iteration
  simp only
  rw [mouse_stage_idle_quiet rid env (keyboard_stage env s).1
      (by rw [hk.1]; exact h) (by rw [hk.2.2.2.2.1]; exact hsc)
      (by rw [hk.2.2.2.2.2]; exact hne)]
  simp only
  rw [gamepad_stage_empty env _ (by rw [hk.2.1]; exact hg)]
  simp

theorem run_quiet (rid : Nat) (envs : List LoopEnv) (s : State)
    (h : s.mouse_report_queue = [] ∨ ∀ e ∈ envs, e.mouse_ready = false)
    (hsc : s.should_center = false) (hg : s.gamepad_report_queue = [])
    (hne : ∀ e ∈ envs, u32_sub e.now s.last_mouse_move_time ≤ IDLE_TIMEOUT_MS) :
    (run rid (envs.map Event.forward) s).2.filter Call.is_gamepad = [] := by
  induction envs generalizing s with
  | nil => simp [run]
  | cons env envs ih =>
    have hk := keyboard_stage_keeps env s
    have hq : main_loop_iteration rid env s = keyboard_stage env s :=
      main_loop_quiet rid env s
        (h.elim Or.inr (fun h => Or.inl (h env (List.mem_cons_self _ _))))
        hsc hg (hne env (List.mem_cons_self _ _))
    simp only [List.map_cons, run, step, hq, List.filter_append, keyboard_stage_no_gamepad,
      List.nil_append]
    apply ih
    · rw [hk.1]
      exact h.elim Or.inl (fun h => Or.inr (fun e he => h e (List.mem_cons_of_mem _ he)))
    · rw [hk.2.2.2.2.1]; exact hsc
    · rw [hk.2.1]; exact hg
    · intro e he
      rw [hk.2.2.2.2.2]
      exact hne e (List.mem_cons_of_mem _ he)

theorem mouse_stage_idle_auto (rid : Nat) (env : LoopEnv) (s : State)
    (h : env.mouse_ready = false ∨ s.mouse_report_queue = [])
    (hmode : s.mouse_to_gamepade = 1) (hready : env.center_ready = true) :
    mouse_stage rid env s
      = ({ s with
           should_center := false
           last_mouse_move_time :=
             if u32_sub env.now s.last_mouse_move_time > IDLE_TIMEOUT_MS then env.now
             else s.last_mouse_move_time },
         if u32_sub env.now s.last_mouse_move_time > IDLE_TIMEOUT_MS ∨ s.should_center = true
         then [Call.gamepad_report 0 0 0 0 0 0 0 0] else []) := by
  rw [mouse_stage_idle rid env s h]
  by_cases hex : u32_sub env.now s.last_mouse_move_time > IDLE_TIMEOUT_MS
  · simp [hex, hmode, hready]
  · cases hsc : s.should_center
    · cases s
      simp_all
      simp [Nat.not_lt.mpr hex]
    · simp [hex, hmode, hready, hsc]

theorem main_loop_dequeue_auto (rid : Nat) (env : LoopEnv) (s : State) (r : mouse_report_t)
    (q : List mouse_report_t) (hmode : s.mouse_to_gamepade = 1)
    (hr : env.mouse_ready = true) (hq : s.mouse_report_queue = r :: q) :
    (main_loop_iteration rid env s).1.last_mouse_move_time = env.now ∧
    (main_loop_iteration rid env s).1.should_center = s.should_center ∧
    (main_loop_iteration rid env s).1.mouse_to_gamepade = 1 := by
  have hk := keyboard_stage_keeps env s
  have hgk := gamepad_stage_keeps env (mouse_stage rid env (keyboard_stage env s).1).1
  have hm := mouse_stage_dequeue rid env (keyboard_stage env s).1 r q hr
    (by rw [hk.1]; exact hq)
  rw [if_pos (by rw [hk.2.2.1]; exact hmode)] at hm
  unfold main_loop_iteration
  simp only
  rw [hgk.2.2.2.2.2, hgk.2.2.2.2.1, hgk.2.2.1, hm]
  simp only
  exact ⟨trivial, hk.2.2.2.2.1, by rw [hk.2.2.1]; exact hmode⟩

theorem main_loop_quiet_state (rid : Nat) (env : LoopEnv) (s : State)
    (h : env.mouse_ready = false ∨ s.mouse_report_queue = [])
    (hsc : s.should_center = false)
    (hne : u32_sub env.now s.last_mouse_move_time ≤ IDLE_TIMEOUT_MS) :
    (mouse_stage rid env (keyboard_stage env s).1).2 = [] ∧
    (main_loop_iteration rid env s).1.should_center = false ∧
    (main_loop_iteration rid env s).1.last_mouse_move_time = s.last_mouse_move_time ∧
    (main_loop_iteration rid env s).1.mouse_report_queue = s.mouse_report_queue := by
  have hk := keyboard_stage_keeps env s
  have hm := mouse_stage_idle_quiet rid env (keyboard_stage env s).1
    (by rw [hk.1]; exact h) (by rw [hk.2.2.2.2.1]; exact hsc)
    (by rw [hk.2.2.2.2.2]; exact hne)
  have hgk := gamepad_stage_keeps env (keyboard_stage env s).1
  refine ⟨by rw [hm], ?_, ?_, ?_⟩
  · unfold main_loop_iteration
    simp only [hm]
    rw [hgk.2.2.2.2.1, hk.2.2.2.2.1]
    exact hsc
  · unfold main_loop_iteration
    simp only [hm]
    rw [hgk.2.2.2.2.2, hk.2.2.2.2.2]
  · unfold main_loop_iteration
    simp only [hm]
    rw [hgk.1, hk.1]

theorem run_quiet_state (rid : Nat) (envs : List LoopEnv) (s : State)
    (h : s.mouse_report_queue = [] ∨ ∀ e ∈ envs, e.mouse_ready = false)
    (hsc : s.should_center = false)
    (hne : ∀ e ∈ envs, u32_sub e.now s.last_mouse_move_time ≤ IDLE_TIMEOUT_MS) :
    (run rid (envs.map Event.forward) s).1.should_center = false ∧
    (run rid (envs.map Event.forward) s).1.last_mouse_move_time = s.last_mouse_move_time ∧
    (run rid (envs.map Event.forward) s).1.mouse_report_queue = s.mouse_report_queue := by
  induction envs generalizing s with
  | nil => exact ⟨hsc, rfl, rfl⟩
  | cons env envs ih =>
    obtain ⟨_, h2, h3, h4⟩ := main_loop_quiet_state rid env s
      (h.elim Or.inr (fun h => Or.inl (h env (List.mem_cons_self _ _))))
      hsc (hne env (List.mem_cons_self _ _))
    have := ih (main_loop_iteration rid env s).1
      (by
        rw [h4]
        exact h.elim Or.inl (fun h => Or.inr (fun e he => h e (List.mem_cons_of_mem _ he))))
      h2
      (by
        intro e he
        rw [h3]
        exact hne e (List.mem_cons_of_mem _ he))
    simp only [List.map_cons, run, step]
    rw [this.1, this.2.1, this.2.2, h3, h4]
    exact ⟨rfl, rfl, rfl⟩

/-- C9, as stated, fails, in both halves.  In AutoGamepad mode with the
gamepad endpoint ready and no mouse report ever dequeued, two idle iterations
at 11 ms and 22 ms transmit two all-zero gamepad reports, not one.  And a
recenter follows a mouse dequeue after 1 ms when one was left pending: an
expiry at 11 ms that cannot transmit (the mode still Passthrough, or the
gamepad endpoint busy) sets `should_center`, the dequeue at 30 ms in
AutoGamepad mode does not clear it, and the idle iteration at 31 ms, with the
endpoint ready, transmits the all-zero report. -/
theorem idle_center_counterexample :
    (run 3 [Event.forward (LoopEnv.all_ready 11), Event.forward (LoopEnv.all_ready 22)]
        { State.init 4 with mouse_to_gamepade := 1 }).2
      = [Call.gamepad_report 0 0 0 0 0 0 0 0, Call.gamepad_report 0 0 0 0 0 0 0 0] ∧
    ({ State.init 4 with mouse_to_gamepade := 1 } : State).mouse_report_queue = [] ∧
    (run 3 [Event.forward (LoopEnv.all_ready 11)]
        { State.init 4 with mouse_to_gamepade := 1 }).1.mouse_report_queue = [] ∧
    (run 3 [Event.forward (LoopEnv.all_ready 11), Event.command [3, 1],
            Event.report_received HID_ITF_PROTOCOL_MOUSE false 1 0 [0, 5, 0, 0],
            Event.forward (LoopEnv.all_ready 30), Event.forward (LoopEnv.all_ready 31)]
        (State.init 4)).2.filter Call.is_gamepad
      = [Call.gamepad_report 0 0 127 0 0 0 0 0, Call.gamepad_report 0 0 0 0 0 0 0 0] ∧
    (run 3 [Event.forward { LoopEnv.all_ready 11 with center_ready := false },
            Event.report_received HID_ITF_PROTOCOL_MOUSE false 1 0 [0, 5, 0, 0],
            Event.forward (LoopEnv.all_ready 30), Event.forward (LoopEnv.all_ready 31)]
        { State.init 4 with mouse_to_gamepade := 1 }).2.filter Call.is_gamepad
      = [Call.gamepad_report 0 0 127 0 0 0 0 0, Call.gamepad_report 0 0 0 0 0 0 0 0] := by
  decide

/-- C9, amended: with the mode AutoGamepad, in any state,
(1) an iteration that dequeues no mouse report (the mouse endpoint is not
ready or the mouse queue is empty), with the gamepad endpoint ready, has its
idle logic transmit one all-zero gamepad report if more than
`IDLE_TIMEOUT_MS` (10 ms) have passed since the recorded time of the last
mouse motion or a recenter is pending (`should_center`), and nothing
otherwise; with the gamepad queue empty that is the only gamepad report of
the iteration; afterwards no recenter is pending and, on expiry, the recorded
time is the current time, so a long idle run transmits one recenter per
elapsed threshold rather than one in total;
(2) over any run of iterations that dequeue no mouse report, start with no
recenter pending and all lie within the threshold of the recorded time, the
idle logic transmits nothing in any iteration, and with the gamepad queue
empty the run transmits no gamepad report at all;
(3) an iteration that dequeues a mouse report sets the recorded time to the
current time and leaves `should_center` as it was, so in a following
iteration without a dequeue, within the threshold and with the gamepad
endpoint ready, the idle logic transmits a recenter exactly when one was
pending at the dequeue. -/
theorem idle_center_per_threshold (rid : Nat) (s : State)
    (hmode : s.mouse_to_gamepade = 1) :
    (∀ env : LoopEnv, env.center_ready = true →
      (env.mouse_ready = false ∨ s.mouse_report_queue = []) →
      (mouse_stage rid env (keyboard_stage env s).1).2
          = (if u32_sub env.now s.last_mouse_move_time > IDLE_TIMEOUT_MS ∨
                s.should_center = true
              then [Call.gamepad_report 0 0 0 0 0 0 0 0] else []) ∧
      (s.gamepad_report_queue = [] →
        (main_loop_iteration rid env s).2.filter Call.is_gamepad
          = (if u32_sub env.now s.last_mouse_move_time > IDLE_TIMEOUT_MS ∨
                s.should_center = true
              then [Call.gamepad_report 0 0 0 0 0 0 0 0] else [])) ∧
      (main_loop_iteration rid env s).1.last_mouse_move_time
          = (if u32_sub env.now s.last_mouse_move_time > IDLE_TIMEOUT_MS
              then env.now else s.last_mouse_move_time) ∧
      (main_loop_iteration rid env s).1.should_center = false ∧
      (main_loop_iteration rid env s).1.mouse_to_gamepade = 1 ∧
      (main_loop_iteration rid env s).1.mouse_report_queue = s.mouse_report_queue) ∧
    (∀ envs : List LoopEnv,
      (s.mouse_report_queue = [] ∨ ∀ e ∈ envs, e.mouse_ready = false) →
      s.should_center = false →
      s.gamepad_report_queue = [] →
      (∀ e ∈ envs, u32_sub e.now s.last_mouse_move_time ≤ IDLE_TIMEOUT_MS) →
      (run rid (envs.map Event.forward) s).2.filter Call.is_gamepad = []) ∧
    (∀ (pre : List LoopEnv) (env : LoopEnv),
      (s.mouse_report_queue = [] ∨ ∀ e ∈ pre ++ [env], e.mouse_ready = false) →
      s.should_center = false →
      (∀ e ∈ pre ++ [env], u32_sub e.now s.last_mouse_move_time ≤ IDLE_TIMEOUT_MS) →
      (mouse_stage rid env
        (keyboard_stage env (run rid (pre.map Event.forward) s).1).1).2 = []) ∧
    (∀ (env : LoopEnv) (r : mouse_report_t) (q : List mouse_report_t),
      env.mouse_ready = true → s.mouse_report_queue = r :: q →
      (main_loop_iteration rid env s).1.last_mouse_move_time = env.now ∧
      (main_loop_iteration rid env s).1.should_center = s.should_center ∧
      (main_loop_iteration rid env s).1.mouse_to_gamepade = 1 ∧
      ∀ env2 : LoopEnv, env2.center_ready = true →
        (env2.mouse_ready = false ∨
          (main_loop_iteration rid env s).1.mouse_report_queue = []) →
        u32_sub env2.now env.now ≤ IDLE_TIMEOUT_MS →
        (mouse_stage rid env2 (keyboard_stage env2 (main_loop_iteration rid env s).1).1).2
          = (if s.should_center = true then [Call.gamepad_report 0 0 0 0 0 0 0 0]
              else [])) := by
  have key : ∀ (t : State) (env : LoopEnv), t.mouse_to_gamepade = 1 →
      env.center_ready = true → (env.mouse_ready = false ∨ t.mouse_report_queue = []) →
      mouse_stage rid env (keyboard_stage env t).1
        = ({ (keyboard_stage env t).1 with
             should_center := false
             last_mouse_move_time :=
               if u32_sub env.now t.last_mouse_move_time > IDLE_TIMEOUT_MS then env.now
               else t.last_mouse_move_time },
           if u32_sub env.now t.last_mouse_move_time > IDLE_TIMEOUT_MS ∨
              t.should_center = true
           then [Call.gamepad_report 0 0 0 0 0 0 0 0] else []) := by
    intro t env ht hready h
    have hk := keyboard_stage_keeps env t
    rw [mouse_stage_idle_auto rid env (keyboard_stage env t).1
      (by rw [hk.1]; exact h) (by rw [hk.2.2.1]; exact ht) hready,
      hk.2.2.2.2.2, hk.2.2.2.2.1]
  refine ⟨?_, ?_, ?_, ?_⟩
  · intro env hready h
    have hk := keyboard_stage_keeps env s
    have hm := key s env hmode hready h
    have hgk := gamepad_stage_keeps env (mouse_stage rid env (keyboard_stage env s).1).1
    refine ⟨by rw [hm], ?_, ?_, ?_, ?_, ?_⟩
    · intro hg
      have hgs := gamepad_stage_empty env (mouse_stage rid env (keyboard_stage env s).1).1
        (by rw [hm]; simp only; rw [hk.2.1]; exact hg)
      unfold main_loop_iteration
      simp only [hgs, List.filter_append, keyboard_stage_no_gamepad, List.nil_append,
        List.filter_nil, List.append_nil]
      rw [hm]
      simp only
      split_ifs <;> simp [Call.is_gamepad]
    · unfold main_loop_iteration
      simp only
      rw [hgk.2.2.2.2.2, hm]
    · unfold main_loop_iteration
      simp only
      rw [hgk.2.2.2.2.1, hm]
    · unfold main_loop_iteration
      simp only
      rw [hgk.2.2.1, hm]
      simp only
      rw [hk.2.2.1]
      exact hmode
    · unfold main_loop_iteration
      simp only
      rw [hgk.1, hm]
      simp only
      rw [hk.1]
  · intro envs h hsc hg hne
    exact run_quiet rid envs s h hsc hg hne
  · intro pre env h hsc hne
    obtain ⟨h1, h2, h3⟩ := run_quiet_state rid pre s
      (h.elim Or.inl (fun h => Or.inr (fun e he => h e (List.mem_append_left _ he))))
      hsc (fun e he => hne e (List.mem_append_left _ he))
    have henv : env ∈ pre ++ [env] := List.mem_append_right _ (List.mem_singleton_self env)
    exact (main_loop_quiet_state rid env _
      (by
        rw [h3]
        exact h.elim Or.inr (fun h => Or.inl (h env henv)))
      h1
      (by
        rw [h2]
        exact hne env henv)).1
  · intro env r q hr hq
    obtain ⟨h1, h2, h3⟩ := main_loop_dequeue_auto rid env s r q hmode hr hq
    refine ⟨h1, h2, h3, ?_⟩
    intro env2 hready2 h hne
    have hA : ¬ u32_sub env2.now env.now > IDLE_TIMEOUT_MS := by omega
    rw [key _ env2 h3 hready2 h]
    simp only [h1, h2, hA, false_or]

theorem idle_center_per_threshold_witness :
    ({ State.init 4 with mouse_to_gamepade := 1, should_center := true } : State).mouse_to_gamepade
      = 1 ∧
    (∀ env : LoopEnv, env.center_ready = true →
      (env.mouse_ready = false ∨
        ({ State.init 4 with
            mouse_to_gamepade := 1, should_center := true } : State).mouse_report_queue = []) →
      (mouse_stage 3 env
          (keyboard_stage env
            { State.init 4 with mouse_to_gamepade := 1, should_center := true }).1).2
        = (if u32_sub env.now
                ({ State.init 4 with
                    mouse_to_gamepade := 1, should_center := true } : State).last_mouse_move_time
                > IDLE_TIMEOUT_MS ∨
              ({ State.init 4 with
                  mouse_to_gamepade := 1, should_center := true } : State).should_center = true
            then [Call.gamepad_report 0 0 0 0 0 0 0 0] else [])) :=
  ⟨by decide,
    fun env h1 h2 =>
      ((idle_center_per_threshold 3
        { State.init 4 with mouse_to_gamepade := 1, should_center := true } (by decide)).1
        env h1 h2).1⟩

/-! ## Rejected reports and re-arming (C11 - C13) -/

/-- C11: a Keyboard-interface report `rk` with `0 < length < 8` and a
None-interface report `rn` with `0 < length < 11` each leave the whole state,
hence all three queues, unchanged, and each issues exactly one receive-report
request, for the same address and instance. -/
theorem truncated_report_dropped (s : State) (m : Bool) (a i : Nat) (rk rn : List Nat)
    (hk0 : 0 < rk.length) (hk : rk.length < 8) (hn0 : 0 < rn.length) (hn : rn.length < 11) :
    tuh_hid_report_received_cb HID_ITF_PROTOCOL_KEYBOARD m a i rk s
      = (s, [Call.receive_report a i]) ∧
    tuh_hid_report_received_cb HID_ITF_PROTOCOL_NONE m a i rn s
      = (s, [Call.receive_report a i]) := by
  constructor
  · unfold tuh_hid_report_received_cb
    rw [if_neg (show ¬ rk.length = 0 by omega)]
    simp [HID_ITF_PROTOCOL_KEYBOARD, HID_ITF_PROTOCOL_NONE, hk]
  · unfold tuh_hid_report_received_cb
    rw [if_neg (show ¬ rn.length = 0 by omega), if_pos rfl,
      if_neg (show ¬ rn.length ≥ 11 by omega)]

theorem truncated_report_dropped_witness :
    (0 < [2, 0, 4].length ∧ [2, 0, 4].length < 8) ∧
    (0 < [1, 2, 3, 4, 5, 6, 7, 8, 9, 10].length ∧
      [1, 2, 3, 4, 5, 6, 7, 8, 9, 10].length < 11) ∧
    (tuh_hid_report_received_cb HID_ITF_PROTOCOL_KEYBOARD false 1 0 [2, 0, 4] (State.init 4)
      = (State.init 4, [Call.receive_report 1 0]) ∧
    tuh_hid_report_received_cb HID_ITF_PROTOCOL_NONE false 1 0
        [1, 2, 3, 4, 5, 6, 7, 8, 9, 10] (State.init 4)
      = (State.init 4, [Call.receive_report 1 0])) :=
  ⟨by decide, by decide,
    truncated_report_dropped (State.init 4) false 1 0 [2, 0, 4]
      [1, 2, 3, 4, 5, 6, 7, 8, 9, 10] (by decide) (by decide) (by decide) (by decide)⟩

/-- C12, what the code does instead: a non-empty Mouse-interface report of
an unrecognized shape (stored sub-protocol other than Boot and a length other
than 7, or stored sub-protocol Boot and a length below 4) is not rejected;
while the mouse queue is not full, the all-zero report is appended to it and
the last-known mouse report, buttons included, is overwritten with zeros. -/
theorem mouse_unrecognized_enqueued (s : State) (m : Bool) (a i : Nat) (report : List Nat)
    (hlen : report.length ≠ 0)
    (hshape :
      ((s.hid_devices.getD i ⟨0, 0, 0⟩).protocol ≠ HID_PROTOCOL_BOOT ∧ report.length ≠ 7) ∨
      ((s.hid_devices.getD i ⟨0, 0, 0⟩).protocol = HID_PROTOCOL_BOOT ∧ report.length < 4))
    (hroom : s.mouse_report_queue.length < MOUSE_QUEUE_SIZE) :
    (tuh_hid_report_received_cb HID_ITF_PROTOCOL_MOUSE m a i report s).1
      = { s with
          mouse_report_queue := s.mouse_report_queue ++ [⟨0, 0, 0, 0⟩]
          last_rpt := ⟨0, 0, 0, 0⟩ } := by
  have hp : parse_mouse (s.hid_devices.getD i ⟨0, 0, 0⟩).protocol report = ⟨0, 0, 0, 0⟩ := by
    unfold parse_mouse
    rcases hshape with ⟨h1, h2⟩ | ⟨h1, h2⟩
    · simp only [if_neg h1, if_neg h2]
    · simp only [if_pos h1, if_neg (show ¬ report.length ≥ 4 by omega),
        if_neg (show ¬ report.length = 7 by omega)]
  unfold tuh_hid_report_received_cb
  rw [if_neg hlen]
  simp only [hp]
  simp [HID_ITF_PROTOCOL_MOUSE, HID_ITF_PROTOCOL_NONE, HID_ITF_PROTOCOL_KEYBOARD,
    queue_try_add, hroom]

theorem mouse_unrecognized_enqueued_witness :
    [1, 2, 3, 4].length ≠ 0 ∧
    ((((⟨BLINK_MOUNTED, [⟨1, 0, HID_PROTOCOL_REPORT⟩], 0, false, 0,
          ⟨MOUSE_BUTTON_LEFT, 0, 0, 0⟩, [], [], []⟩ : State).hid_devices.getD 0
            ⟨0, 0, 0⟩).protocol ≠ HID_PROTOCOL_BOOT ∧ [1, 2, 3, 4].length ≠ 7) ∨
      (((⟨BLINK_MOUNTED, [⟨1, 0, HID_PROTOCOL_REPORT⟩], 0, false, 0,
          ⟨MOUSE_BUTTON_LEFT, 0, 0, 0⟩, [], [], []⟩ : State).hid_devices.getD 0
            ⟨0, 0, 0⟩).protocol = HID_PROTOCOL_BOOT ∧ [1, 2, 3, 4].length < 4)) ∧
    (⟨BLINK_MOUNTED, [⟨1, 0, HID_PROTOCOL_REPORT⟩], 0, false, 0,
        ⟨MOUSE_BUTTON_LEFT, 0, 0, 0⟩, [], [], []⟩ : State).mouse_report_queue.length
      < MOUSE_QUEUE_SIZE ∧
    (tuh_hid_report_received_cb HID_ITF_PROTOCOL_MOUSE false 1 0 [1, 2, 3, 4]
        ⟨BLINK_MOUNTED, [⟨1, 0, HID_PROTOCOL_REPORT⟩], 0, false, 0,
          ⟨MOUSE_BUTTON_LEFT, 0, 0, 0⟩, [], [], []⟩).1
      = { (⟨BLINK_MOUNTED, [⟨1, 0, HID_PROTOCOL_REPORT⟩], 0, false, 0,
            ⟨MOUSE_BUTTON_LEFT, 0, 0, 0⟩, [], [], []⟩ : State) with
          mouse_report_queue :=
            (⟨BLINK_MOUNTED, [⟨1, 0, HID_PROTOCOL_REPORT⟩], 0, false, 0,
              ⟨MOUSE_BUTTON_LEFT, 0, 0, 0⟩, [], [], []⟩ : State).mouse_report_queue ++
              [⟨0, 0, 0, 0⟩]
          last_rpt := ⟨0, 0, 0, 0⟩ } ∧
    (tuh_hid_report_received_cb HID_ITF_PROTOCOL_MOUSE false 1 0 [1, 2, 3, 4]
        ⟨BLINK_MOUNTED, [⟨1, 0, HID_PROTOCOL_REPORT⟩], 0, false, 0,
          ⟨MOUSE_BUTTON_LEFT, 0, 0, 0⟩, [], [], []⟩).1
      = ⟨BLINK_MOUNTED, [⟨1, 0, HID_PROTOCOL_REPORT⟩], 0, false, 0,
          ⟨0, 0, 0, 0⟩, [], [⟨0, 0, 0, 0⟩], []⟩ ∧
    (tuh_hid_report_received_cb HID_ITF_PROTOCOL_MOUSE false 1 0 [1, 2, 3]
        ⟨BLINK_MOUNTED, [⟨1, 0, HID_PROTOCOL_BOOT⟩], 0, false, 0,
          ⟨MOUSE_BUTTON_LEFT, 0, 0, 0⟩, [], [], []⟩).1
      = ⟨BLINK_MOUNTED, [⟨1, 0, HID_PROTOCOL_BOOT⟩], 0, false, 0,
          ⟨0, 0, 0, 0⟩, [], [⟨0, 0, 0, 0⟩], []⟩ :=
  ⟨by decide, by decide, by decide,
    mouse_unrecognized_enqueued _ false 1 0 [1, 2, 3, 4] (by decide) (by decide) (by decide),
    by decide, by decide⟩

/-- C13, as stated, fails: a zero-length report that arrives while no other
device is mounted makes the callback return without any receive-report
request. -/
theorem rearm_zero_length_counterexample :
    tuh_hid_report_received_cb HID_ITF_PROTOCOL_KEYBOARD false 1 0 [] (State.init 4)
      = (State.init 4, []) ∧
    Call.receive_report 1 0 ∉
      (tuh_hid_report_received_cb HID_ITF_PROTOCOL_KEYBOARD false 1 0 []
        (State.init 4)).2 := by
  decide

/-- C13, amended: for every address, instance, declared protocol and report,
the calls made by the callback are exactly one receive-report request for the
same address and instance when the length is not zero (every parse and error
path included); when the length is zero they are a one-second delay followed
by that request if another device is still mounted, and nothing otherwise. -/
theorem rearm_after_report (proto : Nat) (m : Bool) (a i : Nat) (report : List Nat)
    (s : State) :
    (tuh_hid_report_received_cb proto m a i report s).2
      = if report.length = 0 then
          (if m = true then [Call.board_delay 1000, Call.receive_report a i] else [])
        else [Call.receive_report a i] := by
  unfold tuh_hid_report_received_cb
  by_cases h0 : report.length = 0
  · rw [if_pos h0, if_pos h0]
    cases m <;> rfl
  · rw [if_neg h0, if_neg h0]
    simp only
    split_ifs <;> rfl

/-! ## The mode command (C14 - C16) -/

theorem process_set_mode (report : List Nat) (s : State) (h0 : rd report 0 = 3) :
    process_hid_report report s
      = ({ s with mouse_to_gamepade := (rd report 1 : Int) }, []) := by
  unfold process_hid_report
  simp [h0, HID_ITF_PROTOCOL_MOUSE, HID_ITF_PROTOCOL_KEYBOARD, HID_ITF_PROTOCOL_NONE]

theorem keyboard_stage_mode (env : LoopEnv) (s : State) (v : Int) :
    keyboard_stage env { s with mouse_to_gamepade := v }
      = ({ (keyboard_stage env s).1 with mouse_to_gamepade := v },
          (keyboard_stage env s).2) := by
  cases s with
  | mk b h mo sc t l kq mq gq =>
    unfold keyboard_stage
    cases env.kbd_ready
    · rfl
    · cases kq <;> rfl

theorem gamepad_stage_mode (env : LoopEnv) (s : State) (v : Int) :
    gamepad_stage env { s with mouse_to_gamepade := v }
      = ({ (gamepad_stage env s).1 with mouse_to_gamepade := v },
          (gamepad_stage env s).2) := by
  cases s with
  | mk b h mo sc t l kq mq gq =>
    unfold gamepad_stage
    cases env.gamepad_ready
    · rfl
    · cases gq <;> rfl

theorem mouse_stage_mode (rid : Nat) (env : LoopEnv) (s : State) (v : Int)
    (hv1 : v ≠ 1) (hv2 : v ≠ 2) :
    mouse_stage rid env { s with mouse_to_gamepade := v }
      = ({ (mouse_stage rid env { s with mouse_to_gamepade := 0 }).1 with
            mouse_to_gamepade := v },
          (mouse_stage rid env { s with mouse_to_gamepade := 0 }).2) := by
  by_cases h : env.mouse_ready = false ∨ s.mouse_report_queue = []
  · rw [mouse_stage_idle rid env { s with mouse_to_gamepade := v } h,
      mouse_stage_idle rid env { s with mouse_to_gamepade := 0 } h]
    simp [hv1]
  · have hr : env.mouse_ready = true := by
      cases hm : env.mouse_ready
      · exact absurd (Or.inl hm) h
      · rfl
    obtain ⟨r, q, hq⟩ : ∃ r q, s.mouse_report_queue = r :: q := by
      cases hq : s.mouse_report_queue with
      | nil => exact absurd (Or.inr hq) h
      | cons r q => exact ⟨r, q, rfl⟩
    rw [mouse_stage_dequeue rid env { s with mouse_to_gamepade := v } r q hr hq,
      mouse_stage_dequeue rid env { s with mouse_to_gamepade := 0 } r q hr hq]
    simp [hv1, hv2]

theorem main_loop_other_mode (rid : Nat) (env : LoopEnv) (s : State) (v : Int)
    (hv1 : v ≠ 1) (hv2 : v ≠ 2) :
    main_loop_iteration rid env { s with mouse_to_gamepade := v }
      = ({ (main_loop_iteration rid env { s with mouse_to_gamepade := 0 }).1 with
            mouse_to_gamepade := v },
          (main_loop_iteration rid env { s with mouse_to_gamepade := 0 }).2) := by
  unfold main_loop_iteration
  simp only [keyboard_stage_mode]
  rw [mouse_stage_mode rid env (keyboard_stage env s).1 v hv1 hv2]
  simp only [gamepad_stage_mode]

/-- C14, as stated, fails: in AutoGamepad mode, command id 3 with payload
byte 5 is not a no-op: the mode becomes `5`, and the next iteration forwards
the queued mouse report `x = 50, y = -50` unchanged and without the gamepad
stick report that AutoGamepad would have transmitted. -/
theorem set_mode_out_of_range_counterexample :
    (process_hid_report (3 :: 5 :: List.replicate 62 0)
        { State.init 4 with
          mouse_to_gamepade := 1, mouse_report_queue := [⟨0, 50, -50, 0⟩] }).1.mouse_to_gamepade
      = 5 ∧
    (main_loop_iteration 3 (LoopEnv.all_ready 100)
        (process_hid_report (3 :: 5 :: List.replicate 62 0)
          { State.init 4 with
            mouse_to_gamepade := 1, mouse_report_queue := [⟨0, 50, -50, 0⟩] }).1).2
      = [Call.custom_report (custom_report 3 ⟨0, 50, -50, 0⟩),
         Call.mouse_report 0 50 (-50) 0 0] ∧
    (main_loop_iteration 3 (LoopEnv.all_ready 100)
        { State.init 4 with
          mouse_to_gamepade := 1, mouse_report_queue := [⟨0, 50, -50, 0⟩] }).2
      = [Call.custom_report (custom_report 3 ⟨0, 50, -50, 0⟩),
         Call.gamepad_report 0 0 127 (-127) 0 0 0 0,
         Call.mouse_report 0 0 0 0 0] := by
  decide

/-- C14, amended: command id 3 with a payload byte `v` outside `{0, 1, 2}`
stores `v` as the mode and transmits nothing; a following forwarding
iteration then transmits exactly what it would in Passthrough mode (mode `0`)
and leaves the same state, except that the mode stays `v`. -/
theorem set_mode_out_of_range (rid : Nat) (report : List Nat) (s : State) (env : LoopEnv)
    (h0 : rd report 0 = 3) (hv : 2 < rd report 1) :
    process_hid_report report s
      = ({ s with mouse_to_gamepade := (rd report 1 : Int) }, []) ∧
    main_loop_iteration rid env (process_hid_report report s).1
      = ({ (main_loop_iteration rid env { s with mouse_to_gamepade := 0 }).1 with
            mouse_to_gamepade := (rd report 1 : Int) },
          (main_loop_iteration rid env { s with mouse_to_gamepade := 0 }).2) := by
  refine ⟨process_set_mode report s h0, ?_⟩
  rw [process_set_mode report s h0]
  exact main_loop_other_mode rid env s _ (by omega) (by omega)

theorem set_mode_out_of_range_witness :
    rd (3 :: 5 :: List.replicate 62 0) 0 = 3 ∧ 2 < rd (3 :: 5 :: List.replicate 62 0) 1 ∧
    (process_hid_report (3 :: 5 :: List.replicate 62 0)
        { State.init 4 with mouse_to_gamepade := 1 }
      = ({ ({ State.init 4 with mouse_to_gamepade := 1 } : State) with
            mouse_to_gamepade := (rd (3 :: 5 :: List.replicate 62 0) 1 : Int) }, []) ∧
    main_loop_iteration 3 (LoopEnv.all_ready 100)
        (process_hid_report (3 :: 5 :: List.replicate 62 0)
          { State.init 4 with mouse_to_gamepade := 1 }).1
      = ({ (main_loop_iteration 3 (LoopEnv.all_ready 100)
              { ({ State.init 4 with mouse_to_gamepade := 1 } : State) with
                mouse_to_gamepade := 0 }).1 with
            mouse_to_gamepade := (rd (3 :: 5 :: List.replicate 62 0) 1 : Int) },
          (main_loop_iteration 3 (LoopEnv.all_ready 100)
            { ({ State.init 4 with mouse_to_gamepade := 1 } : State) with
              mouse_to_gamepade := 0 }).2)) :=
  ⟨by decide, by decide,
    set_mode_out_of_range 3 (3 :: 5 :: List.replicate 62 0)
      { State.init 4 with mouse_to_gamepade := 1 } (LoopEnv.all_ready 100)
      (by decide) (by decide)⟩

/-- C15: command id 3 with payload byte `v` in `{0, 1, 2}` sets the mode to
`v`, leaves every other global (the three queues, the last-known mouse
report, the idle timer and its pending flag) unchanged and transmits
nothing. -/
theorem set_mode_in_range (report : List Nat) (s : State)
    (h0 : rd report 0 = 3) (hv : rd report 1 ≤ 2) :
    process_hid_report report s
      = ({ s with mouse_to_gamepade := (rd report 1 : Int) }, []) ∧
    ((rd report 1 : Int) = 0 ∨ (rd report 1 : Int) = 1 ∨ (rd report 1 : Int) = 2) := by
  refine ⟨process_set_mode report s h0, ?_⟩
  omega

theorem set_mode_in_range_witness :
    rd (3 :: 2 :: List.replicate 62 0) 0 = 3 ∧ rd (3 :: 2 :: List.replicate 62 0) 1 ≤ 2 ∧
    (process_hid_report (3 :: 2 :: List.replicate 62 0) (State.init 4)
      = ({ State.init 4 with
            mouse_to_gamepade := (rd (3 :: 2 :: List.replicate 62 0) 1 : Int) }, []) ∧
    ((rd (3 :: 2 :: List.replicate 62 0) 1 : Int) = 0 ∨
      (rd (3 :: 2 :: List.replicate 62 0) 1 : Int) = 1 ∨
      (rd (3 :: 2 :: List.replicate 62 0) 1 : Int) = 2)) :=
  ⟨by decide, by decide,
    set_mode_in_range (3 :: 2 :: List.replicate 62 0) (State.init 4) (by decide) (by decide)⟩

/-- C16: a custom-channel report whose command id (byte 0) is none of 0, 1, 2,
3 leaves every global unchanged and transmits nothing. -/
theorem unknown_command_noop (report : List Nat) (s : State) (h : 3 < rd report 0) :
    process_hid_report report s = (s, []) := by
  unfold process_hid_report
  simp only [HID_ITF_PROTOCOL_MOUSE, HID_ITF_PROTOCOL_KEYBOARD, HID_ITF_PROTOCOL_NONE]
  rw [if_neg (by omega), if_neg (by omega), if_neg (by omega), if_neg (by omega)]

theorem unknown_command_noop_witness :
    3 < rd (4 :: 9 :: List.replicate 62 7) 0 ∧
    (4 :: 9 :: List.replicate 62 7).length = 64 ∧
    process_hid_report (4 :: 9 :: List.replicate 62 7)
        { State.init 4 with mouse_to_gamepade := 1, mouse_report_queue := [⟨1, 2, 3, 4⟩] }
      = ({ State.init 4 with mouse_to_gamepade := 1, mouse_report_queue := [⟨1, 2, 3, 4⟩] },
          []) :=
  ⟨by decide, by decide,
    unknown_command_noop (4 :: 9 :: List.replicate 62 7)
      { State.init 4 with mouse_to_gamepade := 1, mouse_report_queue := [⟨1, 2, 3, 4⟩] }
      (by decide)⟩

/-! ## The custom mirror and ManualGamepad (C17, C18) -/

theorem keyboard_stage_no_mouse (env : LoopEnv) (s : State) :
    (keyboard_stage env s).2.filter Call.is_mouse = [] ∧
    (keyboard_stage env s).2.filter Call.is_custom = [] := by
  constructor <;>
  · rw [List.filter_eq_nil_iff]
    intro c hc
    obtain ⟨m, k, e⟩ := keyboard_stage_calls env s c hc
    rw [e]
    simp [Call.is_mouse, Call.is_custom]

theorem gamepad_stage_no_mouse (env : LoopEnv) (s : State) :
    (gamepad_stage env s).2.filter Call.is_mouse = [] ∧
    (gamepad_stage env s).2.filter Call.is_custom = [] := by
  constructor <;>
  · rw [List.filter_eq_nil_iff]
    intro c hc
    have := gamepad_stage_calls env s c hc
    cases c <;> simp_all [Call.is_mouse, Call.is_custom, Call.is_gamepad]

theorem mouse_stage_dequeue_custom (rid : Nat) (env : LoopEnv) (s : State)
    (r : mouse_report_t) (q : List mouse_report_t) (hr : env.mouse_ready = true)
    (hq : s.mouse_report_queue = r :: q) :
    (mouse_stage rid env s).2.filter Call.is_custom
      = [Call.custom_report (custom_report rid r)] := by
  rw [mouse_stage_dequeue rid env s r q hr hq]
  split_ifs <;> simp [Call.is_custom]

theorem asSigned8_toUInt8 (v : Int) (h1 : -128 ≤ v) (h2 : v ≤ 127) :
    asSigned8 (toUInt8 v) = v := by
  unfold asSigned8 toUInt8
  split_ifs <;> omega

/-- C17: in ManualGamepad mode (mode `2`), an iteration with the mouse endpoint
ready and the mouse queue `r :: q` removes `r` and leaves the queue `q` (no
re-enqueue, whatever the transmit answers would have been); the mouse stage
makes a single call, the transmit of the 64-byte custom mirror report of `r`;
the iteration transmits no ordinary mouse report, and its mouse stage no
gamepad report. -/
theorem manual_gamepad_suppressed (rid : Nat) (s : State) (env : LoopEnv)
    (r : mouse_report_t) (q : List mouse_report_t)
    (hmode : s.mouse_to_gamepade = 2)
    (hq : s.mouse_report_queue = r :: q) (hr : env.mouse_ready = true) :
    mouse_stage rid env (keyboard_stage env s).1
      = ({ (keyboard_stage env s).1 with mouse_report_queue := q },
          [Call.custom_report (custom_report rid r)]) ∧
    (custom_report rid r).length = 64 ∧
    (main_loop_iteration rid env s).1.mouse_report_queue = q ∧
    (main_loop_iteration rid env s).2.filter Call.is_mouse = [] ∧
    (main_loop_iteration rid env s).2.filter Call.is_custom
      = [Call.custom_report (custom_report rid r)] ∧
    (mouse_stage rid env (keyboard_stage env s).1).2.filter Call.is_gamepad = [] := by
  have hk := keyboard_stage_keeps env s
  have hm : mouse_stage rid env (keyboard_stage env s).1
      = ({ (keyboard_stage env s).1 with mouse_report_queue := q },
          [Call.custom_report (custom_report rid r)]) := by
    rw [mouse_stage_dequeue rid env _ r q hr (by rw [hk.1]; exact hq)]
    rw [if_neg (by rw [hk.2.2.1, hmode]; decide), if_pos (by rw [hk.2.2.1]; exact hmode)]
  have hg := gamepad_stage_keeps env (mouse_stage rid env (keyboard_stage env s).1).1
  refine ⟨hm, by simp [custom_report], ?_, ?_, ?_, ?_⟩
  · unfold main_loop_iteration
    simp only
    rw [hg.1, hm]
  · unfold main_loop_iteration
    simp only [List.filter_append, (keyboard_stage_no_mouse env s).1,
      (gamepad_stage_no_mouse env _).1, hm]
    simp [Call.is_mouse]
  · unfold main_loop_iteration
    simp only [List.filter_append, (keyboard_stage_no_mouse env s).2,
      (gamepad_stage_no_mouse env _).2, hm]
    simp [Call.is_custom]
  · rw [hm]
    simp [Call.is_gamepad]

theorem manual_gamepad_suppressed_witness :
    ({ State.init 4 with
        mouse_to_gamepade := 2, mouse_report_queue := [⟨1, 5, -5, 0⟩, ⟨0, 1, 1, 0⟩] }
      : State).mouse_to_gamepade = 2 ∧
    ({ State.init 4 with
        mouse_to_gamepade := 2, mouse_report_queue := [⟨1, 5, -5, 0⟩, ⟨0, 1, 1, 0⟩] }
      : State).mouse_report_queue = ⟨1, 5, -5, 0⟩ :: [⟨0, 1, 1, 0⟩] ∧
    (LoopEnv.all_ready 100).mouse_ready = true ∧
    (main_loop_iteration 3 (LoopEnv.all_ready 100)
        { State.init 4 with
          mouse_to_gamepade := 2,
          mouse_report_queue := [⟨1, 5, -5, 0⟩, ⟨0, 1, 1, 0⟩] }).1.mouse_report_queue
      = [⟨0, 1, 1, 0⟩] ∧
    (main_loop_iteration 3 (LoopEnv.all_ready 100)
        { State.init 4 with
          mouse_to_gamepade := 2,
          mouse_report_queue := [⟨1, 5, -5, 0⟩, ⟨0, 1, 1, 0⟩] }).2.filter Call.is_mouse
      = [] :=
  ⟨by decide, by decide, by decide,
    (manual_gamepad_suppressed 3
      { State.init 4 with
        mouse_to_gamepade := 2, mouse_report_queue := [⟨1, 5, -5, 0⟩, ⟨0, 1, 1, 0⟩] }
      (LoopEnv.all_ready 100) ⟨1, 5, -5, 0⟩ [⟨0, 1, 1, 0⟩]
      (by decide) (by decide) (by decide)).2.2.1,
    (manual_gamepad_suppressed 3
      { State.init 4 with
        mouse_to_gamepade := 2, mouse_report_queue := [⟨1, 5, -5, 0⟩, ⟨0, 1, 1, 0⟩] }
      (LoopEnv.all_ready 100) ⟨1, 5, -5, 0⟩ [⟨0, 1, 1, 0⟩]
      (by decide) (by decide) (by decide)).2.2.2.1⟩

/-- C18: in every mode, an iteration that dequeues a mouse report `r`
transmits exactly one custom report; it has 64 bytes: byte 0 is
`REPORT_ID_CUSTOM`, bytes 1 to 4 are `r.buttons` and the bytes that store
`r.x`, `r.y`, `r.wheel` as dequeued (read back as signed they are `r.x`,
`r.y`, `r.wheel`), and the 59 bytes after them are zero. -/
theorem custom_mirror_report (rid : Nat) (s : State) (env : LoopEnv)
    (r : mouse_report_t) (q : List mouse_report_t)
    (hq : s.mouse_report_queue = r :: q) (hr : env.mouse_ready = true) :
    (main_loop_iteration rid env s).2.filter Call.is_custom
      = [Call.custom_report
          ([rid, r.buttons, toUInt8 r.x, toUInt8 r.y, toUInt8 r.wheel]
            ++ List.replicate 59 0)] ∧
    ([rid, r.buttons, toUInt8 r.x, toUInt8 r.y, toUInt8 r.wheel]
        ++ List.replicate 59 0).length = 64 ∧
    (∀ v : Int, -128 ≤ v → v ≤ 127 → asSigned8 (toUInt8 v) = v) := by
  have hk := keyboard_stage_keeps env s
  refine ⟨?_, by simp, asSigned8_toUInt8⟩
  unfold main_loop_iteration
  simp only [List.filter_append, (keyboard_stage_no_mouse env s).2,
    (gamepad_stage_no_mouse env _).2,
    mouse_stage_dequeue_custom rid env _ r q hr (show (keyboard_stage env s).1.mouse_report_queue
      = r :: q by rw [hk.1]; exact hq)]
  rfl

theorem custom_mirror_report_witness :
    ({ State.init 4 with
        mouse_to_gamepade := 1, mouse_report_queue := [⟨1, 50, -50, -1⟩] }
      : State).mouse_report_queue = ⟨1, 50, -50, -1⟩ :: [] ∧
    (LoopEnv.all_ready 100).mouse_ready = true ∧
    ((main_loop_iteration 3 (LoopEnv.all_ready 100)
        { State.init 4 with
          mouse_to_gamepade := 1,
          mouse_report_queue := [⟨1, 50, -50, -1⟩] }).2.filter Call.is_custom
      = [Call.custom_report
          ([3, 1, toUInt8 50, toUInt8 (-50), toUInt8 (-1)] ++ List.replicate 59 0)] ∧
    ([3, 1, toUInt8 50, toUInt8 (-50), toUInt8 (-1)] ++ List.replicate 59 0).length = 64 ∧
    (∀ v : Int, -128 ≤ v → v ≤ 127 → asSigned8 (toUInt8 v) = v)) ∧
    [toUInt8 50, toUInt8 (-50), toUInt8 (-1)] = [50, 206, 255] :=
  ⟨by decide, by decide,
    custom_mirror_report 3
      { State.init 4 with mouse_to_gamepade := 1, mouse_report_queue := [⟨1, 50, -50, -1⟩] }
      (LoopEnv.all_ready 100) ⟨1, 50, -50, -1⟩ [] (by decide) (by decide),
    by decide⟩

/-! ## Re-enqueue after a failed transmit (C19) -/

theorem queue_try_add_room {α : Type} (cap : Nat) (q : List α) (x : α)
    (h : q.length < cap) : (queue_try_add cap q x).2 = q ++ [x] := by
  unfold queue_try_add
  rw [if_pos h]

theorem keyboard_stage_requeue (env : LoopEnv) (s : State) (k : keyboard_report_t)
    (kq : List keyboard_report_t) (hq : s.keyboard_report_queue = k :: kq)
    (hr : env.kbd_ready = true) (hf : env.kbd_sent = false)
    (hc : s.keyboard_report_queue.length ≤ KEYBOARD_QUEUE_SIZE) :
    (keyboard_stage env s).1.keyboard_report_queue = kq ++ [k] := by
  have hl : kq.length < KEYBOARD_QUEUE_SIZE := by
    rw [hq] at hc
    simp only [List.length_cons] at hc
    omega
  unfold keyboard_stage
  simp only [hr, hq, queue_try_remove, if_true, hf]
  exact queue_try_add_room _ _ _ hl

theorem gamepad_stage_requeue (env : LoopEnv) (s : State) (g : gamepad_report_t)
    (gq : List gamepad_report_t) (hq : s.gamepad_report_queue = g :: gq)
    (hr : env.gamepad_ready = true) (hf : env.gamepad_sent = false)
    (hc : s.gamepad_report_queue.length ≤ GAMEPAD_QUEUE_SIZE) :
    (gamepad_stage env s).1.gamepad_report_queue = gq ++ [g] := by
  have hl : gq.length < GAMEPAD_QUEUE_SIZE := by
    rw [hq] at hc
    simp only [List.length_cons] at hc
    omega
  unfold gamepad_stage
  simp only [hr, hq, queue_try_remove, if_true, hf]
  exact queue_try_add_room _ _ _ hl

/-- C19, as stated, fails: in AutoGamepad mode, the iteration that dequeues
the mouse report `{1, 50, -50, 7}` and whose mouse transmit fails appends
`{1, 0, 0, 7}` to the queue, not the item that was dequeued. -/
theorem requeue_auto_gamepad_counterexample :
    (main_loop_iteration 3
        { kbd_ready := true, kbd_sent := true, mouse_ready := true, mouse_sent := false,
          now := 100, center_ready := true, gamepad_ready := true, gamepad_sent := true }
        { State.init 4 with
          mouse_to_gamepade := 1,
          mouse_report_queue := [⟨1, 50, -50, 7⟩] }).1.mouse_report_queue
      = [⟨1, 0, 0, 7⟩] ∧
    ([⟨1, 0, 0, 7⟩] : List mouse_report_t) ≠ [] ++ [⟨1, 50, -50, 7⟩] := by
  decide

/-- C19, amended: with each queue within its capacity, when an iteration
dequeues an item and its transmit fails, the queue afterwards is the old
queue without its head followed by that same item: for the keyboard channel
and for the gamepad channel in every mode, and for the mouse channel in every
mode other than AutoGamepad (`1`) and ManualGamepad (`2`). -/
theorem requeue_same_item (rid : Nat) (s : State) (env : LoopEnv)
    (hkc : s.keyboard_report_queue.length ≤ KEYBOARD_QUEUE_SIZE)
    (hmc : s.mouse_report_queue.length ≤ MOUSE_QUEUE_SIZE)
    (hgc : s.gamepad_report_queue.length ≤ GAMEPAD_QUEUE_SIZE) :
    (∀ (k : keyboard_report_t) (kq : List keyboard_report_t),
      s.keyboard_report_queue = k :: kq → env.kbd_ready = true → env.kbd_sent = false →
      (main_loop_iteration rid env s).1.keyboard_report_queue = kq ++ [k]) ∧
    (∀ (r : mouse_report_t) (q : List mouse_report_t),
      s.mouse_report_queue = r :: q → env.mouse_ready = true → env.mouse_sent = false →
      s.mouse_to_gamepade ≠ 1 → s.mouse_to_gamepade ≠ 2 →
      (main_loop_iteration rid env s).1.mouse_report_queue = q ++ [r]) ∧
    (∀ (g : gamepad_report_t) (gq : List gamepad_report_t),
      s.gamepad_report_queue = g :: gq → env.gamepad_ready = true →
      env.gamepad_sent = false →
      (main_loop_iteration rid env s).1.gamepad_report_queue = gq ++ [g]) := by
  have hk := keyboard_stage_keeps env s
  have hm := mouse_stage_frame rid env (keyboard_stage env s).1
  have hg := gamepad_stage_keeps env (mouse_stage rid env (keyboard_stage env s).1).1
  refine ⟨?_, ?_, ?_⟩
  · intro k kq hq hr hf
    unfold main_loop_iteration
    simp only
    rw [hg.2.1, hm.2.1]
    exact keyboard_stage_requeue env s k kq hq hr hf hkc
  · intro r q hq hr hf h1 h2
    have hl : q.length < MOUSE_QUEUE_SIZE := by
      rw [hq] at hmc
      simp only [List.length_cons] at hmc
      omega
    unfold main_loop_iteration
    simp only
    rw [hg.1, mouse_stage_dequeue rid env _ r q hr (by rw [hk.1]; exact hq)]
    rw [if_neg (by rw [hk.2.2.1]; exact h1), if_neg (by rw [hk.2.2.1]; exact h2)]
    simp only [hf]
    exact queue_try_add_room _ _ _ hl
  · intro g gq hq hr hf
    unfold main_loop_iteration
    simp only
    exact gamepad_stage_requeue env _ g gq (by rw [hm.1, hk.2.1]; exact hq) hr hf
      (by rw [hm.1, hk.2.1]; exact hgc)

theorem requeue_same_item_witness :
    (⟨BLINK_MOUNTED, [], 0, false, 0, ⟨0, 0, 0, 0⟩,
          [⟨2, [4, 0, 0, 0, 0, 0]⟩, ⟨0, [5, 0, 0, 0, 0, 0]⟩],
          [⟨1, 5, -5, 0⟩, ⟨0, 1, 1, 0⟩], [⟨10, -10, 0, 0, 0, 0, 3, 1⟩]⟩ : State).keyboard_report_queue.length ≤ KEYBOARD_QUEUE_SIZE ∧
    (⟨BLINK_MOUNTED, [], 0, false, 0, ⟨0, 0, 0, 0⟩,
          [⟨2, [4, 0, 0, 0, 0, 0]⟩, ⟨0, [5, 0, 0, 0, 0, 0]⟩],
          [⟨1, 5, -5, 0⟩, ⟨0, 1, 1, 0⟩], [⟨10, -10, 0, 0, 0, 0, 3, 1⟩]⟩ : State).mouse_report_queue.length ≤ MOUSE_QUEUE_SIZE ∧
    (⟨BLINK_MOUNTED, [], 0, false, 0, ⟨0, 0, 0, 0⟩,
          [⟨2, [4, 0, 0, 0, 0, 0]⟩, ⟨0, [5, 0, 0, 0, 0, 0]⟩],
          [⟨1, 5, -5, 0⟩, ⟨0, 1, 1, 0⟩], [⟨10, -10, 0, 0, 0, 0, 3, 1⟩]⟩ : State).gamepad_report_queue.length ≤ GAMEPAD_QUEUE_SIZE ∧
    ((∀ (k : keyboard_report_t) (kq : List keyboard_report_t),
        (⟨BLINK_MOUNTED, [], 0, false, 0, ⟨0, 0, 0, 0⟩,
          [⟨2, [4, 0, 0, 0, 0, 0]⟩, ⟨0, [5, 0, 0, 0, 0, 0]⟩],
          [⟨1, 5, -5, 0⟩, ⟨0, 1, 1, 0⟩], [⟨10, -10, 0, 0, 0, 0, 3, 1⟩]⟩ : State).keyboard_report_queue = k :: kq →
        (LoopEnv.all_failing 100).kbd_ready = true → (LoopEnv.all_failing 100).kbd_sent = false →
        (main_loop_iteration 3 (LoopEnv.all_failing 100)
          (⟨BLINK_MOUNTED, [], 0, false, 0, ⟨0, 0, 0, 0⟩,
          [⟨2, [4, 0, 0, 0, 0, 0]⟩, ⟨0, [5, 0, 0, 0, 0, 0]⟩],
          [⟨1, 5, -5, 0⟩, ⟨0, 1, 1, 0⟩], [⟨10, -10, 0, 0, 0, 0, 3, 1⟩]⟩ : State)).1.keyboard_report_queue = kq ++ [k]) ∧
      (∀ (r : mouse_report_t) (q : List mouse_report_t),
        (⟨BLINK_MOUNTED, [], 0, false, 0, ⟨0, 0, 0, 0⟩,
          [⟨2, [4, 0, 0, 0, 0, 0]⟩, ⟨0, [5, 0, 0, 0, 0, 0]⟩],
          [⟨1, 5, -5, 0⟩, ⟨0, 1, 1, 0⟩], [⟨10, -10, 0, 0, 0, 0, 3, 1⟩]⟩ : State).mouse_report_queue = r :: q →
        (LoopEnv.all_failing 100).mouse_ready = true → (LoopEnv.all_failing 100).mouse_sent = false →
        (⟨BLINK_MOUNTED, [], 0, false, 0, ⟨0, 0, 0, 0⟩,
          [⟨2, [4, 0, 0, 0, 0, 0]⟩, ⟨0, [5, 0, 0, 0, 0, 0]⟩],
          [⟨1, 5, -5, 0⟩, ⟨0, 1, 1, 0⟩], [⟨10, -10, 0, 0, 0, 0, 3, 1⟩]⟩ : State).mouse_to_gamepade ≠ 1 →
        (⟨BLINK_MOUNTED, [], 0, false, 0, ⟨0, 0, 0, 0⟩,
          [⟨2, [4, 0, 0, 0, 0, 0]⟩, ⟨0, [5, 0, 0, 0, 0, 0]⟩],
          [⟨1, 5, -5, 0⟩, ⟨0, 1, 1, 0⟩], [⟨10, -10, 0, 0, 0, 0, 3, 1⟩]⟩ : State).mouse_to_gamepade ≠ 2 →
        (main_loop_iteration 3 (LoopEnv.all_failing 100)
          (⟨BLINK_MOUNTED, [], 0, false, 0, ⟨0, 0, 0, 0⟩,
          [⟨2, [4, 0, 0, 0, 0, 0]⟩, ⟨0, [5, 0, 0, 0, 0, 0]⟩],
          [⟨1, 5, -5, 0⟩, ⟨0, 1, 1, 0⟩], [⟨10, -10, 0, 0, 0, 0, 3, 1⟩]⟩ : State)).1.mouse_report_queue = q ++ [r]) ∧
      (∀ (g : gamepad_report_t) (gq : List gamepad_report_t),
        (⟨BLINK_MOUNTED, [], 0, false, 0, ⟨0, 0, 0, 0⟩,
          [⟨2, [4, 0, 0, 0, 0, 0]⟩, ⟨0, [5, 0, 0, 0, 0, 0]⟩],
          [⟨1, 5, -5, 0⟩, ⟨0, 1, 1, 0⟩], [⟨10, -10, 0, 0, 0, 0, 3, 1⟩]⟩ : State).gamepad_report_queue = g :: gq →
        (LoopEnv.all_failing 100).gamepad_ready = true → (LoopEnv.all_failing 100).gamepad_sent = false →
        (main_loop_iteration 3 (LoopEnv.all_failing 100)
          (⟨BLINK_MOUNTED, [], 0, false, 0, ⟨0, 0, 0, 0⟩,
          [⟨2, [4, 0, 0, 0, 0, 0]⟩, ⟨0, [5, 0, 0, 0, 0, 0]⟩],
          [⟨1, 5, -5, 0⟩, ⟨0, 1, 1, 0⟩], [⟨10, -10, 0, 0, 0, 0, 3, 1⟩]⟩ : State)).1.gamepad_report_queue = gq ++ [g])) ∧
    (main_loop_iteration 3 (LoopEnv.all_failing 100)
        (⟨BLINK_MOUNTED, [], 0, false, 0, ⟨0, 0, 0, 0⟩,
          [⟨2, [4, 0, 0, 0, 0, 0]⟩, ⟨0, [5, 0, 0, 0, 0, 0]⟩],
          [⟨1, 5, -5, 0⟩, ⟨0, 1, 1, 0⟩], [⟨10, -10, 0, 0, 0, 0, 3, 1⟩]⟩ : State)).1
      = ⟨BLINK_MOUNTED, [], 0, false, 0, ⟨0, 0, 0, 0⟩,
          [⟨0, [5, 0, 0, 0, 0, 0]⟩, ⟨2, [4, 0, 0, 0, 0, 0]⟩],
          [⟨0, 1, 1, 0⟩, ⟨1, 5, -5, 0⟩], [⟨10, -10, 0, 0, 0, 0, 3, 1⟩]⟩ :=
  ⟨by decide, by decide, by decide,
    requeue_same_item 3
      (⟨BLINK_MOUNTED, [], 0, false, 0, ⟨0, 0, 0, 0⟩,
          [⟨2, [4, 0, 0, 0, 0, 0]⟩, ⟨0, [5, 0, 0, 0, 0, 0]⟩],
          [⟨1, 5, -5, 0⟩, ⟨0, 1, 1, 0⟩], [⟨10, -10, 0, 0, 0, 0, 3, 1⟩]⟩ : State)
      (LoopEnv.all_failing 100) (by decide) (by decide) (by decide),
    by decide⟩

/-! ## Mouse inject merge (C20) -/

theorem toInt8_range (n : Int) :
    -128 ≤ toInt8 n ∧ toInt8 n ≤ 127 ∧ (n - toInt8 n) % 256 = 0 := by
  unfold toInt8
  omega

/-- C20: a mouse-inject command (command id 2) with payload bytes
`b, x, y, w` that arrives while the mouse queue, within its capacity, is
`r :: q` removes `r` and appends the single report
`{r.buttons OR b, r.x + x, r.y + y, r.wheel + w}`, where `x, y, w` are read
as signed and each sum is reduced modulo `2^8` into `-128 .. 127`, without
saturation: `100 + 100` gives `-56`.  Nothing is transmitted and nothing else
changes. -/
theorem inject_merges_with_queued (report : List Nat) (s : State)
    (r : mouse_report_t) (q : List mouse_report_t)
    (h0 : rd report 0 = 2) (hq : s.mouse_report_queue = r :: q)
    (hcap : s.mouse_report_queue.length ≤ MOUSE_QUEUE_SIZE)
    (hx : rd report 2 < 256) (hy : rd report 3 < 256) (hw : rd report 4 < 256) :
    process_hid_report report s
      = ({ s with
           mouse_report_queue :=
             q ++ [⟨r.buttons ||| rd report 1,
                    toInt8 (r.x + asSigned8 (rd report 2)),
                    toInt8 (r.y + asSigned8 (rd report 3)),
                    toInt8 (r.wheel + asSigned8 (rd report 4))⟩] }, []) ∧
    (∀ n : Int, -128 ≤ toInt8 n ∧ toInt8 n ≤ 127 ∧ (n - toInt8 n) % 256 = 0) ∧
    toInt8 (100 + 100) = -56 := by
  have hl : q.length < MOUSE_QUEUE_SIZE := by
    rw [hq] at hcap
    simp only [List.length_cons] at hcap
    omega
  refine ⟨?_, toInt8_range, by decide⟩
  unfold process_hid_report
  simp only [h0, HID_ITF_PROTOCOL_MOUSE, if_true, hq, queue_try_remove,
    toInt8_eq_asSigned8 _ hx, toInt8_eq_asSigned8 _ hy, toInt8_eq_asSigned8 _ hw]
  rw [queue_try_add_room _ _ _ hl]

theorem inject_merges_with_queued_witness :
    rd (2 :: 2 :: 100 :: 156 :: 1 :: List.replicate 59 0) 0 = 2 ∧
    ({ State.init 4 with mouse_report_queue := [⟨1, 100, -100, 127⟩, ⟨0, 1, 1, 0⟩] }
      : State).mouse_report_queue = ⟨1, 100, -100, 127⟩ :: [⟨0, 1, 1, 0⟩] ∧
    ({ State.init 4 with mouse_report_queue := [⟨1, 100, -100, 127⟩, ⟨0, 1, 1, 0⟩] }
      : State).mouse_report_queue.length ≤ MOUSE_QUEUE_SIZE ∧
    (rd (2 :: 2 :: 100 :: 156 :: 1 :: List.replicate 59 0) 2 < 256 ∧
      rd (2 :: 2 :: 100 :: 156 :: 1 :: List.replicate 59 0) 3 < 256 ∧
      rd (2 :: 2 :: 100 :: 156 :: 1 :: List.replicate 59 0) 4 < 256) ∧
    (process_hid_report (2 :: 2 :: 100 :: 156 :: 1 :: List.replicate 59 0)
        { State.init 4 with mouse_report_queue := [⟨1, 100, -100, 127⟩, ⟨0, 1, 1, 0⟩] }
      = ({ ({ State.init 4 with
              mouse_report_queue := [⟨1, 100, -100, 127⟩, ⟨0, 1, 1, 0⟩] } : State) with
           mouse_report_queue :=
             [⟨0, 1, 1, 0⟩] ++
               [⟨1 ||| rd (2 :: 2 :: 100 :: 156 :: 1 :: List.replicate 59 0) 1,
                 toInt8 (100 + asSigned8 (rd (2 :: 2 :: 100 :: 156 :: 1 :: List.replicate 59 0) 2)),
                 toInt8 (-100 + asSigned8 (rd (2 :: 2 :: 100 :: 156 :: 1 :: List.replicate 59 0) 3)),
                 toInt8 (127 + asSigned8 (rd (2 :: 2 :: 100 :: 156 :: 1 :: List.replicate 59 0) 4))⟩] },
          []) ∧
      (∀ n : Int, -128 ≤ toInt8 n ∧ toInt8 n ≤ 127 ∧ (n - toInt8 n) % 256 = 0) ∧
      toInt8 (100 + 100) = -56) ∧
    (process_hid_report (2 :: 2 :: 100 :: 156 :: 1 :: List.replicate 59 0)
        { State.init 4 with
          mouse_report_queue := [⟨1, 100, -100, 127⟩, ⟨0, 1, 1, 0⟩] }).1.mouse_report_queue
      = [⟨0, 1, 1, 0⟩, ⟨3, -56, 56, -128⟩] :=
  ⟨by decide, by decide, by decide, by decide,
    inject_merges_with_queued (2 :: 2 :: 100 :: 156 :: 1 :: List.replicate 59 0)
      { State.init 4 with mouse_report_queue := [⟨1, 100, -100, 127⟩, ⟨0, 1, 1, 0⟩] }
      ⟨1, 100, -100, 127⟩ [⟨0, 1, 1, 0⟩]
      (by decide) (by decide) (by decide) (by decide) (by decide) (by decide),
    by decide⟩

/-! ## Where the merge and the last-known report live (C21, C22) -/

theorem received_mouse_state (m : Bool) (a i : Nat) (report : List Nat) (s : State)
    (hlen : report.length ≠ 0) (hroom : s.mouse_report_queue.length < MOUSE_QUEUE_SIZE) :
    (tuh_hid_report_received_cb HID_ITF_PROTOCOL_MOUSE m a i report s).1
      = { s with
          mouse_report_queue := s.mouse_report_queue ++
            [parse_mouse (s.hid_devices.getD i ⟨0, 0, 0⟩).protocol report]
          last_rpt := parse_mouse (s.hid_devices.getD i ⟨0, 0, 0⟩).protocol report } := by
  unfold tuh_hid_report_received_cb
  rw [if_neg hlen]
  simp only [HID_ITF_PROTOCOL_KEYBOARD, HID_ITF_PROTOCOL_NONE, HID_ITF_PROTOCOL_MOUSE,
    queue_try_add, hroom, if_true]
  simp

theorem process_inject_empty (report : List Nat) (s : State)
    (h0 : rd report 0 = 2) (hq : s.mouse_report_queue = []) :
    process_hid_report report s
      = ({ s with
           mouse_report_queue :=
             [⟨s.last_rpt.buttons ||| rd report 1, toInt8 (rd report 2),
               toInt8 (rd report 3), toInt8 (rd report 4)⟩] }, []) := by
  unfold process_hid_report
  simp only [h0, HID_ITF_PROTOCOL_MOUSE, if_true, hq, queue_try_remove]
  rw [queue_try_add_room _ _ _ (by decide)]
  rfl

theorem process_inject_queued (report : List Nat) (s : State) (r : mouse_report_t)
    (q : List mouse_report_t) (h0 : rd report 0 = 2) (hq : s.mouse_report_queue = r :: q)
    (hl : q.length < MOUSE_QUEUE_SIZE) :
    process_hid_report report s
      = ({ s with
           mouse_report_queue :=
             q ++ [⟨r.buttons ||| rd report 1, toInt8 (r.x + toInt8 (rd report 2)),
                    toInt8 (r.y + toInt8 (rd report 3)),
                    toInt8 (r.wheel + toInt8 (rd report 4))⟩] }, []) := by
  unfold process_hid_report
  simp only [h0, HID_ITF_PROTOCOL_MOUSE, if_true, hq, queue_try_remove]
  rw [queue_try_add_room _ _ _ hl]

/-- C21, as stated, fails: a physical report `buttons = 1, x = 5` that arrives
while the report `{0, 1, 0, 0}` is queued is appended behind it as parsed, and
the queued one is not consumed; and with nothing queued and last-known
buttons `LEFT`, a physical report with `buttons = 0` is enqueued with
`buttons = 0`. -/
theorem physical_merge_counterexample :
    (tuh_hid_report_received_cb HID_ITF_PROTOCOL_MOUSE false 1 0 [1, 5, 0, 0, 0, 0, 0]
        { State.init 4 with mouse_report_queue := [⟨0, 1, 0, 0⟩] }).1.mouse_report_queue
      = [⟨0, 1, 0, 0⟩, ⟨1, 5, 0, 0⟩] ∧
    ([⟨0, 1, 0, 0⟩, ⟨1, 5, 0, 0⟩] : List mouse_report_t) ≠ [⟨0 ||| 1, 1 + 5, 0, 0⟩] ∧
    (tuh_hid_report_received_cb HID_ITF_PROTOCOL_MOUSE false 1 0 [0, 5, 0, 0, 0, 0, 0]
        { State.init 4 with
          last_rpt := ⟨MOUSE_BUTTON_LEFT, 0, 0, 0⟩ }).1.mouse_report_queue
      = [⟨0, 5, 0, 0⟩] ∧
    (0 ||| MOUSE_BUTTON_LEFT) ≠ 0 := by
  decide

/-- C21, amended: a non-empty physical mouse report received while the mouse
queue is not full is appended to the queue as parsed, behind whatever is
queued, with no merge and without the last-known buttons, and becomes the
last-known report.  The merge is done by `process_hid_report` for a
mouse-inject command (command id 2): with a report `r` queued (and the queue
within its capacity) `r` is consumed and the merge of the command with `r`
(buttons OR, 8-bit sums) is enqueued; with nothing queued the command's
buttons are OR-ed with the last-known buttons. -/
theorem physical_report_not_merged (s : State) (m : Bool) (a i : Nat) (report : List Nat)
    (hlen : report.length ≠ 0) (hroom : s.mouse_report_queue.length < MOUSE_QUEUE_SIZE) :
    (tuh_hid_report_received_cb HID_ITF_PROTOCOL_MOUSE m a i report s).1
      = { s with
          mouse_report_queue := s.mouse_report_queue ++
            [parse_mouse (s.hid_devices.getD i ⟨0, 0, 0⟩).protocol report]
          last_rpt := parse_mouse (s.hid_devices.getD i ⟨0, 0, 0⟩).protocol report } ∧
    (∀ cmd : List Nat, rd cmd 0 = 2 →
      (s.mouse_report_queue = [] →
        process_hid_report cmd s
          = ({ s with
               mouse_report_queue :=
                 [⟨s.last_rpt.buttons ||| rd cmd 1, toInt8 (rd cmd 2),
                   toInt8 (rd cmd 3), toInt8 (rd cmd 4)⟩] }, [])) ∧
      (∀ (r : mouse_report_t) (q : List mouse_report_t), s.mouse_report_queue = r :: q →
        process_hid_report cmd s
          = ({ s with
               mouse_report_queue :=
                 q ++ [⟨r.buttons ||| rd cmd 1, toInt8 (r.x + toInt8 (rd cmd 2)),
                        toInt8 (r.y + toInt8 (rd cmd 3)),
                        toInt8 (r.wheel + toInt8 (rd cmd 4))⟩] }, []))) := by
  refine ⟨received_mouse_state m a i report s hlen hroom, ?_⟩
  intro cmd h0
  refine ⟨process_inject_empty cmd s h0, ?_⟩
  intro r q hq
  refine process_inject_queued cmd s r q h0 hq ?_
  rw [hq] at hroom
  simp only [List.length_cons] at hroom
  omega

theorem physical_report_not_merged_witness :
    [1, 5, 0, 0, 0, 0, 0].length ≠ 0 ∧
    ({ State.init 4 with mouse_report_queue := [⟨0, 1, 0, 0⟩] }
      : State).mouse_report_queue.length < MOUSE_QUEUE_SIZE ∧
    (tuh_hid_report_received_cb HID_ITF_PROTOCOL_MOUSE false 1 0 [1, 5, 0, 0, 0, 0, 0]
        { State.init 4 with mouse_report_queue := [⟨0, 1, 0, 0⟩] }).1
      = { ({ State.init 4 with mouse_report_queue := [⟨0, 1, 0, 0⟩] } : State) with
          mouse_report_queue :=
            ({ State.init 4 with mouse_report_queue := [⟨0, 1, 0, 0⟩] }
              : State).mouse_report_queue ++
            [parse_mouse
              (({ State.init 4 with mouse_report_queue := [⟨0, 1, 0, 0⟩] }
                : State).hid_devices.getD 0 ⟨0, 0, 0⟩).protocol [1, 5, 0, 0, 0, 0, 0]]
          last_rpt :=
            parse_mouse
              (({ State.init 4 with mouse_report_queue := [⟨0, 1, 0, 0⟩] }
                : State).hid_devices.getD 0 ⟨0, 0, 0⟩).protocol [1, 5, 0, 0, 0, 0, 0] } ∧
    process_hid_report (2 :: 0 :: 3 :: List.replicate 61 0)
        { State.init 4 with mouse_report_queue := [⟨0, 1, 0, 0⟩] }
      = ({ State.init 4 with mouse_report_queue := [⟨0, 4, 0, 0⟩] }, []) :=
  ⟨by decide, by decide,
    (physical_report_not_merged { State.init 4 with mouse_report_queue := [⟨0, 1, 0, 0⟩] }
      false 1 0 [1, 5, 0, 0, 0, 0, 0] (by decide) (by decide)).1,
    by decide⟩

/-- C22, as stated, fails: the callback writes the last-known report when it
enqueues a physical report, before anything is forwarded; and after two
physical reports with buttons `1` and `2` have been received and the first
has been forwarded, the last-known buttons are `2` although the report most
recently forwarded has buttons `1`. -/
theorem last_rpt_counterexample :
    (State.init 4).last_rpt.buttons = 0 ∧
    (tuh_hid_report_received_cb HID_ITF_PROTOCOL_MOUSE false 1 0 [1, 0, 0, 0, 0, 0, 0]
        (State.init 4)).1.last_rpt.buttons = 1 ∧
    (run 3
        [Event.report_received HID_ITF_PROTOCOL_MOUSE false 1 0 [1, 0, 0, 0, 0, 0, 0],
         Event.report_received HID_ITF_PROTOCOL_MOUSE false 1 0 [2, 0, 0, 0, 0, 0, 0],
         Event.forward (LoopEnv.all_ready 5)]
        (State.init 4)).2.filter Call.is_mouse
      = [Call.mouse_report 1 0 0 0 0] ∧
    (run 3
        [Event.report_received HID_ITF_PROTOCOL_MOUSE false 1 0 [1, 0, 0, 0, 0, 0, 0],
         Event.report_received HID_ITF_PROTOCOL_MOUSE false 1 0 [2, 0, 0, 0, 0, 0, 0],
         Event.forward (LoopEnv.all_ready 5)]
        (State.init 4)).1.last_rpt.buttons = 2 := by
  decide

/-- C22, amended: the last-known mouse report `last_rpt` is written only by
`tuh_hid_report_received_cb`, when a non-empty report on a Mouse interface
has been added to the mouse queue: it then holds that report as parsed.
`process_hid_report`, the forwarding loop and the registry callbacks never
change it, so it is the physical mouse report most recently enqueued, whether
or not that report has been forwarded. -/
theorem last_rpt_written_on_enqueue (rid : Nat) (s : State) :
    (∀ (proto : Nat) (m : Bool) (a i : Nat) (report : List Nat),
      (tuh_hid_report_received_cb proto m a i report s).1.last_rpt
        = if proto = HID_ITF_PROTOCOL_MOUSE ∧ report.length ≠ 0 ∧
              s.mouse_report_queue.length < MOUSE_QUEUE_SIZE
          then parse_mouse (s.hid_devices.getD i ⟨0, 0, 0⟩).protocol report
          else s.last_rpt) ∧
    (∀ report : List Nat, (process_hid_report report s).1.last_rpt = s.last_rpt) ∧
    (∀ env : LoopEnv, (main_loop_iteration rid env s).1.last_rpt = s.last_rpt) ∧
    (∀ (proto : Nat) (ok : Bool) (a i : Nat),
      (tuh_hid_mount_cb proto ok a i s).1.last_rpt = s.last_rpt) ∧
    (∀ a i p : Nat, (tuh_hid_set_protocol_complete_cb a i p s).last_rpt = s.last_rpt) ∧
    (∀ a i : Nat, (tuh_hid_umount_cb a i s).last_rpt = s.last_rpt) := by
  refine ⟨?_, ?_, ?_, ?_, ?_, ?_⟩
  · intro proto m a i report
    by_cases hp : proto = HID_ITF_PROTOCOL_MOUSE
    · subst hp
      by_cases hlen : report.length = 0
      · have hr : ¬ (HID_ITF_PROTOCOL_MOUSE = HID_ITF_PROTOCOL_MOUSE ∧ report.length ≠ 0 ∧
            s.mouse_report_queue.length < MOUSE_QUEUE_SIZE) := by simp [hlen]
        rw [if_neg hr]
        unfold tuh_hid_report_received_cb
        rw [if_pos hlen]
        cases m <;> rfl
      · by_cases hroom : s.mouse_report_queue.length < MOUSE_QUEUE_SIZE
        · rw [received_mouse_state m a i report s hlen hroom, if_pos ⟨rfl, hlen, hroom⟩]
        · have hr : ¬ (HID_ITF_PROTOCOL_MOUSE = HID_ITF_PROTOCOL_MOUSE ∧ report.length ≠ 0 ∧
              s.mouse_report_queue.length < MOUSE_QUEUE_SIZE) := by simp [hroom]
          rw [if_neg hr]
          unfold tuh_hid_report_received_cb
          rw [if_neg hlen]
          simp [HID_ITF_PROTOCOL_KEYBOARD, HID_ITF_PROTOCOL_NONE, HID_ITF_PROTOCOL_MOUSE,
            queue_try_add, hroom]
    · have hr : ¬ (proto = HID_ITF_PROTOCOL_MOUSE ∧ report.length ≠ 0 ∧
          s.mouse_report_queue.length < MOUSE_QUEUE_SIZE) := by simp [hp]
      rw [if_neg hr]
      exact (received_keeps_left proto m a i report s hp).1
  · intro report
    unfold process_hid_report
    simp only
    by_cases h2 : rd report 0 = HID_ITF_PROTOCOL_MOUSE
    · rw [if_pos h2]
      cases hq : s.mouse_report_queue <;> simp [queue_try_remove]
    · rw [if_neg h2]
      split_ifs <;> rfl
  · intro env
    unfold main_loop_iteration
    simp only
    rw [(gamepad_stage_keeps env _).2.2.2.1, (mouse_stage_frame rid env _).2.2.2,
      (keyboard_stage_keeps env s).2.2.2.1]
  · intro proto ok a i
    unfold tuh_hid_mount_cb
    simp only
    split_ifs <;> rfl
  · intro a i p
    rfl
  · intro a i
    rfl

/-! ## The device registry (C23, C24) -/

theorem mount_devices (proto : Nat) (ok : Bool) (a i : Nat) (s : State) :
    (tuh_hid_mount_cb proto ok a i s).1.hid_devices
      = s.hid_devices.set i ⟨a, i, HID_PROTOCOL_REPORT⟩ := by
  unfold tuh_hid_mount_cb
  simp only
  split_ifs with h
  · by_cases hi : i < s.hid_devices.length
    · simp [List.getD_eq_getElem?_getD, hi]
    · rw [List.set_eq_of_length_le (by simp; omega)]
  · rfl

/-- C23: a mount notification `(addr, instance)` with `instance` below the
number of slots stores `{addr, instance, Report}` in slot `instance` and
leaves every other slot unchanged, for every declared protocol and whether or
not the set-protocol request is accepted; the calls made are a
set-protocol(Boot) request followed by a receive-report request when the
declared protocol is Mouse, a receive-report request alone when it is
Keyboard, and none otherwise, so a set-protocol request is issued if and only
if the declared protocol is Mouse. -/
theorem mount_records_slot (proto : Nat) (ok : Bool) (a i : Nat) (s : State)
    (hi : i < s.hid_devices.length) :
    (tuh_hid_mount_cb proto ok a i s).1.hid_devices[i]?
      = some ⟨a, i, HID_PROTOCOL_REPORT⟩ ∧
    (∀ j : Nat, j ≠ i →
      (tuh_hid_mount_cb proto ok a i s).1.hid_devices[j]? = s.hid_devices[j]?) ∧
    (tuh_hid_mount_cb proto ok a i s).1.hid_devices.length = s.hid_devices.length ∧
    (tuh_hid_mount_cb proto ok a i s).2
      = (if proto = HID_ITF_PROTOCOL_MOUSE then
          [Call.set_protocol a i HID_PROTOCOL_BOOT, Call.receive_report a i]
        else if proto = HID_ITF_PROTOCOL_KEYBOARD then [Call.receive_report a i]
        else []) ∧
    (Call.set_protocol a i HID_PROTOCOL_BOOT ∈ (tuh_hid_mount_cb proto ok a i s).2
      ↔ proto = HID_ITF_PROTOCOL_MOUSE) := by
  have hc : (tuh_hid_mount_cb proto ok a i s).2
      = (if proto = HID_ITF_PROTOCOL_MOUSE then
          [Call.set_protocol a i HID_PROTOCOL_BOOT, Call.receive_report a i]
        else if proto = HID_ITF_PROTOCOL_KEYBOARD then [Call.receive_report a i]
        else []) := by
    unfold tuh_hid_mount_cb
    simp only [HID_ITF_PROTOCOL_MOUSE, HID_ITF_PROTOCOL_KEYBOARD, HID_ITF_PROTOCOL_NONE]
    by_cases h2 : proto = 2
    · subst h2; simp
    · by_cases h1 : proto = 1
      · subst h1; simp
      · by_cases h0 : proto = 0
        · subst h0; simp
        · simp [h0, h1, h2]
  rw [hc, mount_devices]
  refine ⟨?_, ?_, ?_, rfl, ?_⟩
  · simp [hi]
  · intro j hj
    rw [List.getElem?_set_ne (Ne.symm hj)]
  · simp
  · by_cases h2 : proto = HID_ITF_PROTOCOL_MOUSE
    · simp [h2]
    · by_cases h1 : proto = HID_ITF_PROTOCOL_KEYBOARD
      · rw [if_neg h2, if_pos h1]
        simp [h2]
      · rw [if_neg h2, if_neg h1]
        simp [h2]

theorem mount_records_slot_witness :
    1 < (State.init 4).hid_devices.length ∧
    ((tuh_hid_mount_cb HID_ITF_PROTOCOL_MOUSE false 7 1 (State.init 4)).1.hid_devices[1]?
      = some ⟨7, 1, HID_PROTOCOL_REPORT⟩ ∧
    (∀ j : Nat, j ≠ 1 →
      (tuh_hid_mount_cb HID_ITF_PROTOCOL_MOUSE false 7 1 (State.init 4)).1.hid_devices[j]?
        = (State.init 4).hid_devices[j]?) ∧
    (tuh_hid_mount_cb HID_ITF_PROTOCOL_MOUSE false 7 1 (State.init 4)).1.hid_devices.length
      = (State.init 4).hid_devices.length ∧
    (tuh_hid_mount_cb HID_ITF_PROTOCOL_MOUSE false 7 1 (State.init 4)).2
      = (if HID_ITF_PROTOCOL_MOUSE = HID_ITF_PROTOCOL_MOUSE then
          [Call.set_protocol 7 1 HID_PROTOCOL_BOOT, Call.receive_report 7 1]
        else if HID_ITF_PROTOCOL_MOUSE = HID_ITF_PROTOCOL_KEYBOARD then
          [Call.receive_report 7 1]
        else []) ∧
    (Call.set_protocol 7 1 HID_PROTOCOL_BOOT ∈
        (tuh_hid_mount_cb HID_ITF_PROTOCOL_MOUSE false 7 1 (State.init 4)).2
      ↔ HID_ITF_PROTOCOL_MOUSE = HID_ITF_PROTOCOL_MOUSE)) ∧
    (tuh_hid_mount_cb HID_ITF_PROTOCOL_MOUSE false 7 1 (State.init 4)).1.hid_devices
      = [⟨0, 0, 0⟩, ⟨7, 1, HID_PROTOCOL_REPORT⟩, ⟨0, 0, 0⟩, ⟨0, 0, 0⟩] :=
  ⟨by decide,
    mount_records_slot HID_ITF_PROTOCOL_MOUSE false 7 1 (State.init 4) (by decide),
    by decide⟩

/-- C24: a negotiation-complete notification `(addr, instance, p)` with
`instance` below the number of slots sets the sub-protocol of slot `instance`
to `p`, keeps its address and index, and leaves every other slot and every
other global unchanged; an unmount notification changes nothing at all. -/
theorem set_protocol_complete_slot (a i p : Nat) (s : State)
    (hi : i < s.hid_devices.length) :
    (∃ d : hid_device_t, s.hid_devices[i]? = some d ∧
      (tuh_hid_set_protocol_complete_cb a i p s).hid_devices[i]?
        = some ⟨d.dev_addr, d.idx, p⟩) ∧
    (∀ j : Nat, j ≠ i →
      (tuh_hid_set_protocol_complete_cb a i p s).hid_devices[j]? = s.hid_devices[j]?) ∧
    tuh_hid_set_protocol_complete_cb a i p s
      = { s with hid_devices := (tuh_hid_set_protocol_complete_cb a i p s).hid_devices } ∧
    (∀ a2 i2 : Nat, tuh_hid_umount_cb a2 i2 s = s) ∧
    (∀ (any_mounted : Bool) (a2 : Nat),
      (tuh_umount_cb any_mounted a2 s).hid_devices = s.hid_devices) := by
  refine ⟨⟨s.hid_devices[i], by simp [hi], ?_⟩, ?_, rfl, fun _ _ => rfl, ?_⟩
  · unfold tuh_hid_set_protocol_complete_cb
    simp [List.getD_eq_getElem?_getD, hi]
  · intro j hj
    unfold tuh_hid_set_protocol_complete_cb
    simp only
    rw [List.getElem?_set_ne (Ne.symm hj)]
  · intro m a2
    unfold tuh_umount_cb
    cases m <;> rfl

theorem set_protocol_complete_slot_witness :
    1 < ([⟨0, 0, 0⟩, ⟨7, 1, HID_PROTOCOL_REPORT⟩, ⟨0, 0, 0⟩] : List hid_device_t).length ∧
    (tuh_hid_set_protocol_complete_cb 7 1 HID_PROTOCOL_BOOT
        ⟨BLINK_MOUNTED, [⟨0, 0, 0⟩, ⟨7, 1, HID_PROTOCOL_REPORT⟩, ⟨0, 0, 0⟩], 0, false, 0,
          ⟨0, 0, 0, 0⟩, [], [], []⟩)
      = ⟨BLINK_MOUNTED, [⟨0, 0, 0⟩, ⟨7, 1, HID_PROTOCOL_BOOT⟩, ⟨0, 0, 0⟩], 0, false, 0,
          ⟨0, 0, 0, 0⟩, [], [], []⟩ ∧
    (∀ j : Nat, j ≠ 1 →
      (tuh_hid_set_protocol_complete_cb 7 1 HID_PROTOCOL_BOOT
        ⟨BLINK_MOUNTED, [⟨0, 0, 0⟩, ⟨7, 1, HID_PROTOCOL_REPORT⟩, ⟨0, 0, 0⟩], 0, false, 0,
          ⟨0, 0, 0, 0⟩, [], [], []⟩).hid_devices[j]?
        = (⟨BLINK_MOUNTED, [⟨0, 0, 0⟩, ⟨7, 1, HID_PROTOCOL_REPORT⟩, ⟨0, 0, 0⟩], 0, false, 0,
          ⟨0, 0, 0, 0⟩, [], [], []⟩ : State).hid_devices[j]?) :=
  ⟨by decide, by decide,
    (set_protocol_complete_slot 7 1 HID_PROTOCOL_BOOT
      ⟨BLINK_MOUNTED, [⟨0, 0, 0⟩, ⟨7, 1, HID_PROTOCOL_REPORT⟩, ⟨0, 0, 0⟩], 0, false, 0,
        ⟨0, 0, 0, 0⟩, [], [], []⟩ (by decide)).2.1⟩

/-! ## The wire contract with the client (C25, C26) -/

theorem toInt8_toUInt8 (v : Int) (h1 : -128 ≤ v) (h2 : v ≤ 127) :
    toInt8 ((toUInt8 v : Nat) : Int) = v := by
  unfold toInt8 toUInt8
  omega

theorem buttons_bytes_roundtrip (b : Nat) (h : b < 2 ^ 32) :
    ((b >>> 0) % 256 ||| (((b >>> 8) % 256) <<< 8) ||| (((b >>> 16) % 256) <<< 16) |||
      (((b >>> 24) % 256) <<< 24)) % 2 ^ 32 = b := by
  rw [buttons_le32 _ _ _ _ (Nat.mod_lt _ (by decide)) (Nat.mod_lt _ (by decide))
    (Nat.mod_lt _ (by decide)) (Nat.mod_lt _ (by decide))]
  simp only [Nat.shiftRight_eq_div_pow]
  omega

theorem client_keyboard_buffer (m k0 k1 k2 k3 k4 k5 : Nat) :
    _send_report true (keyboard_report_bytes m [k0, k1, k2, k3, k4, k5]) 0x01
      = some ([0x00, 0x01, m, 0x00, k0, k1, k2, k3, k4, k5] ++ List.replicate 54 0) := by
  unfold _send_report keyboard_report_bytes
  simp

/-- C25, what the code does instead: for every modifier byte `m` and
keycodes `k0 .. k5`, the client hands `hid_write` the 64-byte buffer
`{0x00, 0x01, m, 0x00, k0, .., k5, 0, ..}`, with the reserved byte of the
boot layout between the modifier and the keycodes; `process_hid_report`,
given the bytes after the report id, transmits modifier `m` with the
keycodes `0x00, k0, k1, k2, k3, k4`: shifted by one place, `k5` lost.  For
the pressed keys `0xE1, 4, 5, 6, 7, 8, 9` the transmit has modifier `2` and
keycodes `0, 4, 5, 6, 7, 8`, not `4, 5, 6, 7, 8, 9`. -/
theorem keyboard_wire_shifted (m k0 k1 k2 k3 k4 k5 : Nat) (s : State) :
    _send_report true (keyboard_report_bytes m [k0, k1, k2, k3, k4, k5]) 0x01
      = some ([0x00, 0x01, m, 0x00, k0, k1, k2, k3, k4, k5] ++ List.replicate 54 0) ∧
    ([0x00, 0x01, m, 0x00, k0, k1, k2, k3, k4, k5] ++ List.replicate 54 0).length = 64 ∧
    (_send_report true (keyboard_report_bytes m [k0, k1, k2, k3, k4, k5]) 0x01).map
        (fun buffer => process_hid_report (after_report_id buffer) s)
      = some (s, [Call.keyboard_report m [0x00, k0, k1, k2, k3, k4]]) ∧
    keyboard_scan [0xE1, 4, 5, 6, 7, 8, 9] = (2, [4, 5, 6, 7, 8, 9], 6) ∧
    (_update_keyboard_report true [0xE1, 4, 5, 6, 7, 8, 9]).map
        (fun buffer => (process_hid_report (after_report_id buffer) (State.init 4)).2)
      = some [Call.keyboard_report 2 [0, 4, 5, 6, 7, 8]] ∧
    Call.keyboard_report 2 [0, 4, 5, 6, 7, 8] ≠ Call.keyboard_report 2 [4, 5, 6, 7, 8, 9] := by
  refine ⟨client_keyboard_buffer m k0 k1 k2 k3 k4 k5, by simp, ?_, by decide, by decide,
    by decide⟩
  rw [client_keyboard_buffer]
  simp [after_report_id, process_hid_report, rd, HID_ITF_PROTOCOL_MOUSE,
    HID_ITF_PROTOCOL_KEYBOARD, List.range, List.range.loop]

/-- C26: for every client gamepad state (six axes in `-128 .. 127`, a hat
byte, buttons below `2^32`), the 64-byte buffer built by
`_send_gamepad_report` and `_send_report` (command id 0), taken after the
report-id byte, makes `process_hid_report` transmit at once a gamepad report
with the same `x, y, z, rz, rx, ry`, hat and buttons, leaving every global,
the gamepad queue included, unchanged. -/
theorem gamepad_wire_roundtrip (x y z rz rx ry : Int) (hat buttons : Nat) (s : State)
    (hx : -128 ≤ x ∧ x ≤ 127) (hy : -128 ≤ y ∧ y ≤ 127) (hz : -128 ≤ z ∧ z ≤ 127)
    (hrz : -128 ≤ rz ∧ rz ≤ 127) (hrx : -128 ≤ rx ∧ rx ≤ 127) (hry : -128 ≤ ry ∧ ry ≤ 127)
    (hb : buttons < 2 ^ 32) :
    (_send_gamepad_report true x y z rz rx ry hat buttons).map List.length = some 64 ∧
    (_send_gamepad_report true x y z rz rx ry hat buttons).map
        (fun buffer => process_hid_report (after_report_id buffer) s)
      = some (s, [Call.gamepad_report x y z rz rx ry hat buttons]) := by
  have hbuf : _send_gamepad_report true x y z rz rx ry hat buttons
      = some ([0x00, 0x00, toUInt8 x, toUInt8 y, toUInt8 z, toUInt8 rz, toUInt8 rx,
          toUInt8 ry, hat, (buttons >>> 0) % 256, (buttons >>> 8) % 256,
          (buttons >>> 16) % 256, (buttons >>> 24) % 256] ++ List.replicate 51 0) := by
    unfold _send_gamepad_report _send_report gamepad_report_bytes
    simp
  rw [hbuf]
  refine ⟨by simp, ?_⟩
  have hbt := buttons_bytes_roundtrip buttons hb
  simp only [Option.map_some', after_report_id, process_hid_report, rd, List.drop_succ_cons,
    List.drop_zero, List.cons_append, List.getD_cons_zero, List.getD_cons_succ,
    HID_ITF_PROTOCOL_MOUSE, HID_ITF_PROTOCOL_KEYBOARD, HID_ITF_PROTOCOL_NONE,
    toInt8_toUInt8 _ hx.1 hx.2, toInt8_toUInt8 _ hy.1 hy.2, toInt8_toUInt8 _ hz.1 hz.2,
    toInt8_toUInt8 _ hrz.1 hrz.2, toInt8_toUInt8 _ hrx.1 hrx.2, toInt8_toUInt8 _ hry.1 hry.2]
  simp
  simpa using hbt

theorem gamepad_wire_roundtrip_witness :
    ((-128 : Int) ≤ 10 ∧ (10 : Int) ≤ 127) ∧ ((-128 : Int) ≤ -10 ∧ (-10 : Int) ≤ 127) ∧
    ((-128 : Int) ≤ 127 ∧ (127 : Int) ≤ 127) ∧ ((-128 : Int) ≤ -127 ∧ (-127 : Int) ≤ 127) ∧
    ((-128 : Int) ≤ 0 ∧ (0 : Int) ≤ 127) ∧ ((-128 : Int) ≤ -128 ∧ (-128 : Int) ≤ 127) ∧
    (0x80000001 : Nat) < 2 ^ 32 ∧
    ((_send_gamepad_report true 10 (-10) 127 (-127) 0 (-128) 3 0x80000001).map List.length
        = some 64 ∧
      (_send_gamepad_report true 10 (-10) 127 (-127) 0 (-128) 3 0x80000001).map
          (fun buffer => process_hid_report (after_report_id buffer) (State.init 4))
        = some (State.init 4,
            [Call.gamepad_report 10 (-10) 127 (-127) 0 (-128) 3 0x80000001])) :=
  ⟨by decide, by decide, by decide, by decide, by decide, by decide, by decide,
    gamepad_wire_roundtrip 10 (-10) 127 (-127) 0 (-128) 3 0x80000001 (State.init 4)
      (by decide) (by decide) (by decide) (by decide) (by decide) (by decide) (by decide)⟩

/-! ## The idle test and Passthrough forwarding (C27, C30) -/

/-- C27, as stated, fails: in AutoGamepad mode with the gamepad endpoint
ready, no recenter pending and no mouse report queued, an iteration exactly
10 ms after the recorded time of the last mouse motion transmits nothing,
although at least 10 ms have passed. -/
theorem idle_threshold_counterexample :
    u32_sub (LoopEnv.all_ready 10).now
        ({ State.init 4 with mouse_to_gamepade := 1 } : State).last_mouse_move_time
      ≥ IDLE_TIMEOUT_MS ∧
    ({ State.init 4 with mouse_to_gamepade := 1 } : State).should_center = false ∧
    ({ State.init 4 with mouse_to_gamepade := 1 } : State).mouse_report_queue = [] ∧
    (LoopEnv.all_ready 10).center_ready = true ∧
    (main_loop_iteration 3 (LoopEnv.all_ready 10)
        { State.init 4 with mouse_to_gamepade := 1 }).2 = [] := by
  decide

/-- C27, amended: in a forwarding iteration in which no mouse report is
dequeued and no recenter is pending, the idle logic transmits an all-zero
gamepad report if and only if more than 10 ms (`now - last > 10` in 32-bit
arithmetic) have passed since the recorded time of the last mouse motion and
the mode is AutoGamepad and the gamepad endpoint is ready; when it fires it
transmits exactly one such report, and otherwise it transmits nothing. -/
theorem idle_center_fires_iff (rid : Nat) (env : LoopEnv) (s : State)
    (hidle : env.mouse_ready = false ∨ s.mouse_report_queue = [])
    (hsc : s.should_center = false) :
    (mouse_stage rid env (keyboard_stage env s).1).2
      = (if u32_sub env.now s.last_mouse_move_time > IDLE_TIMEOUT_MS ∧
            s.mouse_to_gamepade = 1 ∧ env.center_ready = true
          then [Call.gamepad_report 0 0 0 0 0 0 0 0] else []) ∧
    (Call.gamepad_report 0 0 0 0 0 0 0 0 ∈ (mouse_stage rid env (keyboard_stage env s).1).2
      ↔ (u32_sub env.now s.last_mouse_move_time > IDLE_TIMEOUT_MS ∧
          s.mouse_to_gamepade = 1 ∧ env.center_ready = true)) := by
  have hk := keyboard_stage_keeps env s
  have hm : (mouse_stage rid env (keyboard_stage env s).1).2
      = (if u32_sub env.now s.last_mouse_move_time > IDLE_TIMEOUT_MS ∧
            s.mouse_to_gamepade = 1 ∧ env.center_ready = true
          then [Call.gamepad_report 0 0 0 0 0 0 0 0] else []) := by
    rw [mouse_stage_idle rid env _ (by rw [hk.1]; exact hidle)]
    rw [hk.2.2.1, hk.2.2.2.2.1, hk.2.2.2.2.2, hsc]
    by_cases hex : u32_sub env.now s.last_mouse_move_time > IDLE_TIMEOUT_MS
    · by_cases hmode : s.mouse_to_gamepade = 1
      · by_cases hready : env.center_ready = true
        · simp [hex, hmode, hready]
        · simp [hex, hmode, hready]
      · simp [hex, hmode]
    · simp [hex]
  refine ⟨hm, ?_⟩
  rw [hm]
  split_ifs with h
  · simp [h]
  · simp [h]

theorem idle_center_fires_iff_witness :
    ((LoopEnv.all_ready 11).mouse_ready = false ∨
      ({ State.init 4 with mouse_to_gamepade := 1 } : State).mouse_report_queue = []) ∧
    ({ State.init 4 with mouse_to_gamepade := 1 } : State).should_center = false ∧
    ((mouse_stage 3 (LoopEnv.all_ready 11)
        (keyboard_stage (LoopEnv.all_ready 11)
          { State.init 4 with mouse_to_gamepade := 1 }).1).2
      = (if u32_sub (LoopEnv.all_ready 11).now
              ({ State.init 4 with mouse_to_gamepade := 1 } : State).last_mouse_move_time
              > IDLE_TIMEOUT_MS ∧
            ({ State.init 4 with mouse_to_gamepade := 1 } : State).mouse_to_gamepade = 1 ∧
            (LoopEnv.all_ready 11).center_ready = true
          then [Call.gamepad_report 0 0 0 0 0 0 0 0] else []) ∧
    (Call.gamepad_report 0 0 0 0 0 0 0 0 ∈
        (mouse_stage 3 (LoopEnv.all_ready 11)
          (keyboard_stage (LoopEnv.all_ready 11)
            { State.init 4 with mouse_to_gamepade := 1 }).1).2
      ↔ (u32_sub (LoopEnv.all_ready 11).now
            ({ State.init 4 with mouse_to_gamepade := 1 } : State).last_mouse_move_time
            > IDLE_TIMEOUT_MS ∧
          ({ State.init 4 with mouse_to_gamepade := 1 } : State).mouse_to_gamepade = 1 ∧
          (LoopEnv.all_ready 11).center_ready = true))) ∧
    (main_loop_iteration 3 (LoopEnv.all_ready 11)
        { State.init 4 with mouse_to_gamepade := 1 }).2
      = [Call.gamepad_report 0 0 0 0 0 0 0 0] :=
  ⟨by decide, by decide,
    idle_center_fires_iff 3 (LoopEnv.all_ready 11)
      { State.init 4 with mouse_to_gamepade := 1 } (by decide) (by decide),
    by decide⟩

/-- C30: in Passthrough mode (mode `0`), an iteration that dequeues a mouse
report `r` transmits, after the custom mirror report, one ordinary mouse
report with `r.buttons`, `r.x`, `r.y`, `r.wheel` and pan `0`; it is the only
ordinary mouse report of the iteration, and the mouse stage transmits no
gamepad report. -/
theorem passthrough_mouse_forwarded (rid : Nat) (s : State) (env : LoopEnv)
    (r : mouse_report_t) (q : List mouse_report_t)
    (hmode : s.mouse_to_gamepade = 0)
    (hq : s.mouse_report_queue = r :: q) (hr : env.mouse_ready = true) :
    (mouse_stage rid env (keyboard_stage env s).1).2
      = [Call.custom_report (custom_report rid r),
         Call.mouse_report r.buttons r.x r.y r.wheel 0] ∧
    (main_loop_iteration rid env s).2.filter Call.is_mouse
      = [Call.mouse_report r.buttons r.x r.y r.wheel 0] ∧
    (mouse_stage rid env (keyboard_stage env s).1).2.filter Call.is_gamepad = [] := by
  have hk := keyboard_stage_keeps env s
  have hm : (mouse_stage rid env (keyboard_stage env s).1).2
      = [Call.custom_report (custom_report rid r),
         Call.mouse_report r.buttons r.x r.y r.wheel 0] := by
    rw [mouse_stage_dequeue rid env _ r q hr (by rw [hk.1]; exact hq)]
    rw [if_neg (by rw [hk.2.2.1, hmode]; decide), if_neg (by rw [hk.2.2.1, hmode]; decide)]
  refine ⟨hm, ?_, ?_⟩
  · unfold main_loop_iteration
    simp only [List.filter_append, (keyboard_stage_no_mouse env s).1,
      (gamepad_stage_no_mouse env _).1, hm]
    simp [Call.is_mouse]
  · rw [hm]
    simp [Call.is_gamepad]

theorem passthrough_mouse_forwarded_witness :
    ({ State.init 4 with mouse_report_queue := [⟨1, 50, -50, 7⟩] }
      : State).mouse_to_gamepade = 0 ∧
    ({ State.init 4 with mouse_report_queue := [⟨1, 50, -50, 7⟩] }
      : State).mouse_report_queue = ⟨1, 50, -50, 7⟩ :: [] ∧
    (LoopEnv.all_ready 100).mouse_ready = true ∧
    (main_loop_iteration 3 (LoopEnv.all_ready 100)
        { State.init 4 with mouse_report_queue := [⟨1, 50, -50, 7⟩] }).2.filter Call.is_mouse
      = [Call.mouse_report 1 50 (-50) 7 0] :=
  ⟨by decide, by decide, by decide,
    (passthrough_mouse_forwarded 3 { State.init 4 with mouse_report_queue := [⟨1, 50, -50, 7⟩] }
      (LoopEnv.all_ready 100) ⟨1, 50, -50, 7⟩ [] (by decide) (by decide) (by decide)).2.1⟩

/-! ## One item per channel and iteration (C28) -/

theorem queue_try_add_length {α : Type} (cap : Nat) (q : List α) (x : α) :
    q.length ≤ (queue_try_add cap q x).2.length := by
  unfold queue_try_add
  split_ifs <;> simp

theorem keyboard_stage_bounds (env : LoopEnv) (s : State) :
    (env.kbd_ready = false → keyboard_stage env s = (s, [])) ∧
    s.keyboard_report_queue.length ≤ (keyboard_stage env s).1.keyboard_report_queue.length + 1 ∧
    (keyboard_stage env s).2.length ≤ 1 := by
  unfold keyboard_stage
  cases hr : env.kbd_ready
  · simp
  · cases hq : s.keyboard_report_queue with
    | nil => simp [queue_try_remove, hq]
    | cons k kq =>
      simp only [queue_try_remove, if_true]
      refine ⟨by simp, ?_, by simp⟩
      cases env.kbd_sent
      · have := queue_try_add_length KEYBOARD_QUEUE_SIZE kq k
        simp only [List.length_cons, Bool.not_false, if_true]
        omega
      · simp

theorem gamepad_stage_bounds (env : LoopEnv) (s : State) :
    (env.gamepad_ready = false → gamepad_stage env s = (s, [])) ∧
    s.gamepad_report_queue.length ≤ (gamepad_stage env s).1.gamepad_report_queue.length + 1 ∧
    (gamepad_stage env s).2.length ≤ 1 := by
  unfold gamepad_stage
  cases hr : env.gamepad_ready
  · simp
  · cases hq : s.gamepad_report_queue with
    | nil => simp [queue_try_remove, hq]
    | cons g gq =>
      simp only [queue_try_remove, if_true]
      refine ⟨by simp, ?_, by simp⟩
      cases env.gamepad_sent
      · have := queue_try_add_length GAMEPAD_QUEUE_SIZE gq g
        simp only [List.length_cons, Bool.not_false, if_true]
        omega
      · simp

theorem mouse_stage_bounds (rid : Nat) (env : LoopEnv) (s : State) :
    (env.mouse_ready = false →
      (mouse_stage rid env s).1.mouse_report_queue = s.mouse_report_queue ∧
      (mouse_stage rid env s).2.filter Call.is_mouse = [] ∧
      (mouse_stage rid env s).2.filter Call.is_custom = []) ∧
    s.mouse_report_queue.length ≤ (mouse_stage rid env s).1.mouse_report_queue.length + 1 ∧
    ((mouse_stage rid env s).2.filter Call.is_mouse).length ≤ 1 ∧
    (mouse_stage rid env s).2.filter Call.is_keyboard = [] := by
  by_cases h : env.mouse_ready = false ∨ s.mouse_report_queue = []
  · rw [mouse_stage_idle rid env s h]
    split_ifs <;> simp [Call.is_mouse, Call.is_custom, Call.is_keyboard]
  · have hr : env.mouse_ready = true := by
      cases hm : env.mouse_ready
      · exact absurd (Or.inl hm) h
      · rfl
    obtain ⟨r, q, hq⟩ : ∃ r q, s.mouse_report_queue = r :: q := by
      cases hq : s.mouse_report_queue with
      | nil => exact absurd (Or.inr hq) h
      | cons r q => exact ⟨r, q, rfl⟩
    have h1 := queue_try_add_length MOUSE_QUEUE_SIZE q r
    have h2 := queue_try_add_length MOUSE_QUEUE_SIZE q { r with x := 0, y := 0 }
    rw [mouse_stage_dequeue rid env s r q hr hq, hq]
    refine ⟨fun hf => by rw [hr] at hf; exact absurd hf (by decide), ?_, ?_, ?_⟩
    · split_ifs <;> simp only [List.length_cons] <;> omega
    · split_ifs <;> simp [Call.is_mouse]
    · split_ifs <;> simp [Call.is_keyboard]

theorem gamepad_stage_no_keyboard (env : LoopEnv) (s : State) :
    (gamepad_stage env s).2.filter Call.is_keyboard = [] := by
  rw [List.filter_eq_nil_iff]
  intro c hc
  have := gamepad_stage_calls env s c hc
  cases c <;> simp_all [Call.is_keyboard, Call.is_gamepad]

/-- C28: in every forwarding iteration, for each channel: when its endpoint
is not ready, its queue is unchanged and nothing of it is transmitted (no
keyboard report; no ordinary mouse report and no custom mirror report; no
forwarded gamepad report); in every case at most one item leaves its queue
and at most one transmit of that channel is attempted (one keyboard report,
one ordinary mouse report, one gamepad report forwarded from the gamepad
queue). -/
theorem one_item_per_channel (rid : Nat) (env : LoopEnv) (s : State) :
    (env.kbd_ready = false →
      (main_loop_iteration rid env s).1.keyboard_report_queue = s.keyboard_report_queue ∧
      (main_loop_iteration rid env s).2.filter Call.is_keyboard = []) ∧
    (s.keyboard_report_queue.length
        ≤ (main_loop_iteration rid env s).1.keyboard_report_queue.length + 1 ∧
      ((main_loop_iteration rid env s).2.filter Call.is_keyboard).length ≤ 1) ∧
    (env.mouse_ready = false →
      (main_loop_iteration rid env s).1.mouse_report_queue = s.mouse_report_queue ∧
      (main_loop_iteration rid env s).2.filter Call.is_mouse = [] ∧
      (main_loop_iteration rid env s).2.filter Call.is_custom = []) ∧
    (s.mouse_report_queue.length
        ≤ (main_loop_iteration rid env s).1.mouse_report_queue.length + 1 ∧
      ((main_loop_iteration rid env s).2.filter Call.is_mouse).length ≤ 1) ∧
    (env.gamepad_ready = false →
      (main_loop_iteration rid env s).1.gamepad_report_queue = s.gamepad_report_queue ∧
      (gamepad_stage env (mouse_stage rid env (keyboard_stage env s).1).1).2 = []) ∧
    (s.gamepad_report_queue.length
        ≤ (main_loop_iteration rid env s).1.gamepad_report_queue.length + 1 ∧
      (gamepad_stage env (mouse_stage rid env (keyboard_stage env s).1).1).2.length ≤ 1) := by
  have hk := keyboard_stage_keeps env s
  have hkb := keyboard_stage_bounds env s
  have hm := mouse_stage_frame rid env (keyboard_stage env s).1
  have hmb := mouse_stage_bounds rid env (keyboard_stage env s).1
  have hg := gamepad_stage_keeps env (mouse_stage rid env (keyboard_stage env s).1).1
  have hgb := gamepad_stage_bounds env (mouse_stage rid env (keyboard_stage env s).1).1
  have hkq : (main_loop_iteration rid env s).1.keyboard_report_queue
      = (keyboard_stage env s).1.keyboard_report_queue := by
    unfold main_loop_iteration
    simp only
    rw [hg.2.1, hm.2.1]
  have hmq : (main_loop_iteration rid env s).1.mouse_report_queue
      = (mouse_stage rid env (keyboard_stage env s).1).1.mouse_report_queue := by
    unfold main_loop_iteration
    simp only
    rw [hg.1]
  have hkc : (main_loop_iteration rid env s).2.filter Call.is_keyboard
      = (keyboard_stage env s).2.filter Call.is_keyboard := by
    unfold main_loop_iteration
    simp only [List.filter_append, hmb.2.2.2, gamepad_stage_no_keyboard, List.append_nil]
  have hmc : (main_loop_iteration rid env s).2.filter Call.is_mouse
      = (mouse_stage rid env (keyboard_stage env s).1).2.filter Call.is_mouse := by
    unfold main_loop_iteration
    simp only [List.filter_append, (keyboard_stage_no_mouse env s).1,
      (gamepad_stage_no_mouse env _).1, List.append_nil, List.nil_append]
  have hcc : (main_loop_iteration rid env s).2.filter Call.is_custom
      = (mouse_stage rid env (keyboard_stage env s).1).2.filter Call.is_custom := by
    unfold main_loop_iteration
    simp only [List.filter_append, (keyboard_stage_no_mouse env s).2,
      (gamepad_stage_no_mouse env _).2, List.append_nil, List.nil_append]
  refine ⟨?_, ⟨?_, ?_⟩, ?_, ⟨?_, ?_⟩, ?_, ⟨?_, ?_⟩⟩
  · intro hr
    rw [hkq, hkc, hkb.1 hr]
    exact ⟨rfl, rfl⟩
  · rw [hkq]; exact hkb.2.1
  · rw [hkc]
    exact le_trans (List.length_filter_le _ _) hkb.2.2
  · intro hr
    rw [hmq, hmc, hcc]
    have := hmb.1 hr
    exact ⟨by rw [this.1, hk.1], this.2.1, this.2.2⟩
  · rw [hmq]
    have := hmb.2.1
    rw [hk.1] at this
    exact this
  · rw [hmc]; exact hmb.2.2.1
  · intro hr
    have := hgb.1 hr
    unfold main_loop_iteration
    simp only
    rw [this]
    exact ⟨by rw [hm.1, hk.2.1], rfl⟩
  · have := hgb.2.1
    rw [hm.1, hk.2.1] at this
    unfold main_loop_iteration
    simp only
    exact this
  · exact hgb.2.2

/-! ## Keyboard FIFO passthrough (C29) -/

theorem main_loop_keyboard_sent (rid : Nat) (env : LoopEnv) (s : State)
    (k : keyboard_report_t) (ks : List keyboard_report_t)
    (hq : s.keyboard_report_queue = k :: ks)
    (hr : env.kbd_ready = true) (hs : env.kbd_sent = true) :
    (main_loop_iteration rid env s).1.keyboard_report_queue = ks ∧
    (main_loop_iteration rid env s).2.filter Call.is_keyboard
      = [Call.keyboard_report k.modifier k.keycode] := by
  have hks : keyboard_stage env s
      = ({ s with keyboard_report_queue := ks },
          [Call.keyboard_report k.modifier k.keycode]) := by
    unfold keyboard_stage
    simp only [hr, hq, queue_try_remove, if_true, hs]
    rfl
  have hm := mouse_stage_frame rid env (keyboard_stage env s).1
  have hmb := mouse_stage_bounds rid env (keyboard_stage env s).1
  have hg := gamepad_stage_keeps env (mouse_stage rid env (keyboard_stage env s).1).1
  constructor
  · unfold main_loop_iteration
    simp only
    rw [hg.2.1, hm.2.1, hks]
  · unfold main_loop_iteration
    simp only [List.filter_append, hmb.2.2.2, gamepad_stage_no_keyboard, List.append_nil]
    rw [hks]
    simp [Call.is_keyboard]

theorem run_keyboard_fifo (rid : Nat) (envs : List LoopEnv) (s : State)
    (ks : List keyboard_report_t) (hq : s.keyboard_report_queue = ks)
    (hlen : envs.length = ks.length)
    (henv : ∀ e ∈ envs, e.kbd_ready = true ∧ e.kbd_sent = true) :
    (run rid (envs.map Event.forward) s).2.filter Call.is_keyboard
      = ks.map (fun k => Call.keyboard_report k.modifier k.keycode) ∧
    (run rid (envs.map Event.forward) s).1.keyboard_report_queue = [] := by
  induction envs generalizing s ks with
  | nil =>
    have : ks = [] := by
      cases ks with
      | nil => rfl
      | cons k ks => simp at hlen
    subst this
    simp [run, hq]
  | cons e envs ih =>
    cases ks with
    | nil => simp at hlen
    | cons k ks =>
      have he := henv e (List.mem_cons_self _ _)
      have h1 := main_loop_keyboard_sent rid e s k ks hq he.1 he.2
      have h2 := ih (main_loop_iteration rid e s).1 ks h1.1
        (by simpa using hlen) (fun e' he' => henv e' (List.mem_cons_of_mem _ he'))
      simp only [List.map_cons, run, step, List.filter_append, h1.2, h2.1, h2.2]
      simp

/-- C29: for every sequence of at most 8 keyboard reports of at least 8
bytes, received into an empty keyboard queue, as many subsequent forwarding
iterations with the keyboard endpoint ready and the keyboard transmit
succeeding transmit exactly the keyboard reports
`(byte 0, bytes 2 .. 7)` of the received reports, in arrival order, and leave
the keyboard queue empty. -/
theorem keyboard_fifo_passthrough (rid : Nat) (s : State) (m : Bool) (a i : Nat)
    (rs : List (List Nat)) (envs : List LoopEnv)
    (hq : s.keyboard_report_queue = []) (hn : rs.length ≤ 8)
    (hrs : ∀ r ∈ rs, 8 ≤ r.length) (hlen : envs.length = rs.length)
    (henv : ∀ e ∈ envs, e.kbd_ready = true ∧ e.kbd_sent = true) :
    (run rid (envs.map Event.forward)
        (deliver HID_ITF_PROTOCOL_KEYBOARD m a i rs s)).2.filter Call.is_keyboard
      = rs.map (fun r =>
          Call.keyboard_report (rd r 0) [rd r 2, rd r 3, rd r 4, rd r 5, rd r 6, rd r 7]) ∧
    (run rid (envs.map Event.forward)
        (deliver HID_ITF_PROTOCOL_KEYBOARD m a i rs s)).1.keyboard_report_queue = [] := by
  have hd : (deliver HID_ITF_PROTOCOL_KEYBOARD m a i rs s).keyboard_report_queue
      = rs.map parse_keyboard := by
    rw [deliver_keyboard m a i rs s hrs, foldl_queue_try_add, hq]
    simp only [List.nil_append, List.length_nil, Nat.sub_zero, KEYBOARD_QUEUE_SIZE]
    exact List.take_of_length_le (by simpa using hn)
  have h := run_keyboard_fifo rid envs (deliver HID_ITF_PROTOCOL_KEYBOARD m a i rs s)
    (rs.map parse_keyboard) hd (by simpa using hlen) henv
  refine ⟨?_, h.2⟩
  rw [h.1, List.map_map]
  apply List.map_congr_left
  intro r _
  simp [parse_keyboard, List.range, List.range.loop]

theorem keyboard_fifo_passthrough_witness :
    (State.init 4).keyboard_report_queue = [] ∧
    [[2, 0, 4, 0, 0, 0, 0, 0], [0, 0, 5, 6, 0, 0, 0, 0, 9], [0, 0, 0, 0, 0, 0, 0, 0]].length
      ≤ 8 ∧
    (∀ r ∈ [[2, 0, 4, 0, 0, 0, 0, 0], [0, 0, 5, 6, 0, 0, 0, 0, 9], [0, 0, 0, 0, 0, 0, 0, 0]],
      8 ≤ r.length) ∧
    [LoopEnv.all_ready 1, LoopEnv.all_ready 2, LoopEnv.all_ready 3].length
      = [[2, 0, 4, 0, 0, 0, 0, 0], [0, 0, 5, 6, 0, 0, 0, 0, 9],
          [0, 0, 0, 0, 0, 0, 0, 0]].length ∧
    (∀ e ∈ [LoopEnv.all_ready 1, LoopEnv.all_ready 2, LoopEnv.all_ready 3],
      e.kbd_ready = true ∧ e.kbd_sent = true) ∧
    ((run 3
        ([LoopEnv.all_ready 1, LoopEnv.all_ready 2, LoopEnv.all_ready 3].map Event.forward)
        (deliver HID_ITF_PROTOCOL_KEYBOARD false 1 0
          [[2, 0, 4, 0, 0, 0, 0, 0], [0, 0, 5, 6, 0, 0, 0, 0, 9], [0, 0, 0, 0, 0, 0, 0, 0]]
          (State.init 4))).2.filter Call.is_keyboard
      = [[2, 0, 4, 0, 0, 0, 0, 0], [0, 0, 5, 6, 0, 0, 0, 0, 9],
          [0, 0, 0, 0, 0, 0, 0, 0]].map (fun r =>
          Call.keyboard_report (rd r 0) [rd r 2, rd r 3, rd r 4, rd r 5, rd r 6, rd r 7]) ∧
    (run 3
        ([LoopEnv.all_ready 1, LoopEnv.all_ready 2, LoopEnv.all_ready 3].map Event.forward)
        (deliver HID_ITF_PROTOCOL_KEYBOARD false 1 0
          [[2, 0, 4, 0, 0, 0, 0, 0], [0, 0, 5, 6, 0, 0, 0, 0, 9], [0, 0, 0, 0, 0, 0, 0, 0]]
          (State.init 4))).1.keyboard_report_queue = []) ∧
    [[2, 0, 4, 0, 0, 0, 0, 0], [0, 0, 5, 6, 0, 0, 0, 0, 9],
        [0, 0, 0, 0, 0, 0, 0, 0]].map (fun r =>
        Call.keyboard_report (rd r 0) [rd r 2, rd r 3, rd r 4, rd r 5, rd r 6, rd r 7])
      = [Call.keyboard_report 2 [4, 0, 0, 0, 0, 0], Call.keyboard_report 0 [5, 6, 0, 0, 0, 0],
         Call.keyboard_report 0 [0, 0, 0, 0, 0, 0]] :=
  ⟨by decide, by decide, by decide, by decide, by decide,
    keyboard_fifo_passthrough 3 (State.init 4) false 1 0
      [[2, 0, 4, 0, 0, 0, 0, 0], [0, 0, 5, 6, 0, 0, 0, 0, 9], [0, 0, 0, 0, 0, 0, 0, 0]]
      [LoopEnv.all_ready 1, LoopEnv.all_ready 2, LoopEnv.all_ready 3]
      (by decide) (by decide) (by decide) (by decide) (by decide),
    by decide⟩

theorem received_mode (proto : Nat) (m : Bool) (a i : Nat) (report : List Nat) (s : State) :
    (tuh_hid_report_received_cb proto m a i report s).1.mouse_to_gamepade
      = s.mouse_to_gamepade := by
  unfold tuh_hid_report_received_cb
  simp only
  split_ifs <;> rfl

theorem mount_mode (proto : Nat) (ok : Bool) (a i : Nat) (s : State) :
    (tuh_hid_mount_cb proto ok a i s).1.mouse_to_gamepade = s.mouse_to_gamepade := by
  unfold tuh_hid_mount_cb
  simp only
  split_ifs <;> rfl

theorem process_other_mode (report : List Nat) (s : State) (h : rd report 0 ≠ 3) :
    (process_hid_report report s).1.mouse_to_gamepade = s.mouse_to_gamepade := by
  unfold process_hid_report
  simp only
  cases hq : queue_try_remove s.mouse_report_queue with
  | none => split_ifs <;> rfl
  | some p => split_ifs <;> rfl

theorem main_loop_mode (rid : Nat) (env : LoopEnv) (s : State) :
    (main_loop_iteration rid env s).1.mouse_to_gamepade = s.mouse_to_gamepade := by
  unfold main_loop_iteration
  simp only
  rw [(gamepad_stage_keeps env _).2.2.1, (mouse_stage_frame rid env _).2.2.1,
    (keyboard_stage_keeps env s).2.2.1]

/-- C31: the mode flag `mouse_to_gamepade` is `0` (Passthrough) at start-up,
and it is left as it was by a pass of the forwarding loop, by the
report-received, mount, unmount and negotiation-complete callbacks, and by
every custom-channel command whose id is not `3`. -/
theorem mode_changed_only_by_set_mode (n rid : Nat) (s : State) :
    (State.init n).mouse_to_gamepade = 0 ∧
    (∀ env : LoopEnv,
      (main_loop_iteration rid env s).1.mouse_to_gamepade = s.mouse_to_gamepade) ∧
    (∀ (proto : Nat) (m : Bool) (a i : Nat) (report : List Nat),
      (tuh_hid_report_received_cb proto m a i report s).1.mouse_to_gamepade
        = s.mouse_to_gamepade) ∧
    (∀ (proto : Nat) (ok : Bool) (a i : Nat),
      (tuh_hid_mount_cb proto ok a i s).1.mouse_to_gamepade = s.mouse_to_gamepade) ∧
    (∀ a i : Nat, (tuh_hid_umount_cb a i s).mouse_to_gamepade = s.mouse_to_gamepade) ∧
    (∀ (m : Bool) (a : Nat), (tuh_umount_cb m a s).mouse_to_gamepade = s.mouse_to_gamepade) ∧
    (∀ a i p : Nat,
      (tuh_hid_set_protocol_complete_cb a i p s).mouse_to_gamepade = s.mouse_to_gamepade) ∧
    (∀ report : List Nat, rd report 0 ≠ 3 →
      (process_hid_report report s).1.mouse_to_gamepade = s.mouse_to_gamepade) := by
  refine ⟨rfl, fun env => main_loop_mode rid env s, ?_, ?_, fun _ _ => rfl, ?_,
    fun _ _ _ => rfl, ?_⟩
  · intro proto m a i report
    exact received_mode proto m a i report s
  · intro proto ok a i
    exact mount_mode proto ok a i s
  · intro m a
    unfold tuh_umount_cb
    split_ifs <;> rfl
  · intro report h
    exact process_other_mode report s h

/-- C32: a mouse-inject command (command id `2`) with payload bytes
`b, x, y, w` that arrives while the mouse queue is empty leaves exactly one
report in the queue, with buttons `b ||| last_rpt.buttons` and with `x`, `y`,
`wheel` the payload bytes 1..3 read as signed 8-bit values; `last_rpt` is left
as it was and nothing is transmitted. -/
theorem inject_into_empty_queue (report : List Nat) (s : State)
    (h0 : rd report 0 = 2) (hq : s.mouse_report_queue = [])
    (hx : rd report 2 < 256) (hy : rd report 3 < 256) (hw : rd report 4 < 256) :
    (process_hid_report report s).1.mouse_report_queue
      = [⟨rd report 1 ||| s.last_rpt.buttons, asSigned8 (rd report 2),
          asSigned8 (rd report 3), asSigned8 (rd report 4)⟩] ∧
    (process_hid_report report s).1.last_rpt = s.last_rpt ∧
    (process_hid_report report s).2 = [] := by
  rw [process_inject_empty report s h0 hq]
  refine ⟨?_, rfl, rfl⟩
  simp only [toInt8_eq_asSigned8 _ hx, toInt8_eq_asSigned8 _ hy, toInt8_eq_asSigned8 _ hw,
    Nat.lor_comm]

theorem inject_into_empty_queue_witness :
    rd [2, 1, 5, 251, 0] 0 = 2 ∧
    ({ State.init 4 with last_rpt := ⟨2, 0, 0, 0⟩ } : State).mouse_report_queue = [] ∧
    (process_hid_report [2, 1, 5, 251, 0]
        { State.init 4 with last_rpt := ⟨2, 0, 0, 0⟩ }).1.mouse_report_queue
      = [⟨rd [2, 1, 5, 251, 0] 1 ||| 2, asSigned8 (rd [2, 1, 5, 251, 0] 2),
          asSigned8 (rd [2, 1, 5, 251, 0] 3), asSigned8 (rd [2, 1, 5, 251, 0] 4)⟩] :=
  ⟨by decide, rfl,
    (inject_into_empty_queue [2, 1, 5, 251, 0] { State.init 4 with last_rpt := ⟨2, 0, 0, 0⟩ }
      (by decide) rfl (by decide) (by decide) (by decide)).1⟩

/-- C33, counterexample: a physical 11-byte report under protocol None whose
byte 6 is `200` puts a gamepad report with hat `200` in the queue, the next
pass of the loop transmits it with hat `200`, and an injected gamepad command
(command id `0`) whose payload byte 6 is `9` is transmitted with hat `9`. -/
theorem gamepad_hat_counterexample :
    ((tuh_hid_report_received_cb HID_ITF_PROTOCOL_NONE false 1 0
        [0, 0, 0, 0, 0, 0, 200, 0, 0, 0, 0] (State.init 4)).1.gamepad_report_queue.map
        (fun g => g.hat) = [200]) ∧
    (main_loop_iteration 4 (LoopEnv.all_ready 0)
        (tuh_hid_report_received_cb HID_ITF_PROTOCOL_NONE false 1 0
          [0, 0, 0, 0, 0, 0, 200, 0, 0, 0, 0] (State.init 4)).1).2
      = [Call.gamepad_report 0 0 0 0 0 0 200 0] ∧
    (process_hid_report [0, 0, 0, 0, 0, 0, 0, 9, 0, 0, 0, 0] (State.init 4)).2
      = [Call.gamepad_report 0 0 0 0 0 0 9 0] ∧
    ¬ (200 ≤ 8) ∧ ¬ (9 ≤ 8) := by
  decide

/-- C33, amended: the hat of a gamepad report is the input byte, copied as it
is.  A physical report of at least 11 bytes under protocol None, arriving
while the gamepad queue has room, appends one report whose hat is byte 6 of
the input; an injected gamepad command (command id `0`) transmits one report
whose hat is payload byte 6; so the hat is at most 8 exactly when that byte
is. -/
theorem gamepad_hat_copied (m : Bool) (a i : Nat) (report cmd : List Nat) (s : State)
    (hlen : 11 ≤ report.length)
    (hroom : s.gamepad_report_queue.length < GAMEPAD_QUEUE_SIZE)
    (h0 : rd cmd 0 = 0) :
    (∃ g : gamepad_report_t,
      (tuh_hid_report_received_cb HID_ITF_PROTOCOL_NONE m a i report s).1.gamepad_report_queue
        = s.gamepad_report_queue ++ [g] ∧
      g.hat = rd report 6 ∧ (g.hat ≤ 8 ↔ rd report 6 ≤ 8)) ∧
    (∃ (x y z rz rx ry : Int) (b : Nat),
      (process_hid_report cmd s).2 = [Call.gamepad_report x y z rz rx ry (rd cmd 7) b]) := by
  constructor
  · refine ⟨parse_gamepad report, ?_, rfl, Iff.rfl⟩
    unfold tuh_hid_report_received_cb
    rw [if_neg (show ¬ report.length = 0 by omega)]
    simp only [if_true]
    rw [if_pos (show report.length ≥ 11 by omega), queue_try_add_room _ _ _ hroom]
  · unfold process_hid_report
    simp only [h0, HID_ITF_PROTOCOL_MOUSE, HID_ITF_PROTOCOL_KEYBOARD, HID_ITF_PROTOCOL_NONE]
    simp

theorem gamepad_hat_copied_witness :
    11 ≤ [0, 0, 0, 0, 0, 0, 200, 0, 0, 0, 0].length ∧
    (State.init 4).gamepad_report_queue.length < GAMEPAD_QUEUE_SIZE ∧
    rd [0, 0, 0, 0, 0, 0, 0, 9] 0 = 0 ∧
    ((∃ g : gamepad_report_t,
      (tuh_hid_report_received_cb HID_ITF_PROTOCOL_NONE false 1 0
          [0, 0, 0, 0, 0, 0, 200, 0, 0, 0, 0] (State.init 4)).1.gamepad_report_queue
        = (State.init 4).gamepad_report_queue ++ [g] ∧
      g.hat = rd [0, 0, 0, 0, 0, 0, 200, 0, 0, 0, 0] 6 ∧
      (g.hat ≤ 8 ↔ rd [0, 0, 0, 0, 0, 0, 200, 0, 0, 0, 0] 6 ≤ 8)) ∧
    (∃ (x y z rz rx ry : Int) (b : Nat),
      (process_hid_report [0, 0, 0, 0, 0, 0, 0, 9] (State.init 4)).2
        = [Call.gamepad_report x y z rz rx ry (rd [0, 0, 0, 0, 0, 0, 0, 9] 7) b])) :=
  ⟨by decide, by decide, by decide,
    gamepad_hat_copied false 1 0 [0, 0, 0, 0, 0, 0, 200, 0, 0, 0, 0] [0, 0, 0, 0, 0, 0, 0, 9]
      (State.init 4) (by decide) (by decide) (by decide)⟩

theorem mount_calls (proto : Nat) (ok : Bool) (a i : Nat) (s : State) :
    (tuh_hid_mount_cb proto ok a i s).2
      = (if proto = HID_ITF_PROTOCOL_MOUSE then [Call.set_protocol a i HID_PROTOCOL_BOOT]
          else []) ++
        (if proto = HID_ITF_PROTOCOL_KEYBOARD ∨ proto = HID_ITF_PROTOCOL_MOUSE then
          [Call.receive_report a i] else []) := by
  unfold tuh_hid_mount_cb
  simp only [HID_ITF_PROTOCOL_NONE, HID_ITF_PROTOCOL_KEYBOARD, HID_ITF_PROTOCOL_MOUSE]
  split_ifs <;> first | rfl | omega

/-- C35: on a mount notification for interface `(a, i)` the callback
`tuh_hid_mount_cb` requests a report exactly when the declared protocol is
Keyboard or Mouse: a receive-report request is among its calls if and only if
`proto` is one of the two, and a request it issues is for `(a, i)`. -/
theorem mount_rearms_iff (proto : Nat) (ok : Bool) (a i : Nat) (s : State) :
    ((∃ a1 i1 : Nat, Call.receive_report a1 i1 ∈ (tuh_hid_mount_cb proto ok a i s).2) ↔
      (proto = HID_ITF_PROTOCOL_KEYBOARD ∨ proto = HID_ITF_PROTOCOL_MOUSE)) ∧
    (Call.receive_report a i ∈ (tuh_hid_mount_cb proto ok a i s).2 ↔
      (proto = HID_ITF_PROTOCOL_KEYBOARD ∨ proto = HID_ITF_PROTOCOL_MOUSE)) ∧
    (∀ a1 i1 : Nat, Call.receive_report a1 i1 ∈ (tuh_hid_mount_cb proto ok a i s).2 →
      a1 = a ∧ i1 = i) := by
  rw [mount_calls]
  by_cases hm : proto = HID_ITF_PROTOCOL_MOUSE
  · simp [hm]
  · by_cases hk : proto = HID_ITF_PROTOCOL_KEYBOARD
    · simp [hk, HID_ITF_PROTOCOL_KEYBOARD, HID_ITF_PROTOCOL_MOUSE]
    · simp [hk, hm]

theorem queue_try_add_ok {α : Type} (cap : Nat) (q : List α) (x : α)
    (h : q.length < cap) : (queue_try_add cap q x).1 = true := by
  unfold queue_try_add
  rw [if_pos h]

theorem keyboard_stage_failed_length (env : LoopEnv) (s : State)
    (hf : env.kbd_sent = false)
    (hc : s.keyboard_report_queue.length ≤ KEYBOARD_QUEUE_SIZE) :
    (keyboard_stage env s).1.keyboard_report_queue.length
      = s.keyboard_report_queue.length := by
  cases hr : env.kbd_ready
  · rw [(keyboard_stage_bounds env s).1 hr]
  · cases hq : s.keyboard_report_queue with
    | nil =>
      unfold keyboard_stage
      simp [hq, queue_try_remove]
    | cons k kq =>
      rw [keyboard_stage_requeue env s k kq hq hr hf hc]
      simp

theorem gamepad_stage_failed_length (env : LoopEnv) (s : State)
    (hf : env.gamepad_sent = false)
    (hc : s.gamepad_report_queue.length ≤ GAMEPAD_QUEUE_SIZE) :
    (gamepad_stage env s).1.gamepad_report_queue.length
      = s.gamepad_report_queue.length := by
  cases hr : env.gamepad_ready
  · rw [(gamepad_stage_bounds env s).1 hr]
  · cases hq : s.gamepad_report_queue with
    | nil => rw [gamepad_stage_empty env s hq, hq]
    | cons g gq =>
      rw [gamepad_stage_requeue env s g gq hq hr hf hc]
      simp

theorem mouse_stage_failed_length (rid : Nat) (env : LoopEnv) (s : State)
    (hf : env.mouse_sent = false) (hmode : s.mouse_to_gamepade ≠ 2)
    (hc : s.mouse_report_queue.length ≤ MOUSE_QUEUE_SIZE) :
    (mouse_stage rid env s).1.mouse_report_queue.length
      = s.mouse_report_queue.length := by
  by_cases h : env.mouse_ready = false ∨ s.mouse_report_queue = []
  · rw [mouse_stage_idle rid env s h]
    split_ifs <;> rfl
  · have hr : env.mouse_ready = true := by
      cases hm : env.mouse_ready
      · exact absurd (Or.inl hm) h
      · rfl
    cases hq : s.mouse_report_queue with
    | nil => exact absurd (Or.inr hq) h
    | cons r q =>
      have hl : q.length < MOUSE_QUEUE_SIZE := by
        rw [hq] at hc
        simp only [List.length_cons] at hc
        omega
      rw [mouse_stage_dequeue rid env s r q hr hq, hf]
      simp only [Bool.false_eq_true, if_false, queue_try_add_room _ _ _ hl, if_neg hmode]
      split_ifs <;> simp

/-- C34: with the three queues within their capacities and no capture-side
enqueue in between, an enqueue that follows a successful dequeue finds room:
`queue_try_add` on what the dequeue left answers `true`, for the re-enqueue of
each channel and for the enqueue of mouse inject (also into the empty queue).
So a pass of the forwarding loop whose keyboard, mouse or gamepad transmit
fails leaves the length of that queue as it was (for the mouse queue outside
mode `2`, where no transmit is attempted), and a mouse-inject command leaves
the mouse-queue length as it was when the queue was non-empty and makes it `1`
when the queue was empty. -/
theorem requeue_never_dropped (rid : Nat) (env : LoopEnv) (s : State)
    (hk : s.keyboard_report_queue.length ≤ KEYBOARD_QUEUE_SIZE)
    (hm : s.mouse_report_queue.length ≤ MOUSE_QUEUE_SIZE)
    (hg : s.gamepad_report_queue.length ≤ GAMEPAD_QUEUE_SIZE) :
    (∀ k kq, s.keyboard_report_queue = k :: kq →
      (queue_try_add KEYBOARD_QUEUE_SIZE kq k).1 = true) ∧
    (∀ r q x, s.mouse_report_queue = r :: q →
      (queue_try_add MOUSE_QUEUE_SIZE q x).1 = true) ∧
    (∀ g gq, s.gamepad_report_queue = g :: gq →
      (queue_try_add GAMEPAD_QUEUE_SIZE gq g).1 = true) ∧
    (∀ x : mouse_report_t, (queue_try_add MOUSE_QUEUE_SIZE [] x).1 = true) ∧
    (env.kbd_sent = false →
      (main_loop_iteration rid env s).1.keyboard_report_queue.length
        = s.keyboard_report_queue.length) ∧
    (env.mouse_sent = false → s.mouse_to_gamepade ≠ 2 →
      (main_loop_iteration rid env s).1.mouse_report_queue.length
        = s.mouse_report_queue.length) ∧
    (env.gamepad_sent = false →
      (main_loop_iteration rid env s).1.gamepad_report_queue.length
        = s.gamepad_report_queue.length) ∧
    (∀ cmd : List Nat, rd cmd 0 = 2 →
      (process_hid_report cmd s).1.mouse_report_queue.length
        = if s.mouse_report_queue = [] then 1 else s.mouse_report_queue.length) := by
  refine ⟨?_, ?_, ?_, ?_, ?_, ?_, ?_, ?_⟩
  · intro k kq hq
    apply queue_try_add_ok
    rw [hq] at hk
    simp only [List.length_cons] at hk
    omega
  · intro r q x hq
    apply queue_try_add_ok
    rw [hq] at hm
    simp only [List.length_cons] at hm
    omega
  · intro g gq hq
    apply queue_try_add_ok
    rw [hq] at hg
    simp only [List.length_cons] at hg
    omega
  · intro x
    exact queue_try_add_ok _ _ _ (by decide)
  · intro hf
    unfold main_loop_iteration
    simp only
    rw [(gamepad_stage_keeps env _).2.1, (mouse_stage_frame rid env _).2.1]
    exact keyboard_stage_failed_length env s hf hk
  · intro hf hmode
    unfold main_loop_iteration
    simp only
    rw [(gamepad_stage_keeps env _).1]
    rw [mouse_stage_failed_length rid env _ hf
      (by rw [(keyboard_stage_keeps env s).2.2.1]; exact hmode)
      (by rw [(keyboard_stage_keeps env s).1]; exact hm)]
    rw [(keyboard_stage_keeps env s).1]
  · intro hf
    unfold main_loop_iteration
    simp only
    rw [gamepad_stage_failed_length env _ hf
      (by rw [(mouse_stage_frame rid env _).1, (keyboard_stage_keeps env s).2.1]; exact hg)]
    rw [(mouse_stage_frame rid env _).1, (keyboard_stage_keeps env s).2.1]
  · intro cmd h0
    cases hq : s.mouse_report_queue with
    | nil =>
      rw [process_inject_empty cmd s h0 hq]
      simp
    | cons r q =>
      have hl : q.length < MOUSE_QUEUE_SIZE := by
        rw [hq] at hm
        simp only [List.length_cons] at hm
        omega
      rw [process_inject_queued cmd s r q h0 hq hl]
      simp

theorem requeue_never_dropped_witness :
    ({ State.init 4 with mouse_report_queue := [⟨1, 2, 3, 0⟩] } : State).keyboard_report_queue.length
      ≤ KEYBOARD_QUEUE_SIZE ∧
    ({ State.init 4 with mouse_report_queue := [⟨1, 2, 3, 0⟩] } : State).mouse_report_queue.length
      ≤ MOUSE_QUEUE_SIZE ∧
    ({ State.init 4 with mouse_report_queue := [⟨1, 2, 3, 0⟩] } : State).gamepad_report_queue.length
      ≤ GAMEPAD_QUEUE_SIZE ∧
    ((LoopEnv.all_failing 0).mouse_sent = false →
      ({ State.init 4 with mouse_report_queue := [⟨1, 2, 3, 0⟩] } : State).mouse_to_gamepade ≠ 2 →
      (main_loop_iteration 4 (LoopEnv.all_failing 0)
          { State.init 4 with mouse_report_queue := [⟨1, 2, 3, 0⟩] }).1.mouse_report_queue.length
        = ({ State.init 4 with
              mouse_report_queue := [⟨1, 2, 3, 0⟩] } : State).mouse_report_queue.length) :=
  ⟨by decide, by decide, by decide,
    (requeue_never_dropped 4 (LoopEnv.all_failing 0)
      { State.init 4 with mouse_report_queue := [⟨1, 2, 3, 0⟩] }
      (by decide) (by decide) (by decide)).2.2.2.2.2.1⟩

theorem send_mouse_move (b : Nat) (sx sy : Int) :
    _send_report true (mouse_move_bytes b sx sy) 0x02 = some (mouse_move_buffer b (sx, sy)) := by
  simp [_send_report, mouse_move_bytes, mouse_move_buffer]

theorem Mouse_Move_loop_total (b : Nat) :
    ∀ (fuel : Nat) (x y : Int), x.natAbs + y.natAbs < fuel →
      ∃ steps : List (Int × Int),
        Mouse_Move_loop true b fuel x y = some (steps.map (mouse_move_buffer b), true) ∧
        (∀ st ∈ steps, -127 ≤ st.1 ∧ st.1 ≤ 127 ∧ -127 ≤ st.2 ∧ st.2 ≤ 127) ∧
        (steps.map Prod.fst).sum = x ∧ (steps.map Prod.snd).sum = y := by
  intro fuel
  induction fuel with
  | zero =>
    intro x y h
    omega
  | succ n ih =>
    intro x y h
    unfold Mouse_Move_loop
    by_cases hbig : x.natAbs > 127 ∨ y.natAbs > 127
    · rw [if_pos hbig]
      simp only [send_mouse_move]
      generalize hsx : (if x.natAbs ≤ 127 then x
        else if x > 0 then (127 : Int) else if x < 0 then -127 else 0) = sx
      generalize hsy : (if y.natAbs ≤ 127 then y
        else if y > 0 then (127 : Int) else if y < 0 then -127 else 0) = sy
      have hx : -127 ≤ sx ∧ sx ≤ 127 ∧ (x - sx).natAbs + sx.natAbs = x.natAbs ∧
          (x.natAbs > 127 → sx.natAbs = 127) := by
        rw [← hsx]
        split_ifs <;> omega
      have hy : -127 ≤ sy ∧ sy ≤ 127 ∧ (y - sy).natAbs + sy.natAbs = y.natAbs ∧
          (y.natAbs > 127 → sy.natAbs = 127) := by
        rw [← hsy]
        split_ifs <;> omega
      obtain ⟨steps, h1, h2, h3, h4⟩ := ih (x - sx) (y - sy) (by omega)
      refine ⟨(sx, sy) :: steps, ?_, ?_, ?_, ?_⟩
      · rw [h1]
        rfl
      · intro st hst
        rcases List.mem_cons.mp hst with h5 | h5
        · subst h5
          exact ⟨hx.1, hx.2.1, hy.1, hy.2.1⟩
        · exact h2 st h5
      · simp [h3]
      · simp [h4]
    · rw [if_neg hbig]
      by_cases hnz : x ≠ 0 ∨ y ≠ 0
      · rw [if_pos hnz]
        simp only [send_mouse_move]
        refine ⟨[(x, y)], rfl, ?_, by simp, by simp⟩
        intro st hst
        simp only [List.mem_singleton] at hst
        subst hst
        simp only
        omega
      · rw [if_neg hnz]
        refine ⟨[], rfl, by simp, ?_, ?_⟩ <;> simp <;> omega

theorem Mouse_Move_loop_fuel (g : Bool) (b : Nat) :
    ∀ (f1 f2 : Nat) (x y : Int), x.natAbs + y.natAbs < f1 → x.natAbs + y.natAbs < f2 →
      Mouse_Move_loop g b f1 x y = Mouse_Move_loop g b f2 x y := by
  intro f1
  induction f1 with
  | zero =>
    intro f2 x y h
    omega
  | succ n ih =>
    intro f2 x y h1 h2
    cases f2 with
    | zero => omega
    | succ m =>
      unfold Mouse_Move_loop
      by_cases hbig : x.natAbs > 127 ∨ y.natAbs > 127
      · rw [if_pos hbig, if_pos hbig]
        simp only
        generalize hsx : (if x.natAbs ≤ 127 then x
          else if x > 0 then (127 : Int) else if x < 0 then -127 else 0) = sx
        generalize hsy : (if y.natAbs ≤ 127 then y
          else if y > 0 then (127 : Int) else if y < 0 then -127 else 0) = sy
        have hx : (x - sx).natAbs + sx.natAbs = x.natAbs ∧
            (x.natAbs > 127 → sx.natAbs = 127) := by
          rw [← hsx]
          split_ifs <;> omega
        have hy : (y - sy).natAbs + sy.natAbs = y.natAbs ∧
            (y.natAbs > 127 → sy.natAbs = 127) := by
          rw [← hsy]
          split_ifs <;> omega
        cases _send_report g (mouse_move_bytes b sx sy) 2 with
        | none => rfl
        | some buffer =>
          simp only
          rw [ih m (x - sx) (y - sy) (by omega) (by omega)]
      · rw [if_neg hbig, if_neg hbig]

/-- C36: the client's `Mouse_Move(x, y)` on an open device that accepts every
write, for any integers `x`, `y`: with more loop passes allowed than
`|x| + |y|` the function returns `true` (and the outcome is the same for every
such allowance, so the loop ends); the buffers it writes are those of a list
of steps `(sx, sy)` with both components in `[-127, 127]`, each buffer holding
the step in its bytes 3 and 4; the component-wise sum of the steps is
`(x, y)`; and `Mouse_Move(0, 0)` writes nothing. -/
theorem mouse_move_chunks (b : Nat) (fuel : Nat) (x y : Int)
    (hfuel : x.natAbs + y.natAbs < fuel) :
    (∃ steps : List (Int × Int),
      Mouse_Move true b fuel x y = some (steps.map (mouse_move_buffer b), true) ∧
      (∀ st ∈ steps, -127 ≤ st.1 ∧ st.1 ≤ 127 ∧ -127 ≤ st.2 ∧ st.2 ≤ 127 ∧
        asSigned8 (rd (mouse_move_buffer b st) 3) = st.1 ∧
        asSigned8 (rd (mouse_move_buffer b st) 4) = st.2) ∧
      (steps.map Prod.fst).sum = x ∧ (steps.map Prod.snd).sum = y) ∧
    (∀ fuel2 : Nat, x.natAbs + y.natAbs < fuel2 →
      Mouse_Move true b fuel2 x y = Mouse_Move true b fuel x y) ∧
    (∀ fuel0 : Nat, Mouse_Move true b fuel0 0 0 = some ([], true)) := by
  refine ⟨?_, ?_, ?_⟩
  · by_cases h0 : x = 0 ∧ y = 0
    · refine ⟨[], ?_, by simp, ?_, ?_⟩
      · unfold Mouse_Move
        rw [if_pos h0]
        rfl
      · simp [h0.1]
      · simp [h0.2]
    · obtain ⟨steps, h1, h2, h3, h4⟩ := Mouse_Move_loop_total b fuel x y hfuel
      refine ⟨steps, ?_, ?_, h3, h4⟩
      · unfold Mouse_Move
        rw [if_neg h0, h1]
      · intro st hst
        obtain ⟨a1, a2, a3, a4⟩ := h2 st hst
        refine ⟨a1, a2, a3, a4, ?_, ?_⟩
        · exact asSigned8_toUInt8 st.1 (by omega) a2
        · exact asSigned8_toUInt8 st.2 (by omega) a4
  · intro fuel2 h2
    unfold Mouse_Move
    split_ifs
    · rfl
    · exact Mouse_Move_loop_fuel true b fuel2 fuel x y h2 hfuel
  · intro fuel0
    unfold Mouse_Move
    simp

theorem mouse_move_chunks_witness :
    (300 : Int).natAbs + (-5 : Int).natAbs < 400 ∧
    Mouse_Move true 0 400 300 (-5)
      = some ([(127, -5), (127, 0), (46, 0)].map (mouse_move_buffer 0), true) ∧
    (∀ fuel2 : Nat, (300 : Int).natAbs + (-5 : Int).natAbs < fuel2 →
      Mouse_Move true 0 fuel2 300 (-5) = Mouse_Move true 0 400 300 (-5)) :=
  ⟨by decide, by decide, (mouse_move_chunks 0 400 300 (-5) (by decide)).2.1⟩

theorem signed_of_byte_toUInt8 (v : Int) (h1 : -128 ≤ v) (h2 : v ≤ 127) :
    signed_of_byte (toUInt8 v) = v := by
  unfold signed_of_byte toUInt8
  split_ifs <;> omega

theorem parse_mouse_report_none (data : List Nat) (data_size : Int) :
    HID_ParseMouseReport data data_size = none ↔ data_size < 4 := by
  unfold HID_ParseMouseReport
  simp only
  split_ifs <;> simp_all

/-- C37: the mirror report survives the trip to the client.  When the
forwarding loop, its mouse endpoint ready, dequeues the mouse report `r`
(signed fields in `[-128, 127]`) and the mirror tag `REPORT_ID_CUSTOM` is not
zero, the one custom report it transmits is the 64-byte buffer
`custom_report`, and `HID_ParseMouseReport` applied to these 64 bytes returns
`true` with `report_id` the tag, `buttons = r.buttons` and `x`, `y`, `wheel`
the fields of `r`; and `HID_ParseMouseReport` returns `false` exactly when
`data_size < 4`. -/
theorem mirror_round_trip (rid : Nat) (env : LoopEnv) (s : State) (r : mouse_report_t)
    (q : List mouse_report_t) (hrid : rid ≠ 0) (hr : env.mouse_ready = true)
    (hq : s.mouse_report_queue = r :: q)
    (hx : -128 ≤ r.x ∧ r.x ≤ 127) (hy : -128 ≤ r.y ∧ r.y ≤ 127)
    (hw : -128 ≤ r.wheel ∧ r.wheel ≤ 127) :
    (mouse_stage rid env s).2.filter Call.is_custom
      = [Call.custom_report (custom_report rid r)] ∧
    (custom_report rid r).length = 64 ∧
    HID_ParseMouseReport (custom_report rid r) 64
      = some ⟨(rid : Int), (r.buttons : Int), r.x, r.y, r.wheel⟩ ∧
    (∀ (data : List Nat) (data_size : Int),
      HID_ParseMouseReport data data_size = none ↔ data_size < 4) := by
  refine ⟨mouse_stage_dequeue_custom rid env s r q hr hq, by simp [custom_report], ?_,
    parse_mouse_report_none⟩
  have h0 : rd (custom_report rid r) 0 = rid := rfl
  have h1 : rd (custom_report rid r) 1 = r.buttons := rfl
  have h2 : rd (custom_report rid r) 2 = toUInt8 r.x := rfl
  have h3 : rd (custom_report rid r) 3 = toUInt8 r.y := rfl
  have h4 : rd (custom_report rid r) 4 = toUInt8 r.wheel := rfl
  unfold HID_ParseMouseReport
  simp only [h0, h1, h2, h3, h4, signed_of_byte_toUInt8 _ hx.1 hx.2,
    signed_of_byte_toUInt8 _ hy.1 hy.2, signed_of_byte_toUInt8 _ hw.1 hw.2]
  simp [hrid]

theorem mirror_round_trip_witness :
    (4 : Nat) ≠ 0 ∧ (LoopEnv.all_ready 0).mouse_ready = true ∧
    ({ State.init 4 with mouse_report_queue := [⟨1, -3, 5, -1⟩] } : State).mouse_report_queue
      = [⟨1, -3, 5, -1⟩] ∧
    HID_ParseMouseReport (custom_report 4 ⟨1, -3, 5, -1⟩) 64 = some ⟨4, 1, -3, 5, -1⟩ :=
  ⟨by decide, rfl, rfl,
    (mirror_round_trip 4 (LoopEnv.all_ready 0)
      { State.init 4 with mouse_report_queue := [⟨1, -3, 5, -1⟩] } ⟨1, -3, 5, -1⟩ []
      (by decide) rfl rfl (by decide) (by decide) (by decide)).2.2.1⟩

theorem desc_fill_step (cs : Bool) (str : List Nat) (n : Nat) (hn : n < str.length)
    (h32 : n < 32) (hascii : ∀ ch ∈ str, ch < 0x80) :
    (0 :: (str.take n ++ List.replicate (32 - n) 0)).set (1 + n) (char_to_u16 cs (rd str n))
      = 0 :: (str.take (n + 1) ++ List.replicate (32 - (n + 1)) 0) := by
  obtain ⟨m, hm⟩ : ∃ m, 32 - n = m + 1 := ⟨31 - n, by omega⟩
  have hm2 : 32 - (n + 1) = m := by omega
  have hrd : rd str n = str[n] := by
    simp only [rd, List.getD_eq_getElem?_getD, List.getElem?_eq_getElem hn, Option.getD_some]
  have hch : char_to_u16 cs (rd str n) = str[n] := by
    have := hascii str[n] (List.getElem_mem hn)
    unfold char_to_u16
    rw [hrd, if_neg (by omega)]
  rw [hch, hm, hm2, Nat.add_comm 1 n, List.set_cons_succ, List.replicate_succ]
  have hl : (str.take n).length = n := by
    rw [List.length_take]
    omega
  rw [List.set_append, if_neg (by omega), hl, Nat.sub_self, List.set_cons_zero]
  rw [List.take_succ, List.getElem?_eq_getElem hn]
  simp only [Option.toList_some, List.append_assoc, List.singleton_append]

theorem desc_fill (cs : Bool) (str : List Nat) (hascii : ∀ ch ∈ str, ch < 0x80) :
    ∀ n : Nat, n ≤ str.length → n ≤ 32 →
      (List.range n).foldl (fun d i => d.set (1 + i) (char_to_u16 cs (rd str i)))
          (List.replicate 33 0)
        = 0 :: (str.take n ++ List.replicate (32 - n) 0) := by
  intro n
  induction n with
  | zero =>
    intro _ _
    rfl
  | succ n ih =>
    intro h1 h2
    rw [List.range_succ, List.foldl_append, ih (by omega) (by omega)]
    simp only [List.foldl_cons, List.foldl_nil]
    exact desc_fill_step cs str n (by omega) (by omega) hascii

theorem desc_header (n : Nat) (h : n ≤ 32) :
    ((TUSB_DESC_STRING <<< 8) ||| (2 * n + 2)) % 2 ^ 16 = 0x0300 ||| (2 * n + 2) := by
  apply Nat.mod_eq_of_lt
  apply Nat.or_lt_two_pow
  · decide
  · omega

theorem desc_result (cs : Bool) (str : List Nat) (hl : 0 < str.length)
    (hascii : ∀ ch ∈ str, ch < 0x80) :
    (if 0 < (if 32 < str.length then 32 else str.length) then
      some
        (((List.range (if 32 < str.length then 32 else str.length)).foldl
            (fun d i => d.set (1 + i) (char_to_u16 cs (rd str i))) (List.replicate 33 0)).set 0
          (((TUSB_DESC_STRING <<< 8) |||
            (2 * (if 32 < str.length then 32 else str.length) + 2)) % 2 ^ 16))
      else none) = some (string_descriptor_words str) := by
  have hmin : (if 32 < str.length then 32 else str.length) = min str.length 32 := by
    split_ifs <;> omega
  rw [hmin, if_pos (by omega),
    desc_fill cs str hascii _ (Nat.min_le_left _ _) (Nat.min_le_right _ _),
    desc_header _ (Nat.min_le_right _ _)]
  rfl

theorem serial_valid (S : List Nat) (h : ∀ ch ∈ S, 0x20 ≤ ch ∧ ch ≤ 0x7F ∧ ch ≠ 0x2C) :
    S.any serial_char_invalid = false := by
  rw [List.any_eq_false]
  intro ch hch
  obtain ⟨h1, h2, h3⟩ := h ch hch
  simp only [serial_char_invalid, decide_eq_true_eq]
  omega

theorem serial_invalid (S : List Nat) (h : ∃ ch ∈ S, ch < 0x20 ∨ ch > 0x7F ∨ ch = 0x2C) :
    S.any serial_char_invalid = true := by
  rw [List.any_eq_true]
  obtain ⟨ch, hch, h1⟩ := h
  exact ⟨ch, hch, by simp only [serial_char_invalid, decide_eq_true_eq]; exact h1⟩

/-- C38: the callback `tud_descriptor_string_cb`, whatever the signedness of
`char` and the table strings `M` (index 1), `P` (index 2), `S` (index 3).  For
index 0 it returns word 0 `0x0304` and the language id `0x0409`.  For index 1
or 2 with a non-empty ASCII string, and for index 3 with a non-empty string
whose characters are all in `0x20..0x7F` and not the comma `0x2C`, it returns
the descriptor of `string_descriptor_words`: word 0 is `0x0300 | (2n + 2)`
with `n = min(L, 32)` and words 1..n are the first `n` characters.  For every
index of 4 or more, for an empty string, and for a serial string with an
invalid character it returns `NULL`. -/
theorem string_descriptor (cs : Bool) (M P S : List Nat) :
    tud_descriptor_string_cb cs M P S 0 = some ([0x0304, 0x0409] ++ List.replicate 31 0) ∧
    (M ≠ [] → (∀ ch ∈ M, ch < 0x80) →
      tud_descriptor_string_cb cs M P S 1 = some (string_descriptor_words M)) ∧
    (P ≠ [] → (∀ ch ∈ P, ch < 0x80) →
      tud_descriptor_string_cb cs M P S 2 = some (string_descriptor_words P)) ∧
    (S ≠ [] → (∀ ch ∈ S, 0x20 ≤ ch ∧ ch ≤ 0x7F ∧ ch ≠ 0x2C) →
      tud_descriptor_string_cb cs M P S 3 = some (string_descriptor_words S)) ∧
    (∀ str : List Nat,
      (string_descriptor_words str).length = 33 ∧
      rd (string_descriptor_words str) 0 = 0x0300 ||| (2 * min str.length 32 + 2) ∧
      ∀ k : Nat, k < min str.length 32 →
        rd (string_descriptor_words str) (1 + k) = rd str k) ∧
    (∀ index : Nat, 4 ≤ index → tud_descriptor_string_cb cs M P S index = none) ∧
    (M = [] → tud_descriptor_string_cb cs M P S 1 = none) ∧
    (P = [] → tud_descriptor_string_cb cs M P S 2 = none) ∧
    (S = [] → tud_descriptor_string_cb cs M P S 3 = none) ∧
    ((∃ ch ∈ S, ch < 0x20 ∨ ch > 0x7F ∨ ch = 0x2C) →
      tud_descriptor_string_cb cs M P S 3 = none) := by
  refine ⟨?_, ?_, ?_, ?_, ?_, ?_, ?_, ?_, ?_, ?_⟩
  · unfold tud_descriptor_string_cb
    simp only [STRID_LANGID, STRID_SERIAL, if_true]
    decide
  · intro h ha
    have hl : 0 < M.length := List.length_pos.mpr h
    unfold tud_descriptor_string_cb
    simp only [STRID_LANGID, STRID_SERIAL, List.getD_cons_succ, List.getD_cons_zero,
      List.length_cons, List.length_nil, OfNat.ofNat_ne_zero, Nat.succ_ne_zero, if_false,
      Nat.reduceEqDiff, Nat.reduceLT, Nat.reduceAdd, Nat.reduceSub, if_true, ne_eq,
      not_false_eq_true, true_and, gt_iff_lt, hl]
    exact desc_result cs M hl ha
  · intro h ha
    have hl : 0 < P.length := List.length_pos.mpr h
    unfold tud_descriptor_string_cb
    simp only [STRID_LANGID, STRID_SERIAL, List.getD_cons_succ, List.getD_cons_zero,
      List.length_cons, List.length_nil, OfNat.ofNat_ne_zero, Nat.succ_ne_zero, if_false,
      Nat.reduceEqDiff, Nat.reduceLT, Nat.reduceAdd, Nat.reduceSub, if_true, ne_eq,
      not_false_eq_true, true_and, gt_iff_lt, hl]
    exact desc_result cs P hl ha
  · intro h hv
    have hl : 0 < S.length := List.length_pos.mpr h
    unfold tud_descriptor_string_cb
    simp only [STRID_LANGID, STRID_SERIAL, List.getD_cons_succ, List.getD_cons_zero,
      List.length_cons, List.length_nil, OfNat.ofNat_ne_zero, Nat.succ_ne_zero, if_false,
      Nat.reduceEqDiff, Nat.reduceLT, Nat.reduceAdd, Nat.reduceSub, if_true, ne_eq,
      not_false_eq_true, true_and, gt_iff_lt, hl, serial_valid S hv, Bool.false_eq_true]
    exact desc_result cs S hl (fun ch hch => by have := hv ch hch; omega)
  · intro str
    refine ⟨?_, rfl, ?_⟩
    · simp only [string_descriptor_words, List.length_append, List.length_cons,
        List.length_nil, List.length_take, List.length_replicate]
      omega
    · intro k hk
      have hk2 : k < str.length := by omega
      simp only [string_descriptor_words, rd, List.singleton_append, List.cons_append,
        Nat.add_comm 1 k, List.getD_cons_succ]
      rw [List.getD_append _ _ _ _ (by simp only [List.nil_append, List.length_take]; omega)]
      simp [List.getD_eq_getElem?_getD, List.getElem?_take, hk, List.getElem?_eq_getElem hk2]
  · intro index h4
    have h0 : index ≠ 0 := by omega
    have h3 : index ≠ 3 := by omega
    have h5 : ¬ index < 4 := by omega
    unfold tud_descriptor_string_cb
    simp [STRID_LANGID, STRID_SERIAL, h0, h3, h5]
  · intro h
    unfold tud_descriptor_string_cb
    simp [STRID_LANGID, STRID_SERIAL, h]
  · intro h
    unfold tud_descriptor_string_cb
    simp [STRID_LANGID, STRID_SERIAL, h]
  · intro h
    unfold tud_descriptor_string_cb
    simp [STRID_LANGID, STRID_SERIAL, h]
  · intro h
    have hl : 0 < S.length := by
      obtain ⟨ch, hch, _⟩ := h
      exact List.length_pos_of_mem hch
    unfold tud_descriptor_string_cb
    simp only [STRID_LANGID, STRID_SERIAL, List.getD_cons_succ, List.getD_cons_zero,
      List.length_cons, List.length_nil, OfNat.ofNat_ne_zero, Nat.succ_ne_zero, if_false,
      Nat.reduceEqDiff, Nat.reduceLT, Nat.reduceAdd, Nat.reduceSub, if_true, ne_eq,
      not_false_eq_true, true_and, gt_iff_lt, hl, serial_invalid S h]

end HidRemapper
